import Mathlib

/-!
# USB BAM pipe connection manager (`drivers/platform/msm/usb_bam.c`)

A shallow embedding of the driver: the global variables of the C file become the
fields of `State`, and each function treated here becomes a Lean function from the
state (and the answers of the external collaborators) to a `Result`, which carries
the C return value, the new state and the ordered list of external calls that were
issued.

Conventions
* C pointers and handles are natural numbers, `0` being `NULL`.
* C arrays are functions from the index; `usb_bam_connections i` for
  `i ≥ max_connections` stands for whatever memory follows the table, so that the
  index checks of the code keep their meaning.
* `u8` arithmetic is written with an explicit `% 256`.
* Logging (`pr_err`, `pr_debug`) and `memset` of freshly mapped FIFOs are dropped. The
  code does not test what `ioremap` and `dma_alloc_coherent` return, and neither does
  the embedding: whatever address they give is stored and the call goes on.
* A call through a function pointer is recorded as an external call with the pointer
  value; nothing is said about what the callee does.
-/

namespace UsbBam

/-! ## Constants -/

/-- Value of the errno constant `ENOMEM`. -/
def ENOMEM : Int := 12

/-- Value of the errno constant `ENODEV`. -/
def ENODEV : Int := 19

/-- Value of the errno constant `EINVAL`. -/
def EINVAL : Int := 22

/-- Value of the errno constant `EINPROGRESS`. -/
def EINPROGRESS : Int := 115

/-- Length bound `USB_BAM_MAX_STR_LEN` used for every name comparison. -/
def USB_BAM_MAX_STR_LEN : Nat := 50

/-! ## Enumerations -/

/-- The bus instances, `enum usb_bam` (without the `MAX_BAMS` sentinel). -/
inductive usb_bam where
  | SSUSB_BAM
  | HSUSB_BAM
  | HSIC_BAM
deriving DecidableEq, Repr, Fintype

/-- Modelled from the spec: the numeric values of `enum usb_bam`, whose declaration
lives in a header outside this driver file; the spec only says there
is a small fixed number of instances, and the driver uses them as indices of
three-element arrays. -/
def usb_bam.val : usb_bam → Int
  | .SSUSB_BAM => 0
  | .HSUSB_BAM => 1
  | .HSIC_BAM => 2

/-- Pipe direction, `enum usb_bam_pipe_dir`. -/
inductive usb_bam_pipe_dir where
  | USB_TO_PEER_PERIPHERAL
  | PEER_PERIPHERAL_TO_USB
deriving DecidableEq, Repr

/-- Memory strategy of a pipe, `enum usb_pipe_mem_type`. The field is filled from a
32-bit configuration property, so it can hold a value that is none of the four
enumerators; `UNKNOWN_MEM raw` stands for such a value (it reaches the `default:`
label of every `switch`). -/
inductive usb_pipe_mem_type where
  | SPS_PIPE_MEM
  | USB_PRIVATE_MEM
  | SYSTEM_MEM
  | OCI_MEM
  | UNKNOWN_MEM (raw : Nat)
deriving DecidableEq, Repr

/-- Kind of a deferred event, `enum usb_bam_event_type`. -/
inductive usb_bam_event_type where
  | USB_BAM_EVENT_WAKEUP_PIPE
  | USB_BAM_EVENT_WAKEUP
  | USB_BAM_EVENT_INACTIVITY
deriving DecidableEq, Repr

/-- Negotiation outcome, the two values of `enum ipa_rm_event` the driver stores. -/
inductive ipa_rm_event where
  | IPA_RM_RESOURCE_GRANTED
  | IPA_RM_RESOURCE_RELEASED
deriving DecidableEq, Repr

/-- States of the peer handshake, `enum usb_bam_sm`. -/
inductive usb_bam_sm where
  | USB_BAM_SM_INIT
  | USB_BAM_SM_PLUG_NOTIFIED
  | USB_BAM_SM_PLUG_ACKED
  | USB_BAM_SM_UNPLUG_NOTIFIED
deriving DecidableEq, Repr

/-- Connection mode handed to the pipe backend, `SPS_MODE_SRC` or `SPS_MODE_DEST`. -/
inductive sps_mode where
  | SPS_MODE_SRC
  | SPS_MODE_DEST
deriving DecidableEq, Repr

/-- Timer operations of the pipe backend. -/
inductive sps_timer_op where
  | SPS_TIMER_OP_CONFIG
  | SPS_TIMER_OP_RESET
deriving DecidableEq, Repr

/-- The four per-instance completion arrays of the driver. -/
inductive completion_array where
  | prod_avail
  | cons_avail
  | cons_released
  | prod_released
deriving DecidableEq, Repr

/-- A clock handle as returned by `devm_clk_get`: a valid handle or an error pointer. -/
inductive clk where
  | ok (handle : Nat)
  | err (errno : Int)
deriving DecidableEq, Repr

/-- The kernel test `IS_ERR` on a clock handle. -/
def IS_ERR : clk → Bool
  | .ok _ => false
  | .err _ => true

/-! ## Records -/

/-- FIFO descriptor, `struct sps_mem_buffer`. -/
structure sps_mem_buffer where
  base : Nat
  phys_base : Nat
  size : Nat
deriving DecidableEq, Repr

/-- The option bits of `struct sps_connect` the driver sets or clears; `rest` keeps
the bits the driver never names. -/
structure sps_options where
  SPS_O_AUTO_ENABLE : Bool
  SPS_O_WAKEUP : Bool
  SPS_O_WAKEUP_IS_ONESHOT : Bool
  SPS_O_NO_DISABLE : Bool
  rest : Nat
deriving DecidableEq, Repr

/-- The option word holding exactly `SPS_O_AUTO_ENABLE`. -/
def sps_options.auto_enable_only : sps_options :=
  { SPS_O_AUTO_ENABLE := true, SPS_O_WAKEUP := false, SPS_O_WAKEUP_IS_ONESHOT := false,
    SPS_O_NO_DISABLE := false, rest := 0 }

/-- The option word `0`. -/
def sps_options.zero : sps_options :=
  { SPS_O_AUTO_ENABLE := false, SPS_O_WAKEUP := false, SPS_O_WAKEUP_IS_ONESHOT := false,
    SPS_O_NO_DISABLE := false, rest := 0 }

/-- The option word holding exactly `SPS_O_NO_DISABLE`. -/
def sps_options.no_disable_only : sps_options :=
  { SPS_O_AUTO_ENABLE := false, SPS_O_WAKEUP := false, SPS_O_WAKEUP_IS_ONESHOT := false,
    SPS_O_NO_DISABLE := true, rest := 0 }

/-- Backend connection parameters, the fields of `struct sps_connect` the driver uses. -/
structure sps_connect where
  source : Nat
  destination : Nat
  mode : sps_mode
  src_pipe_index : Nat
  dest_pipe_index : Nat
  event_thresh : Nat
  options : sps_options
  data : sps_mem_buffer
  desc : sps_mem_buffer
deriving DecidableEq, Repr

/-- Deferred event descriptor embedded in a connection, `struct usb_bam_event_info`
(type, callback pointer and its parameter). -/
structure usb_bam_event_info where
  type : usb_bam_event_type
  callback : Nat
  param : Nat
deriving DecidableEq, Repr

/-- One row of the connection table, `struct usb_bam_pipe_connect`. -/
structure usb_bam_pipe_connect where
  name : List Char
  bam_type : usb_bam
  peer_bam : Nat
  dir : usb_bam_pipe_dir
  pipe_num : Nat
  mem_type : usb_pipe_mem_type
  src_phy_addr : Nat
  src_pipe_index : Nat
  dst_phy_addr : Nat
  dst_pipe_index : Nat
  data_fifo_base_offset : Nat
  data_fifo_size : Nat
  desc_fifo_base_offset : Nat
  desc_fifo_size : Nat
  data_mem_buf : sps_mem_buffer
  desc_mem_buf : sps_mem_buffer
  enabled : Bool
  activity_notify : Nat
  inactivity_notify : Nat
  priv : Nat
  event : usb_bam_event_info
deriving DecidableEq, Repr

/-- The fields of `struct msm_usb_bam_platform_data` the driver fills and reads. -/
structure msm_usb_bam_platform_data where
  usb_bam_fifo_baseaddr : Nat
  reset_on_connect : usb_bam → Bool
  usb_bam_num_pipes : Nat := 0
  ignore_core_reset_ack : Bool := false
  disable_clk_gating : Bool := false

/-- The handshake singleton, `struct usb_bam_peer_handshake_info`; `reset_callback`
and `reset_param` are `reset_event.callback` and `reset_event.param`. -/
structure usb_bam_peer_handshake_info where
  state : usb_bam_sm
  client_ready : Bool
  ack_received : Bool
  pending_work : Int
  reset_callback : Nat
  reset_param : Nat
deriving DecidableEq, Repr

/-- Parameters of an accelerator connect, `struct usb_bam_connect_ipa_params`
(input fields). -/
structure usb_bam_connect_ipa_params where
  dir : usb_bam_pipe_dir
  src_idx : Nat
  dst_idx : Nat
  activity_notify : Nat
  inactivity_notify : Nat
  priv : Nat
  notify : Nat
  client : Nat
deriving DecidableEq, Repr

/-- What `ipa_connect` hands back, `struct ipa_sps_params`. -/
structure ipa_sps_params where
  ipa_bam_hdl : Nat
  ipa_ep_idx : Nat
  data : sps_mem_buffer
  desc : sps_mem_buffer
deriving DecidableEq, Repr

/-! ## External calls -/

/-- One call into an external collaborator (pipe backend, accelerator, negotiation
service, clocks, memory mapping, shared cross-processor state, work queue, user
callbacks), with the arguments the driver passes. -/
inductive Op where
  | sps_device_reset (h_bam : Nat)
  | sps_alloc_endpoint
  | sps_get_config (pipe : Nat)
  | sps_phy2h (phys_addr : Nat)
  | sps_setup_bam2bam_fifo (base_offset : Nat) (size : Nat)
  | clk_prepare_enable (c : clk)
  | clk_disable_unprepare (c : clk)
  | writel_relaxed_qscratch_ram1 (value : Nat)
  | ioremap (phys_base : Nat) (size : Nat)
  | iounmap (base : Nat)
  | dma_alloc_coherent (size : Nat)
  | dma_free_coherent (size : Nat) (base : Nat) (phys_base : Nat)
  | sps_connect (pipe : Nat)
  | sps_disconnect (pipe : Nat)
  | sps_free_endpoint (pipe : Nat)
  | sps_timer_ctrl (pipe : Nat) (op : sps_timer_op) (timeout_msec : Nat)
  | ipa_connect (client_bam_hdl : Nat) (client_ep_idx : Nat)
  | ipa_disconnect (clnt_hdl : Nat)
  | ipa_rm_request_resource_prod (bam : usb_bam)
  | ipa_rm_notify_completion_cons (event : ipa_rm_event) (bam : usb_bam)
  | wait_for_completion_timeout (c : completion_array) (bam : usb_bam)
  | smsm_change_state_apps (clear_plug_unplug : Bool) (set_plug_unplug : Bool)
  | peer_reset_callback (callback : Nat) (param : Nat)
  | queue_work_handshake
  | queue_work_event (idx : Nat)
  | event_callback (callback : Nat) (param : Nat)
  | sps_register_event (pipe : Nat) (idx : Nat) (wake_cb : Bool)
  | sps_set_config (pipe : Nat)
  | ipa_rm_release_resource_prod (bam : usb_bam)
  | pm_runtime_resume (dev : Nat)
  | pm_runtime_put_noidle (dev : Nat)
  | pm_runtime_suspend (dev : Nat)
deriving DecidableEq, Repr

/-- An access the C code makes outside the object it addresses, or a `BUG_ON` that
fires. The embedding stops there, since what such an access reads or overwrites depends
on the memory layout, and a `BUG_ON` halts the kernel thread. -/
inductive fault where
  | array_index (index : Int)
  | null_pointer
  | bug
deriving DecidableEq, Repr

/-- Answers of the external collaborators during one driver call. Each field is the
value returned at one call site; the `_out` fields are what the callee stores through
its output pointer, taken to be stored only when the call reports success. -/
structure Backend where
  sps_alloc_endpoint : Nat
  sps_get_config : Int
  sps_get_config_out : sps_connect
  sps_phy2h_src : Int
  sps_phy2h_src_out : Nat
  sps_phy2h_dst : Int
  sps_phy2h_dst_out : Nat
  sps_phy2h_usb : Int
  sps_phy2h_usb_out : Nat
  sps_setup_bam2bam_fifo_data : Int
  sps_setup_bam2bam_fifo_data_out : sps_mem_buffer
  sps_setup_bam2bam_fifo_desc : Int
  sps_setup_bam2bam_fifo_desc_out : sps_mem_buffer
  ioremap_data : Nat
  ioremap_desc : Nat
  dma_alloc_coherent_data : Nat
  dma_alloc_coherent_data_phys : Nat
  dma_alloc_coherent_desc : Nat
  dma_alloc_coherent_desc_phys : Nat
  sps_connect : Int
  ipa_connect : Int
  ipa_connect_out : ipa_sps_params
  ipa_connect_clnt_hdl : Nat
  ipa_rm_request_resource : Int
  wait_for_completion_timeout : Nat
deriving DecidableEq, Repr

/-! ## Global state -/

/-- The global variables of the driver: `ctx`, `usb_bam_connections`, the negotiation
state arrays, the low-power flags, `peer_handshake_info`, and the function-static
`last_processed_state` of `usb_bam_ack_toggle_cb` (the masked plug/unplug bit, so a
truth value). The four completion arrays hold the `done` flag of each completion. -/
structure State where
  usb_bam_pdev : Bool
  pdata : msm_usb_bam_platform_data
  max_connections : Nat
  usb_bam_connections : Nat → usb_bam_pipe_connect
  sps_pipes : Nat → Nat
  sps_connections : Nat → sps_connect
  mem_clk : clk
  mem_iface_clk : clk
  h_bam : usb_bam → Nat
  pipes_enabled_per_bam : usb_bam → Nat
  inactivity_timer_ms : usb_bam → Nat
  is_bam_inactivity : usb_bam → Bool
  cur_prod_state : usb_bam → ipa_rm_event
  cur_cons_state : usb_bam → ipa_rm_event
  sched_lpm : Int
  lpm_wait_handshake : Int
  prod_avail : usb_bam → Bool
  cons_avail : usb_bam → Bool
  cons_released : usb_bam → Bool
  prod_released : usb_bam → Bool
  peer_handshake_info : usb_bam_peer_handshake_info
  last_processed_state : Bool

/-- Outcome of one driver call: the C return value, the state afterwards, the
external calls in the order they were issued, and the values stored through the
caller's output pointers (`none` when nothing was stored). -/
structure Result where
  ret : Int
  st : State
  ops : List Op
  pipe_idx : Option Nat
  clnt_hdl : Option Nat

/-! ## State helpers -/

/-- Store `v` into `ctx.usb_bam_sps.sps_pipes[idx]`. -/
def State.set_sps_pipe (s : State) (idx : Nat) (v : Nat) : State :=
  { s with sps_pipes := Function.update s.sps_pipes idx v }

/-- Apply `f` to `ctx.usb_bam_sps.sps_connections[idx]`. -/
def State.modify_sps_connection (s : State) (idx : Nat) (f : sps_connect → sps_connect) :
    State :=
  { s with sps_connections := Function.update s.sps_connections idx (f (s.sps_connections idx)) }

/-- Apply `f` to `usb_bam_connections[idx]`. -/
def State.modify_connection (s : State) (idx : Nat)
    (f : usb_bam_pipe_connect → usb_bam_pipe_connect) : State :=
  { s with
    usb_bam_connections :=
      Function.update s.usb_bam_connections idx (f (s.usb_bam_connections idx)) }

/-- Store `v` into `ctx.pipes_enabled_per_bam[bam]`. -/
def State.set_pipes_enabled (s : State) (bam : usb_bam) (v : Nat) : State :=
  { s with pipes_enabled_per_bam := Function.update s.pipes_enabled_per_bam bam v }

/-- A call that returns `ret` in state `s` after issuing `ops`, storing nothing
through output pointers. -/
def Result.plain (ret : Int) (s : State) (ops : List Op) : Result :=
  { ret := ret, st := s, ops := ops, pipe_idx := none, clnt_hdl := none }

/-! ## Instance names -/

/-- Modelled from the spec: the kernel library routine `strnstr(s1, s2, len)` is not
part of the driver file. The driver uses it only as a test, and the spec speaks of
names that contain an instance name: does `s2` occur as a substring within the first
`len` characters of `s1`. The strings are the characters before the terminating NUL. -/
def strnstr (s1 s2 : List Char) (len : Nat) : Bool :=
  decide (s2 <:+: s1.take len)

/-- The table `bam_enable_strings`. -/
def bam_enable_strings : usb_bam → List Char
  | .SSUSB_BAM => "ssusb".toList
  | .HSUSB_BAM => "hsusb".toList
  | .HSIC_BAM => "hsic".toList

/-- The function `get_bam_type_from_core_name`: the instance number, or `-EINVAL`. -/
def get_bam_type_from_core_name (name : List Char) : Int :=
  if strnstr name (bam_enable_strings .SSUSB_BAM) USB_BAM_MAX_STR_LEN ||
      strnstr name "dwc3".toList USB_BAM_MAX_STR_LEN then
    usb_bam.SSUSB_BAM.val
  else if strnstr name (bam_enable_strings .HSIC_BAM) USB_BAM_MAX_STR_LEN then
    usb_bam.HSIC_BAM.val
  else if strnstr name (bam_enable_strings .HSUSB_BAM) USB_BAM_MAX_STR_LEN ||
      strnstr name "ci".toList USB_BAM_MAX_STR_LEN then
    usb_bam.HSUSB_BAM.val
  else
    -EINVAL

/-! ## Inactivity timer -/

/-- The function `usb_bam_set_inactivity_timer`: takes the pipe handle stored for the
first connection of the instance and, unless that handle is `NULL`, configures and
resets the one-shot timer. Only external calls are made; the state is not written. -/
def usb_bam_set_inactivity_timer (s : State) (bam : usb_bam) : List Op :=
  let pipe :=
    match (List.range s.max_connections).find?
        (fun i => decide ((s.usb_bam_connections i).bam_type = bam)) with
    | some i => s.sps_pipes i
    | none => 0
  if pipe = 0 then
    []
  else
    [Op.sps_timer_ctrl pipe .SPS_TIMER_OP_CONFIG (s.inactivity_timer_ms bam),
     Op.sps_timer_ctrl pipe .SPS_TIMER_OP_RESET (s.inactivity_timer_ms bam)]

/-! ## Connecting a pipe -/

/-- The label `free_sps_endpoint:` of `connect_pipe`: free the endpoint, return `ret`. -/
def connect_pipe_free_sps_endpoint (ret : Int) (s : State) (ops : List Op) (pipe : Nat)
    (out : Option Nat) : Result :=
  { ret := ret, st := s, ops := ops ++ [Op.sps_free_endpoint pipe], pipe_idx := out,
    clnt_hdl := none }

/-- The label `error:` of `connect_pipe`: disconnect, then fall into
`free_sps_endpoint:`. -/
def connect_pipe_error (ret : Int) (s : State) (ops : List Op) (pipe : Nat)
    (out : Option Nat) : Result :=
  connect_pipe_free_sps_endpoint ret s (ops ++ [Op.sps_disconnect pipe]) pipe out

/-- The tail of `connect_pipe` after the `switch`: copy both FIFO descriptors into the
backend parameters, set threshold 16 and the auto-enable option, and call
`sps_connect`. -/
def connect_pipe_finish (s : State) (be : Backend) (idx : Nat) (ops : List Op) (pipe : Nat)
    (out : Option Nat) : Result :=
  let pipe_connect := s.usb_bam_connections idx
  let s1 := s.modify_sps_connection idx (fun c =>
    { c with data := pipe_connect.data_mem_buf, desc := pipe_connect.desc_mem_buf,
             event_thresh := 16, options := sps_options.auto_enable_only })
  let ops1 := ops ++ [Op.sps_connect pipe]
  if be.sps_connect < 0 then
    connect_pipe_error be.sps_connect s1 ops1 pipe out
  else
    { ret := 0, st := s1, ops := ops1, pipe_idx := out, clnt_hdl := none }

/-- The `case OCI_MEM:` arm of `connect_pipe`, also reached by falling through from
`case USB_PRIVATE_MEM:`: map both FIFOs at offset plus platform base address. -/
def connect_pipe_oci_mem (s : State) (be : Backend) (idx : Nat) (ops : List Op) (pipe : Nat)
    (out : Option Nat) : Result :=
  let pipe_connect := s.usb_bam_connections idx
  let data_phys := pipe_connect.data_fifo_base_offset + s.pdata.usb_bam_fifo_baseaddr
  let desc_phys := pipe_connect.desc_fifo_base_offset + s.pdata.usb_bam_fifo_baseaddr
  let s1 := s.modify_connection idx (fun c =>
    { c with
      data_mem_buf :=
        { phys_base := data_phys, size := pipe_connect.data_fifo_size, base := be.ioremap_data },
      desc_mem_buf :=
        { phys_base := desc_phys, size := pipe_connect.desc_fifo_size, base := be.ioremap_desc } })
  connect_pipe_finish s1 be idx
    (ops ++ [Op.ioremap data_phys pipe_connect.data_fifo_size,
             Op.ioremap desc_phys pipe_connect.desc_fifo_size]) pipe out

/-- The `switch (pipe_connect->mem_type)` of `connect_pipe`. `ret` is the value the
local variable `ret` holds on entry (the status of the last `sps_phy2h`). -/
def connect_pipe_mem (ret : Int) (s : State) (be : Backend) (idx : Nat) (ops : List Op)
    (pipe : Nat) (out : Option Nat) : Result :=
  let pipe_connect := s.usb_bam_connections idx
  match pipe_connect.mem_type with
  | .SPS_PIPE_MEM =>
    let ops1 := ops ++ [Op.sps_setup_bam2bam_fifo pipe_connect.data_fifo_base_offset
                          pipe_connect.data_fifo_size]
    if be.sps_setup_bam2bam_fifo_data ≠ 0 then
      connect_pipe_free_sps_endpoint be.sps_setup_bam2bam_fifo_data s ops1 pipe out
    else
      let s1 := s.modify_connection idx (fun c =>
        { c with data_mem_buf := be.sps_setup_bam2bam_fifo_data_out })
      let ops2 := ops1 ++ [Op.sps_setup_bam2bam_fifo pipe_connect.desc_fifo_base_offset
                            pipe_connect.desc_fifo_size]
      if be.sps_setup_bam2bam_fifo_desc ≠ 0 then
        connect_pipe_free_sps_endpoint be.sps_setup_bam2bam_fifo_desc s1 ops2 pipe out
      else
        let s2 := s1.modify_connection idx (fun c =>
          { c with desc_mem_buf := be.sps_setup_bam2bam_fifo_desc_out })
        connect_pipe_finish s2 be idx ops2 pipe out
  | .USB_PRIVATE_MEM =>
    if IS_ERR s.mem_clk || IS_ERR s.mem_iface_clk then
      connect_pipe_free_sps_endpoint (if IS_ERR s.mem_clk then 1 else 0) s ops pipe out
    else
      let ops1 := ops ++ [Op.clk_prepare_enable s.mem_clk,
                          Op.clk_prepare_enable s.mem_iface_clk]
      let bam := pipe_connect.bam_type
      if bam.val < 0 then
        connect_pipe_free_sps_endpoint ret s ops1 pipe out
      else
        let ram1_value := if bam = usb_bam.HSUSB_BAM then 0x4 else 0x7
        connect_pipe_oci_mem s be idx (ops1 ++ [Op.writel_relaxed_qscratch_ram1 ram1_value])
          pipe out
  | .OCI_MEM => connect_pipe_oci_mem s be idx ops pipe out
  | .SYSTEM_MEM =>
    let s1 := s.modify_connection idx (fun c =>
      { c with
        data_mem_buf :=
          { size := pipe_connect.data_fifo_size, base := be.dma_alloc_coherent_data,
            phys_base := be.dma_alloc_coherent_data_phys },
        desc_mem_buf :=
          { size := pipe_connect.desc_fifo_size, base := be.dma_alloc_coherent_desc,
            phys_base := be.dma_alloc_coherent_desc_phys } })
    connect_pipe_finish s1 be idx
      (ops ++ [Op.dma_alloc_coherent pipe_connect.data_fifo_size,
               Op.dma_alloc_coherent pipe_connect.desc_fifo_size]) pipe out
  | .UNKNOWN_MEM _ => connect_pipe_free_sps_endpoint ret s ops pipe out

/-- The function `connect_pipe`. -/
def connect_pipe (s : State) (be : Backend) (idx : Nat) : Result :=
  let pipe_connect := s.usb_bam_connections idx
  let dir := pipe_connect.dir
  let pipe := be.sps_alloc_endpoint
  let s1 := s.set_sps_pipe idx pipe
  let ops1 := [Op.sps_alloc_endpoint]
  if pipe = 0 then
    Result.plain (-ENOMEM) s1 ops1
  else
    let ops2 := ops1 ++ [Op.sps_get_config pipe]
    if be.sps_get_config ≠ 0 then
      connect_pipe_free_sps_endpoint be.sps_get_config s1 ops2 pipe none
    else
      let s2 := s1.modify_sps_connection idx (fun _ => be.sps_get_config_out)
      let ops3 := ops2 ++ [Op.sps_phy2h pipe_connect.src_phy_addr]
      if be.sps_phy2h_src ≠ 0 then
        connect_pipe_free_sps_endpoint be.sps_phy2h_src s2 ops3 pipe none
      else
        let s3 := s2.modify_sps_connection idx (fun c =>
          { c with source := be.sps_phy2h_src_out,
                   src_pipe_index := pipe_connect.src_pipe_index })
        let ops4 := ops3 ++ [Op.sps_phy2h pipe_connect.dst_phy_addr]
        if be.sps_phy2h_dst ≠ 0 then
          connect_pipe_free_sps_endpoint be.sps_phy2h_dst s3 ops4 pipe none
        else
          let s4 := s3.modify_sps_connection idx (fun c =>
            { c with destination := be.sps_phy2h_dst_out,
                     dest_pipe_index := pipe_connect.dst_pipe_index })
          if dir = usb_bam_pipe_dir.USB_TO_PEER_PERIPHERAL then
            connect_pipe_mem be.sps_phy2h_dst
              (s4.modify_sps_connection idx (fun c => { c with mode := .SPS_MODE_SRC }))
              be idx ops4 pipe (some pipe_connect.src_pipe_index)
          else
            connect_pipe_mem be.sps_phy2h_dst
              (s4.modify_sps_connection idx (fun c => { c with mode := .SPS_MODE_DEST }))
              be idx ops4 pipe (some pipe_connect.dst_pipe_index)

/-- The function `usb_bam_connect`. `bam_pipe_idx` tells whether the output pointer is
non-`NULL`. The index test is the one of the source, `idx > ctx.max_connections`
(`idx < 0` cannot hold for a `u8`). -/
def usb_bam_connect (s : State) (be : Backend) (idx : Nat) (bam_pipe_idx : Bool) : Result :=
  let pipe_connect := s.usb_bam_connections idx
  if !s.usb_bam_pdev then
    Result.plain (-ENODEV) s []
  else if pipe_connect.enabled then
    Result.plain 0 s []
  else if !bam_pipe_idx then
    Result.plain (-EINVAL) s []
  else if idx > s.max_connections then
    Result.plain (-EINVAL) s []
  else
    let ops0 :=
      if s.pdata.reset_on_connect pipe_connect.bam_type = true ∧
          s.pipes_enabled_per_bam pipe_connect.bam_type = 0 then
        [Op.sps_device_reset (s.h_bam pipe_connect.bam_type)]
      else []
    let r := connect_pipe s be idx
    if r.ret ≠ 0 then
      { r with ops := ops0 ++ r.ops }
    else
      let s1 := r.st.modify_connection idx (fun c => { c with enabled := true })
      let bam := (s1.usb_bam_connections idx).bam_type
      let s2 := s1.set_pipes_enabled bam ((s1.pipes_enabled_per_bam bam + 1) % 256)
      { ret := 0, st := s2, ops := ops0 ++ r.ops, pipe_idx := r.pipe_idx, clnt_hdl := none }

/-! ## Disconnecting a pipe -/

/-- The function `disconnect_pipe`: tear down the endpoint, release the FIFO memory
according to the memory strategy, clear the auto-enable option; always returns 0. -/
def disconnect_pipe (s : State) (idx : Nat) : Result :=
  let pipe_connect := s.usb_bam_connections idx
  let pipe := s.sps_pipes idx
  let sps_connection := s.sps_connections idx
  let ops0 := [Op.sps_disconnect pipe, Op.sps_free_endpoint pipe]
  let unmap := [Op.iounmap sps_connection.data.base, Op.iounmap sps_connection.desc.base]
  let ops1 :=
    match pipe_connect.mem_type with
    | .SYSTEM_MEM =>
      (if sps_connection.data.phys_base ≠ 0 then
        [Op.dma_free_coherent sps_connection.data.size sps_connection.data.base
          sps_connection.data.phys_base]
       else []) ++
      (if sps_connection.desc.phys_base ≠ 0 then
        [Op.dma_free_coherent sps_connection.desc.size sps_connection.desc.base
          sps_connection.desc.phys_base]
       else [])
    | .USB_PRIVATE_MEM =>
      [Op.writel_relaxed_qscratch_ram1 0x0, Op.clk_disable_unprepare s.mem_clk,
       Op.clk_disable_unprepare s.mem_iface_clk] ++ unmap
    | .OCI_MEM => unmap
    | .SPS_PIPE_MEM => []
    | .UNKNOWN_MEM _ => []
  let s1 := s.modify_sps_connection idx (fun c =>
    { c with options := { c.options with SPS_O_AUTO_ENABLE := false } })
  Result.plain 0 s1 (ops0 ++ ops1)

/-- The function `usb_bam_disconnect_pipe`. -/
def usb_bam_disconnect_pipe (s : State) (idx : Nat) : Result :=
  let pipe_connect := s.usb_bam_connections idx
  if !pipe_connect.enabled then
    Result.plain 0 s []
  else
    let r := disconnect_pipe s idx
    if r.ret ≠ 0 then
      r
    else
      let s1 := r.st.modify_connection idx (fun c => { c with enabled := false })
      let bam := (s1.usb_bam_connections idx).bam_type
      if s1.pipes_enabled_per_bam bam = 0 then
        Result.plain 0 s1 r.ops
      else
        Result.plain 0 (s1.set_pipes_enabled bam (s1.pipes_enabled_per_bam bam - 1)) r.ops

/-! ## Connecting a pipe to the accelerator -/

/-- The function `wait_for_prod_granted`. The two tests on the current grant state
only log, so they leave no trace here. The timed wait is an external blocking call;
what other contexts store while it blocks is not part of this function. -/
def wait_for_prod_granted (s : State) (be : Backend) (cur_bam : usb_bam) : State × List Op :=
  let s1 := { s with prod_avail := Function.update s.prod_avail cur_bam false,
                     cons_avail := Function.update s.cons_avail cur_bam false }
  let ops1 := [Op.ipa_rm_request_resource_prod cur_bam]
  if be.ipa_rm_request_resource = 0 then
    ({ s1 with
        cur_prod_state := Function.update s1.cur_prod_state cur_bam .IPA_RM_RESOURCE_GRANTED,
        prod_avail := Function.update s1.prod_avail cur_bam true }, ops1)
  else if be.ipa_rm_request_resource = -EINPROGRESS then
    (s1, ops1 ++ [Op.wait_for_completion_timeout .prod_avail cur_bam])
  else
    (s1, ops1)

/-- The labels `error:`, `free_sps_endpoints:` and `disconnect_ipa:` of
`connect_pipe_ipa`, entered at depth `from_label` (2 = `error`, 1 =
`free_sps_endpoints`, 0 = `disconnect_ipa`). -/
def connect_pipe_ipa_unwind (from_label : Nat) (ret : Int) (s : State) (ops : List Op)
    (pipe : Nat) (clnt_hdl : Nat) (out_pipe : Option Nat) (out_hdl : Option Nat) : Result :=
  { ret := ret, st := s,
    ops := ops ++ (if 2 ≤ from_label then [Op.sps_disconnect pipe] else []) ++
      (if 1 ≤ from_label then [Op.sps_free_endpoint pipe] else []) ++
      [Op.ipa_disconnect clnt_hdl],
    pipe_idx := out_pipe, clnt_hdl := out_hdl }

/-- The direction-dependent stores of `connect_pipe_ipa` between `sps_get_config` and
`sps_connect`: mode, handles and pipe indices of the backend parameters, and the
accelerator's endpoint index recorded in the connection row. -/
def connect_pipe_ipa_direction (s : State) (idx : Nat) (dir : usb_bam_pipe_dir)
    (usb_handle : Nat) (sps_out_params : ipa_sps_params) : State :=
  let pipe_connect := s.usb_bam_connections idx
  if dir = usb_bam_pipe_dir.USB_TO_PEER_PERIPHERAL then
    (s.modify_sps_connection idx (fun c =>
      { c with mode := .SPS_MODE_SRC, source := usb_handle,
               destination := sps_out_params.ipa_bam_hdl,
               src_pipe_index := pipe_connect.src_pipe_index,
               dest_pipe_index := sps_out_params.ipa_ep_idx,
               options := sps_options.no_disable_only })).modify_connection idx
      (fun c => { c with dst_pipe_index := sps_out_params.ipa_ep_idx })
  else
    (s.modify_sps_connection idx (fun c =>
      { c with mode := .SPS_MODE_DEST, source := sps_out_params.ipa_bam_hdl,
               destination := usb_handle,
               src_pipe_index := sps_out_params.ipa_ep_idx,
               dest_pipe_index := pipe_connect.dst_pipe_index,
               options := sps_options.zero })).modify_connection idx
      (fun c => { c with src_pipe_index := sps_out_params.ipa_ep_idx })

/-- The pipe index `connect_pipe_ipa` stores through `src_pipe` or `dst_pipe`. -/
def connect_pipe_ipa_out_pipe (s : State) (idx : Nat) (dir : usb_bam_pipe_dir) : Nat :=
  if dir = usb_bam_pipe_dir.USB_TO_PEER_PERIPHERAL then (s.usb_bam_connections idx).src_pipe_index
  else (s.usb_bam_connections idx).dst_pipe_index

/-- The inactivity-timer block at the end of a successful `connect_pipe_ipa`: the
timer is armed upon the first pipe of an instance that has a timeout configured and
an inactivity callback. -/
def connect_pipe_ipa_timer (s : State) (idx : Nat) : List Op :=
  let bam := (s.usb_bam_connections idx).bam_type
  if s.pipes_enabled_per_bam bam = 0 ∧ s.inactivity_timer_ms bam ≠ 0 ∧
      (s.usb_bam_connections idx).inactivity_notify ≠ 0 then
    usb_bam_set_inactivity_timer s bam
  else []

/-- The part of `connect_pipe_ipa` from the call of `ipa_connect` on. `usb_handle` is
the handle obtained from `sps_phy2h`. -/
def connect_pipe_ipa_connect (s : State) (be : Backend) (idx : Nat)
    (ipa_params : usb_bam_connect_ipa_params) (usb_handle : Nat) (client_ep_idx : Nat)
    (ops : List Op) : Result :=
  let ops1 := ops ++ [Op.ipa_connect usb_handle client_ep_idx]
  if be.ipa_connect ≠ 0 then
    Result.plain be.ipa_connect s ops1
  else
    let sps_out_params := be.ipa_connect_out
    let clnt_hdl := be.ipa_connect_clnt_hdl
    let pipe := be.sps_alloc_endpoint
    let s1 := s.set_sps_pipe idx pipe
    let ops2 := ops1 ++ [Op.sps_alloc_endpoint]
    if pipe = 0 then
      connect_pipe_ipa_unwind 0 (-ENOMEM) s1 ops2 pipe clnt_hdl none none
    else
      let ops3 := ops2 ++ [Op.sps_get_config pipe]
      if be.sps_get_config ≠ 0 then
        connect_pipe_ipa_unwind 1 be.sps_get_config s1 ops3 pipe clnt_hdl none none
      else
        let s2 := s1.modify_sps_connection idx (fun _ => be.sps_get_config_out)
        let s3 := connect_pipe_ipa_direction s2 idx ipa_params.dir usb_handle sps_out_params
        let out_pipe := some (connect_pipe_ipa_out_pipe s2 idx ipa_params.dir)
        let s4 := s3.modify_sps_connection idx (fun c =>
          { c with data := sps_out_params.data, desc := sps_out_params.desc,
                   event_thresh := 16,
                   options := { c.options with SPS_O_AUTO_ENABLE := true } })
        let ops4 := ops3 ++ [Op.sps_connect pipe]
        if be.sps_connect < 0 then
          connect_pipe_ipa_unwind 2 be.sps_connect s4 ops4 pipe clnt_hdl out_pipe (some clnt_hdl)
        else
          { ret := 0, st := s4, ops := ops4 ++ connect_pipe_ipa_timer s4 idx,
            pipe_idx := out_pipe, clnt_hdl := some clnt_hdl }

/-- The function `connect_pipe_ipa`. -/
def connect_pipe_ipa (s : State) (be : Backend) (idx : Nat)
    (ipa_params : usb_bam_connect_ipa_params) : Result :=
  let pipe_connect := s.usb_bam_connections idx
  let usb_phy_addr :=
    if ipa_params.dir = usb_bam_pipe_dir.USB_TO_PEER_PERIPHERAL then pipe_connect.src_phy_addr
    else pipe_connect.dst_phy_addr
  let client_ep_idx :=
    if ipa_params.dir = usb_bam_pipe_dir.USB_TO_PEER_PERIPHERAL then pipe_connect.src_pipe_index
    else pipe_connect.dst_pipe_index
  let ops1 := [Op.sps_phy2h usb_phy_addr]
  if be.sps_phy2h_usb ≠ 0 then
    Result.plain be.sps_phy2h_usb s ops1
  else
    let usb_handle := be.sps_phy2h_usb_out
    let s1 := s.modify_connection idx (fun c =>
      { c with activity_notify := ipa_params.activity_notify,
               inactivity_notify := ipa_params.inactivity_notify,
               priv := ipa_params.priv })
    if pipe_connect.mem_type = usb_pipe_mem_type.SPS_PIPE_MEM then
      let ops2 := ops1 ++ [Op.sps_setup_bam2bam_fifo pipe_connect.data_fifo_base_offset
                            pipe_connect.data_fifo_size]
      if be.sps_setup_bam2bam_fifo_data ≠ 0 then
        Result.plain be.sps_setup_bam2bam_fifo_data s1 ops2
      else
        let s2 := s1.modify_connection idx (fun c =>
          { c with data_mem_buf := be.sps_setup_bam2bam_fifo_data_out })
        let ops3 := ops2 ++ [Op.sps_setup_bam2bam_fifo pipe_connect.desc_fifo_base_offset
                              pipe_connect.desc_fifo_size]
        if be.sps_setup_bam2bam_fifo_desc ≠ 0 then
          Result.plain be.sps_setup_bam2bam_fifo_desc s2 ops3
        else
          let s3 := s2.modify_connection idx (fun c =>
            { c with desc_mem_buf := be.sps_setup_bam2bam_fifo_desc_out })
          connect_pipe_ipa_connect s3 be idx ipa_params usb_handle client_ep_idx ops3
    else
      connect_pipe_ipa_connect s1 be idx ipa_params usb_handle client_ep_idx ops1

/-- The locked block of `usb_bam_connect_ipa` that opens a handshake-initiated connect
sequence: for the HSUSB instance it clears `sched_lpm` and sets `lpm_wait_handshake`. -/
def usb_bam_connect_ipa_lpm (s : State) (cur_bam : usb_bam) : State :=
  if cur_bam = usb_bam.HSUSB_BAM then { s with sched_lpm := 0, lpm_wait_handshake := 1 }
  else s

/-- The producer request of `usb_bam_connect_ipa`, made for the local-to-peer
direction only. -/
def usb_bam_connect_ipa_request (s : State) (be : Backend) (dir : usb_bam_pipe_dir)
    (cur_bam : usb_bam) : State × List Op :=
  if dir = usb_bam_pipe_dir.USB_TO_PEER_PERIPHERAL then wait_for_prod_granted s be cur_bam
  else (s, [])

/-- The index `usb_bam_connect_ipa` works on: `src_idx` for the local-to-peer
direction, `dst_idx` otherwise. -/
def usb_bam_connect_ipa_params.idx (ipa_params : usb_bam_connect_ipa_params) : Nat :=
  if ipa_params.dir = usb_bam_pipe_dir.USB_TO_PEER_PERIPHERAL then ipa_params.src_idx
  else ipa_params.dst_idx

/-- The function `usb_bam_connect_ipa` from its first test on, the platform data
having been read from the device; `none` is a `NULL` parameter block. -/
def usb_bam_connect_ipa_body (s : State) (be : Backend)
    (ipa_params : Option usb_bam_connect_ipa_params) : Result :=
  match ipa_params with
  | none => Result.plain (-EINVAL) s []
  | some ipa_params =>
    let idx := ipa_params.idx
    if idx ≥ s.max_connections then
      Result.plain (-EINVAL) s []
    else
      let cur_bam := (s.usb_bam_connections idx).bam_type
      let s1 := usb_bam_connect_ipa_lpm s cur_bam
      if (s1.usb_bam_connections idx).enabled then
        Result.plain 0 s1 []
      else
        let ops0 :=
          if s1.pdata.reset_on_connect cur_bam = true ∧ s1.pipes_enabled_per_bam cur_bam = 0 then
            [Op.sps_device_reset (s1.h_bam cur_bam)]
          else []
        let w := usb_bam_connect_ipa_request s1 be ipa_params.dir cur_bam
        let r := connect_pipe_ipa w.1 be idx ipa_params
        if r.ret ≠ 0 then
          { r with ops := ops0 ++ w.2 ++ r.ops }
        else
          let s2 := r.st.modify_connection idx (fun c => { c with enabled := true })
          let s3 := s2.set_pipes_enabled cur_bam ((s2.pipes_enabled_per_bam cur_bam + 1) % 256)
          let ops1 :=
            if ipa_params.dir = usb_bam_pipe_dir.PEER_PERIPHERAL_TO_USB ∧
                s3.cur_cons_state cur_bam = ipa_rm_event.IPA_RM_RESOURCE_GRANTED then
              [Op.ipa_rm_notify_completion_cons .IPA_RM_RESOURCE_GRANTED cur_bam]
            else []
          { ret := 0, st := s3, ops := ops0 ++ w.2 ++ r.ops ++ ops1, pipe_idx := r.pipe_idx,
            clnt_hdl := r.clnt_hdl }

/-- The function `usb_bam_connect_ipa`. Its first statement reads
`ctx.usb_bam_pdev->dev.platform_data` without testing the device pointer, before the
parameters and the index are looked at: while the device is not published this is a
read through `NULL`. -/
def usb_bam_connect_ipa (s : State) (be : Backend)
    (ipa_params : Option usb_bam_connect_ipa_params) : Except fault Result :=
  if s.usb_bam_pdev = false then
    .error fault.null_pointer
  else
    .ok (usb_bam_connect_ipa_body s be ipa_params)

/-! ## Peer handshake -/

/-- The `switch (peer_handshake_info.state)` of `usb_bam_sm_work`. The case
UNPLUG_NOTIFIED calls `peer_handshake_info.reset_event.callback` without testing it, so
a `NULL` callback is a fault, met before anything is stored. -/
def usb_bam_sm_work_switch (h : usb_bam_peer_handshake_info) :
    Except fault (usb_bam_peer_handshake_info × List Op) :=
  match h.state with
  | .USB_BAM_SM_INIT =>
    if h.client_ready then
      .ok ({ h with state := .USB_BAM_SM_PLUG_NOTIFIED }, [Op.smsm_change_state_apps false true])
    else .ok (h, [])
  | .USB_BAM_SM_PLUG_NOTIFIED =>
    if h.ack_received then
      .ok ({ h with state := .USB_BAM_SM_PLUG_ACKED, ack_received := false }, [])
    else .ok (h, [])
  | .USB_BAM_SM_PLUG_ACKED =>
    if !h.client_ready then
      .ok ({ h with state := .USB_BAM_SM_UNPLUG_NOTIFIED },
        [Op.smsm_change_state_apps true false])
    else .ok (h, [])
  | .USB_BAM_SM_UNPLUG_NOTIFIED =>
    if h.ack_received then
      if h.reset_callback = 0 then
        .error fault.null_pointer
      else
        .ok ({ h with state := .USB_BAM_SM_INIT, ack_received := false },
          [Op.peer_reset_callback h.reset_callback h.reset_param])
    else .ok (h, [])

/-- The `if (peer_handshake_info.pending_work)` block that ends `usb_bam_sm_work`:
one pending event is consumed and the worker is queued once more. -/
def usb_bam_sm_work_pending (h : usb_bam_peer_handshake_info) :
    usb_bam_peer_handshake_info × List Op :=
  if h.pending_work ≠ 0 then
    ({ h with pending_work := h.pending_work - 1 }, [Op.queue_work_handshake])
  else
    (h, [])

/-- Outcome of one run of the handshake worker: the state when the run ends, the
external calls it made, and the fault it stopped at, if any. A run that stops at a
fault has stored nothing, so `st` is then the state in which the run started. -/
structure sm_work_result where
  st : State
  ops : List Op
  fault : Option fault

/-- The function `usb_bam_sm_work`, one run of the handshake worker: the `switch` on
the state, then the pending-work block that re-queues the worker. The value
`queue_work` returns there is not looked at. -/
def usb_bam_sm_work (s : State) : sm_work_result :=
  match usb_bam_sm_work_switch s.peer_handshake_info with
  | .error f => { st := s, ops := [], fault := some f }
  | .ok step =>
    let pend := usb_bam_sm_work_pending step.1
    { st := { s with peer_handshake_info := pend.1 }, ops := step.2 ++ pend.2, fault := none }

/-- The function `usb_bam_client_ready`; `queued` is the answer of `queue_work`
(false when the worker was already queued). Always returns 0. -/
def usb_bam_client_ready (s : State) (ready : Bool) (queued : Bool) : State × List Op :=
  if s.peer_handshake_info.client_ready = ready then
    (s, [])
  else
    let h1 := { s.peer_handshake_info with client_ready := ready }
    if !queued then
      ({ s with peer_handshake_info := { h1 with pending_work := h1.pending_work + 1 } },
       [Op.queue_work_handshake])
    else
      ({ s with peer_handshake_info := h1 }, [Op.queue_work_handshake])

/-- The function `usb_bam_ack_toggle_cb`; `new_state_bit` tells whether
`new_state & SMSM_USB_PLUG_UNPLUG` is non-zero, `queued` is the answer of
`queue_work`. -/
def usb_bam_ack_toggle_cb (s : State) (new_state_bit : Bool) (queued : Bool) :
    State × List Op :=
  let current_state := new_state_bit
  if current_state = s.last_processed_state then
    (s, [])
  else
    let h1 := { s.peer_handshake_info with ack_received := true }
    if !queued then
      ({ s with last_processed_state := current_state,
                peer_handshake_info := { h1 with pending_work := h1.pending_work + 1 } },
       [Op.queue_work_handshake])
    else
      ({ s with last_processed_state := current_state, peer_handshake_info := h1 },
       [Op.queue_work_handshake])

/-! ## Table lookup -/

/-- The function `usb_bam_get_connection_idx`: the first row that matches, `-ENODEV`
when there is none, `-EINVAL` when the core name is not recognised. -/
def usb_bam_get_connection_idx (s : State) (core_name : List Char) (client : Nat)
    (dir : usb_bam_pipe_dir) (num : Nat) : Int :=
  let bam_type := get_bam_type_from_core_name core_name
  if bam_type < 0 then
    -EINVAL
  else
    match (List.range s.max_connections).find? (fun i =>
        decide ((s.usb_bam_connections i).bam_type.val = bam_type ∧
          (s.usb_bam_connections i).peer_bam = client ∧
          (s.usb_bam_connections i).dir = dir ∧
          (s.usb_bam_connections i).pipe_num = num)) with
    | some i => (i : Int)
    | none => -ENODEV

/-! ## Load -/

/-- The part of `usb_bam_probe` that establishes the start state once the platform
data are in place: the device pointer is published, every connection is disabled,
every per-instance counter, timer and flag is cleared, every completion is completed
and both negotiation states are `released`. -/
def usb_bam_probe_init (s : State) : State :=
  { s with
    usb_bam_pdev := true
    usb_bam_connections := fun i =>
      if i < s.max_connections then { s.usb_bam_connections i with enabled := false }
      else s.usb_bam_connections i
    pipes_enabled_per_bam := fun _ => 0
    inactivity_timer_ms := fun _ => 0
    is_bam_inactivity := fun _ => false
    prod_avail := fun _ => true
    cons_avail := fun _ => true
    cons_released := fun _ => true
    prod_released := fun _ => true
    cur_prod_state := fun _ => .IPA_RM_RESOURCE_RELEASED
    cur_cons_state := fun _ => .IPA_RM_RESOURCE_RELEASED }

/-! ## Sequences of calls -/

/-- One call of the connect/disconnect interface, with the answers the external
collaborators give during it. -/
inductive Call where
  | connect (idx : Nat) (bam_pipe_idx : Bool) (be : Backend)
  | connect_ipa (ipa_params : Option usb_bam_connect_ipa_params) (be : Backend)
  | disconnect_pipe (idx : Nat)

/-- The call addresses a configured index. `usb_bam_connect_ipa` validates its index
itself, so nothing is asked of it. -/
def Call.configured (max_connections : Nat) : Call → Prop
  | .connect idx _ _ => idx < max_connections
  | .connect_ipa _ _ => True
  | .disconnect_pipe idx => idx < max_connections

/-- Run one call and give the state after it; a call that stops at a fault has stored
nothing. -/
def Call.run (s : State) : Call → State
  | .connect idx bam_pipe_idx be => (usb_bam_connect s be idx bam_pipe_idx).st
  | .connect_ipa ipa_params be =>
    match usb_bam_connect_ipa s be ipa_params with
    | .ok r => r.st
    | .error _ => s
  | .disconnect_pipe idx => (usb_bam_disconnect_pipe s idx).st

/-- Run a sequence of calls, left to right, and give the final state. -/
def run_calls (s : State) : List Call → State
  | [] => s
  | c :: cs => run_calls (c.run s) cs

/-- Number of connections of instance `bam` that are enabled. -/
def enabled_count (s : State) (bam : usb_bam) : Nat :=
  (List.range s.max_connections).countP (fun i =>
    decide ((s.usb_bam_connections i).bam_type = bam) && (s.usb_bam_connections i).enabled)

/-- One event of the handshake: a local intent update, a remote ack notification, or
a run of the worker. -/
inductive handshake_event where
  | client_ready (ready : Bool) (queued : Bool)
  | ack_toggle (new_state_bit : Bool) (queued : Bool)
  | sm_work

/-- Process one handshake event. -/
def handshake_event.run (s : State) : handshake_event → State
  | .client_ready ready queued => (usb_bam_client_ready s ready queued).1
  | .ack_toggle new_state_bit queued => (usb_bam_ack_toggle_cb s new_state_bit queued).1
  | .sm_work => (usb_bam_sm_work s).1

/-- The handshake states visited while a sequence of events is processed, the start
state first. -/
def handshake_states (s : State) : List handshake_event → List usb_bam_sm
  | [] => [s.peer_handshake_info.state]
  | e :: es => s.peer_handshake_info.state :: handshake_states (e.run s) es

/-- The successor of a state on the cycle
INIT, PLUG_NOTIFIED, PLUG_ACKED, UNPLUG_NOTIFIED, INIT. -/
def usb_bam_sm.next : usb_bam_sm → usb_bam_sm
  | .USB_BAM_SM_INIT => .USB_BAM_SM_PLUG_NOTIFIED
  | .USB_BAM_SM_PLUG_NOTIFIED => .USB_BAM_SM_PLUG_ACKED
  | .USB_BAM_SM_PLUG_ACKED => .USB_BAM_SM_UNPLUG_NOTIFIED
  | .USB_BAM_SM_UNPLUG_NOTIFIED => .USB_BAM_SM_INIT

/-! ## A two-pipe configuration

The configuration of the scenario in the specification: two connections on one
instance, index 0 local-to-peer on private core memory, index 1 peer-to-local on
system memory. -/

/-- A zeroed FIFO descriptor. -/
def sps_mem_buffer.zeroed : sps_mem_buffer := { base := 0, phys_base := 0, size := 0 }

/-- A zeroed `struct sps_connect`. -/
def sps_connect.zeroed : sps_connect :=
  { source := 0, destination := 0, mode := .SPS_MODE_SRC, src_pipe_index := 0,
    dest_pipe_index := 0, event_thresh := 0, options := sps_options.zero,
    data := sps_mem_buffer.zeroed, desc := sps_mem_buffer.zeroed }

/-- A disabled connection of instance `bam` with the given direction, memory strategy
and pipe number. -/
def scenario_connection (bam : usb_bam) (dir : usb_bam_pipe_dir) (mem : usb_pipe_mem_type)
    (num : Nat) : usb_bam_pipe_connect :=
  { name := "usb-to-peer".toList, bam_type := bam, peer_bam := 0, dir := dir, pipe_num := num,
    mem_type := mem, src_phy_addr := 0x1000, src_pipe_index := 1, dst_phy_addr := 0x2000,
    dst_pipe_index := 2, data_fifo_base_offset := 0x100, data_fifo_size := 0x200,
    desc_fifo_base_offset := 0x400, desc_fifo_size := 0x80,
    data_mem_buf := sps_mem_buffer.zeroed, desc_mem_buf := sps_mem_buffer.zeroed,
    enabled := false, activity_notify := 0, inactivity_notify := 0, priv := 0,
    event := { type := .USB_BAM_EVENT_WAKEUP_PIPE, callback := 0, param := 0 } }

/-- A state before load for a table of `n` rows given by `table`: nothing is
initialised yet, both clocks are available, no instance resets on connect. -/
def scenario_boot (n : Nat) (table : Nat → usb_bam_pipe_connect) : State :=
  { usb_bam_pdev := false
    pdata := { usb_bam_fifo_baseaddr := 0xF0000000, reset_on_connect := fun _ => false }
    max_connections := n
    usb_bam_connections := table
    sps_pipes := fun _ => 0
    sps_connections := fun _ => sps_connect.zeroed
    mem_clk := .ok 1
    mem_iface_clk := .ok 2
    h_bam := fun b => (b.val + 100).toNat
    pipes_enabled_per_bam := fun _ => 0
    inactivity_timer_ms := fun _ => 0
    is_bam_inactivity := fun _ => false
    cur_prod_state := fun _ => .IPA_RM_RESOURCE_RELEASED
    cur_cons_state := fun _ => .IPA_RM_RESOURCE_RELEASED
    sched_lpm := 0
    lpm_wait_handshake := 0
    prod_avail := fun _ => false
    cons_avail := fun _ => false
    cons_released := fun _ => false
    prod_released := fun _ => false
    peer_handshake_info :=
      { state := .USB_BAM_SM_INIT, client_ready := false, ack_received := false,
        pending_work := 0, reset_callback := 7, reset_param := 9 }
    last_processed_state := false }

/-- The state right after load for a table of `n` rows given by `table`. -/
def scenario_state_of (n : Nat) (table : Nat → usb_bam_pipe_connect) : State :=
  usb_bam_probe_init (scenario_boot n table)

/-- The two-row table of the scenario. -/
def scenario_table : Nat → usb_bam_pipe_connect
  | 0 => scenario_connection .HSUSB_BAM .USB_TO_PEER_PERIPHERAL .USB_PRIVATE_MEM 0
  | 1 => scenario_connection .HSUSB_BAM .PEER_PERIPHERAL_TO_USB .SYSTEM_MEM 0
  | _ => scenario_connection .SSUSB_BAM .USB_TO_PEER_PERIPHERAL .SPS_PIPE_MEM 0

/-- The loaded state of the scenario. -/
def scenario_state : State := scenario_state_of 2 scenario_table

/-- Backend answers of a run in which every external call succeeds. -/
def backend_ok : Backend :=
  { sps_alloc_endpoint := 0x5000
    sps_get_config := 0
    sps_get_config_out := sps_connect.zeroed
    sps_phy2h_src := 0
    sps_phy2h_src_out := 11
    sps_phy2h_dst := 0
    sps_phy2h_dst_out := 12
    sps_phy2h_usb := 0
    sps_phy2h_usb_out := 13
    sps_setup_bam2bam_fifo_data := 0
    sps_setup_bam2bam_fifo_data_out := { base := 0x6000, phys_base := 0x7000, size := 0x200 }
    sps_setup_bam2bam_fifo_desc := 0
    sps_setup_bam2bam_fifo_desc_out := { base := 0x6400, phys_base := 0x7400, size := 0x80 }
    ioremap_data := 0x8000
    ioremap_desc := 0x8400
    dma_alloc_coherent_data := 0x9000
    dma_alloc_coherent_data_phys := 0xA000
    dma_alloc_coherent_desc := 0x9400
    dma_alloc_coherent_desc_phys := 0xA400
    sps_connect := 0
    ipa_connect := 0
    ipa_connect_out :=
      { ipa_bam_hdl := 21, ipa_ep_idx := 5,
        data := { base := 0xB000, phys_base := 0xC000, size := 0x200 },
        desc := { base := 0xB400, phys_base := 0xC400, size := 0x80 } }
    ipa_connect_clnt_hdl := 31
    ipa_rm_request_resource := 0
    wait_for_completion_timeout := 1 }

/-- Parameters of an accelerator connect of index 1 of the scenario, peer-to-local. -/
def scenario_ipa_params : usb_bam_connect_ipa_params :=
  { dir := .PEER_PERIPHERAL_TO_USB, src_idx := 0, dst_idx := 1, activity_notify := 41,
    inactivity_notify := 42, priv := 43, notify := 44, client := 45 }

/-! ## Frame of the connect and disconnect paths -/

/-- The relation between the state before and after a step that touches neither the
device pointer, nor the table size, nor any counter, nor the `enabled` flag, instance
or memory strategy of any row, nor the clocks. -/
def State.same_frame (s s1 : State) : Prop :=
  s1.usb_bam_pdev = s.usb_bam_pdev ∧ s1.max_connections = s.max_connections ∧
  s1.pipes_enabled_per_bam = s.pipes_enabled_per_bam ∧
  (∀ i, (s1.usb_bam_connections i).enabled = (s.usb_bam_connections i).enabled) ∧
  (∀ i, (s1.usb_bam_connections i).bam_type = (s.usb_bam_connections i).bam_type)

/-- The counter invariant of the data model: for every instance the counter equals
the number of enabled connections of that instance. It is stated together with the two
facts that make it preserved by every call: the device is present and the table size
fits a `u8`. -/
def State.counters_consistent (s : State) : Prop :=
  s.usb_bam_pdev = true ∧ s.max_connections < 256 ∧
  ∀ b, s.pipes_enabled_per_bam b = enabled_count s b

/-- The effect of a connect that goes through on index `idx`: that row was disabled
and is now enabled, the counter of its instance went up by one (in `u8` arithmetic),
and nothing else of the frame moved. -/
def State.connect_effect (s s1 : State) (idx : Nat) : Prop :=
  s1.usb_bam_pdev = s.usb_bam_pdev ∧ s1.max_connections = s.max_connections ∧
  (∀ i, (s1.usb_bam_connections i).bam_type = (s.usb_bam_connections i).bam_type) ∧
  (s.usb_bam_connections idx).enabled = false ∧
  (s1.usb_bam_connections idx).enabled = true ∧
  (∀ i, i ≠ idx → (s1.usb_bam_connections i).enabled = (s.usb_bam_connections i).enabled) ∧
  s1.pipes_enabled_per_bam =
    Function.update s.pipes_enabled_per_bam (s.usb_bam_connections idx).bam_type
      ((s.pipes_enabled_per_bam (s.usb_bam_connections idx).bam_type + 1) % 256)

/-- The effect of a disconnect that goes through on index `idx`: that row was enabled
and is now disabled, the counter of its instance went down by one unless it was
already zero, and nothing else of the frame moved. -/
def State.disconnect_effect (s s1 : State) (idx : Nat) : Prop :=
  s1.usb_bam_pdev = s.usb_bam_pdev ∧ s1.max_connections = s.max_connections ∧
  (∀ i, (s1.usb_bam_connections i).bam_type = (s.usb_bam_connections i).bam_type) ∧
  (s.usb_bam_connections idx).enabled = true ∧
  (s1.usb_bam_connections idx).enabled = false ∧
  (∀ i, i ≠ idx → (s1.usb_bam_connections i).enabled = (s.usb_bam_connections i).enabled) ∧
  s1.pipes_enabled_per_bam =
    Function.update s.pipes_enabled_per_bam (s.usb_bam_connections idx).bam_type
      (s.pipes_enabled_per_bam (s.usb_bam_connections idx).bam_type - 1)

/-- Is the call one of the two endpoint release operations of the pipe backend. -/
def Op.is_release : Op → Bool
  | .sps_disconnect _ => true
  | .sps_free_endpoint _ => true
  | _ => false

/-- The endpoint release operations among `ops`, in order. -/
def release_ops (ops : List Op) : List Op := ops.filter Op.is_release

/-- The `switch` of `connect_pipe` runs through to its `break`: both FIFO set-ups
succeed for dedicated pipe memory, both clocks are usable for private core memory,
nothing can fail for off-chip and system memory, and an unknown strategy never gets
there. -/
def connect_pipe_mem_provisioned (s : State) (be : Backend) (idx : Nat) : Prop :=
  match (s.usb_bam_connections idx).mem_type with
  | .SPS_PIPE_MEM => be.sps_setup_bam2bam_fifo_data = 0 ∧ be.sps_setup_bam2bam_fifo_desc = 0
  | .USB_PRIVATE_MEM => IS_ERR s.mem_clk = false ∧ IS_ERR s.mem_iface_clk = false
  | .OCI_MEM => True
  | .SYSTEM_MEM => True
  | .UNKNOWN_MEM _ => False

/-- A connect that failed and rolled back: the call `r` made in state `s` returned
the non-zero status `code`, no `enabled` flag and no per-instance counter changed (so
row `idx` is still disabled), and the endpoint release operations it issued are
exactly `released`, in that order. -/
def connect_rolled_back (s : State) (r : Result) (idx : Nat) (code : Int)
    (released : List Op) : Prop :=
  r.ret = code ∧ code ≠ 0 ∧ (r.st.usb_bam_connections idx).enabled = false ∧
  (∀ i, (r.st.usb_bam_connections i).enabled = (s.usb_bam_connections i).enabled) ∧
  r.st.pipes_enabled_per_bam = s.pipes_enabled_per_bam ∧
  release_ops r.ops = released

/-- Backend answers of a run in which everything succeeds except `sps_connect`, which
reports `-5`. -/
def backend_connect_fails : Backend := { backend_ok with sps_connect := -5 }

/-- A one-row table whose only connection carries a memory strategy value that is
none of the four enumerators. -/
def unknown_mem_state : State :=
  scenario_state_of 1
    (fun _ => scenario_connection .HSUSB_BAM .USB_TO_PEER_PERIPHERAL (.UNKNOWN_MEM 4) 0)

/-- The loaded two-pipe scenario on a platform where `mem_clk` is available but
`mem_iface_clk` is not (`devm_clk_get` returned an error pointer). -/
def iface_clk_missing_state : State := { scenario_state with mem_iface_clk := .err (-2) }

/-- Row `i` of state `s` matches the selector of `usb_bam_get_connection_idx`: bus
instance, peer role, direction and pipe number. -/
def connection_matches (s : State) (b : usb_bam) (client : Nat) (dir : usb_bam_pipe_dir)
    (num : Nat) (i : Nat) : Prop :=
  (s.usb_bam_connections i).bam_type = b ∧ (s.usb_bam_connections i).peer_bam = client ∧
  (s.usb_bam_connections i).dir = dir ∧ (s.usb_bam_connections i).pipe_num = num

/-! ## The handshake at the granularity of its locked regions

`usb_bam_sm_work` drops `usb_bam_peer_handshake_info_lock` around
`smsm_change_state` and around the peer-reset callback, and the two producers drop it
around `queue_work`. Between two locked regions of one call the regions of the other
calls may run. The work queue is created with one execution context at a time, so a
second worker run never starts while one is between its two regions. -/

/-- The store a worker run still owes after it released the lock in the middle of a
transition: the state it writes once it holds the lock again. -/
inductive sm_work_resume where
  | to_PLUG_NOTIFIED
  | to_UNPLUG_NOTIFIED
  | to_INIT
deriving DecidableEq, Repr

/-- The state written by the second locked region of the worker. -/
def sm_work_resume.target : sm_work_resume → usb_bam_sm
  | .to_PLUG_NOTIFIED => .USB_BAM_SM_PLUG_NOTIFIED
  | .to_UNPLUG_NOTIFIED => .USB_BAM_SM_UNPLUG_NOTIFIED
  | .to_INIT => .USB_BAM_SM_INIT

/-- The first locked region of `usb_bam_sm_work`, up to the first `spin_unlock`. When
the guard of the current state holds and the case unlocks (INIT, PLUG_ACKED,
UNPLUG_NOTIFIED) nothing has been stored yet, the external call is made outside the
lock and the store is owed; the call through a `NULL` reset callback is a fault, after
which the run never takes the lock again. Otherwise the region runs on through the
pending-work block to the end of the function. -/
def usb_bam_sm_work_head (h : usb_bam_peer_handshake_info) :
    Except fault ((usb_bam_peer_handshake_info × List Op) × Option sm_work_resume) :=
  match h.state with
  | .USB_BAM_SM_INIT =>
    if h.client_ready then
      .ok ((h, [Op.smsm_change_state_apps false true]), some .to_PLUG_NOTIFIED)
    else .ok (usb_bam_sm_work_pending h, none)
  | .USB_BAM_SM_PLUG_NOTIFIED =>
    if h.ack_received then
      .ok (usb_bam_sm_work_pending
        { h with state := .USB_BAM_SM_PLUG_ACKED, ack_received := false }, none)
    else .ok (usb_bam_sm_work_pending h, none)
  | .USB_BAM_SM_PLUG_ACKED =>
    if !h.client_ready then
      .ok ((h, [Op.smsm_change_state_apps true false]), some .to_UNPLUG_NOTIFIED)
    else .ok (usb_bam_sm_work_pending h, none)
  | .USB_BAM_SM_UNPLUG_NOTIFIED =>
    if h.ack_received then
      if h.reset_callback = 0 then
        .error fault.null_pointer
      else
        .ok ((h, [Op.peer_reset_callback h.reset_callback h.reset_param]), some .to_INIT)
    else .ok (usb_bam_sm_work_pending h, none)

/-- The second locked region of `usb_bam_sm_work`, from the `spin_lock` that follows
the external call: the owed stores, then the pending-work block. -/
def usb_bam_sm_work_tail (h : usb_bam_peer_handshake_info) (r : sm_work_resume) :
    usb_bam_peer_handshake_info × List Op :=
  match r with
  | .to_PLUG_NOTIFIED => usb_bam_sm_work_pending { h with state := .USB_BAM_SM_PLUG_NOTIFIED }
  | .to_UNPLUG_NOTIFIED =>
    usb_bam_sm_work_pending { h with state := .USB_BAM_SM_UNPLUG_NOTIFIED }
  | .to_INIT =>
    usb_bam_sm_work_pending { h with state := .USB_BAM_SM_INIT, ack_received := false }

/-- The handshake singleton together with the position of the worker: `window` is
the store owed by a worker run that is between its two locked regions. -/
structure handshake_machine where
  st : State
  window : Option sm_work_resume

/-- One locked region of the handshake code. -/
inductive handshake_region where
  | client_ready_store (ready : Bool)
  | ack_toggle_store (new_state_bit : Bool)
  | pending_work_inc
  | sm_work_head
  | sm_work_tail

/-- The first locked region of `usb_bam_client_ready`. -/
def usb_bam_client_ready_locked (s : State) (ready : Bool) : State :=
  if s.peer_handshake_info.client_ready = ready then s
  else { s with peer_handshake_info := { s.peer_handshake_info with client_ready := ready } }

/-- The first locked region of `usb_bam_ack_toggle_cb`. -/
def usb_bam_ack_toggle_cb_locked (s : State) (new_state_bit : Bool) : State :=
  if new_state_bit = s.last_processed_state then s
  else { s with last_processed_state := new_state_bit,
                peer_handshake_info := { s.peer_handshake_info with ack_received := true } }

/-- The second locked region of both producers, entered when `queue_work` found the
worker already queued: `pending_work++`. -/
def pending_work_increment (s : State) : State :=
  { s with peer_handshake_info :=
      { s.peer_handshake_info with pending_work := s.peer_handshake_info.pending_work + 1 } }

/-- Run one locked region. A worker region that cannot start in the current position
of the worker (a second run while one is in its window, a second half without a first)
leaves everything as it is, and so does a worker run that stops at a fault, which has
stored nothing. -/
def handshake_region.run (m : handshake_machine) : handshake_region → handshake_machine
  | .client_ready_store ready => { m with st := usb_bam_client_ready_locked m.st ready }
  | .ack_toggle_store new_state_bit => { m with st := usb_bam_ack_toggle_cb_locked m.st new_state_bit }
  | .pending_work_inc => { m with st := pending_work_increment m.st }
  | .sm_work_head =>
    match m.window with
    | some _ => m
    | none =>
      match usb_bam_sm_work_head m.st.peer_handshake_info with
      | .error _ => m
      | .ok hd => { st := { m.st with peer_handshake_info := hd.1.1 }, window := hd.2 }
  | .sm_work_tail =>
    match m.window with
    | none => m
    | some r =>
      { st := { m.st with
                peer_handshake_info := (usb_bam_sm_work_tail m.st.peer_handshake_info r).1 },
        window := none }

/-- The handshake states visited while a sequence of locked regions runs, the start
state first. -/
def handshake_region_states (m : handshake_machine) : List handshake_region → List usb_bam_sm
  | [] => [m.st.peer_handshake_info.state]
  | e :: es => m.st.peer_handshake_info.state :: handshake_region_states (e.run m) es

/-! ## Wake interrupts -/

/-- The function `usb_bam_wake_cb`, called for the event descriptor embedded in
connection `idx` (`notify->user`): a per-pipe wake event is always queued, a global
one only while the instance is marked inactive, and queuing it clears the mark. -/
def usb_bam_wake_cb (s : State) (idx : Nat) : State × List Op :=
  let pipe_connect := s.usb_bam_connections idx
  if pipe_connect.event.type = usb_bam_event_type.USB_BAM_EVENT_WAKEUP_PIPE then
    (s, [Op.queue_work_event idx])
  else if pipe_connect.event.type = usb_bam_event_type.USB_BAM_EVENT_WAKEUP ∧
      s.is_bam_inactivity pipe_connect.bam_type = true then
    ({ s with is_bam_inactivity :=
        Function.update s.is_bam_inactivity pipe_connect.bam_type false },
     [Op.queue_work_event idx])
  else
    (s, [])

/-- Wake interrupts arriving back to back on the pipes `idxs`, in that order: the final
state and all the work that was queued. -/
def usb_bam_wake_cb_seq (s : State) : List Nat → State × List Op
  | [] => (s, [])
  | idx :: idxs =>
    ((usb_bam_wake_cb_seq (usb_bam_wake_cb s idx).1 idxs).1,
     (usb_bam_wake_cb s idx).2 ++ (usb_bam_wake_cb_seq (usb_bam_wake_cb s idx).1 idxs).2)

/-! ## Consumer callbacks of the negotiation service -/

/-- The function `cons_request_resource`: the return value and the new state. -/
def cons_request_resource (s : State) (cur_bam : usb_bam) : Int × State :=
  let s1 := { s with
    cur_cons_state := Function.update s.cur_cons_state cur_bam .IPA_RM_RESOURCE_GRANTED,
    cons_avail := Function.update s.cons_avail cur_bam true }
  if s1.pipes_enabled_per_bam cur_bam ≠ 0 then (0, s1) else (-EINPROGRESS, s1)

/-- The function `usb_cons_request_resource`. -/
def usb_cons_request_resource (s : State) : Int × State :=
  cons_request_resource s .HSUSB_BAM

/-- The function `hsic_cons_request_resource`. -/
def hsic_cons_request_resource (s : State) : Int × State :=
  cons_request_resource s .HSIC_BAM

/-- The function `cons_release_resource`: the return value and the new state. -/
def cons_release_resource (s : State) (cur_bam : usb_bam) : Int × State :=
  let s1 := { s with
    cur_cons_state := Function.update s.cur_cons_state cur_bam .IPA_RM_RESOURCE_RELEASED,
    cons_released := Function.update s.cons_released cur_bam true }
  if s1.pipes_enabled_per_bam cur_bam = 0 then (0, s1) else (-EINPROGRESS, s1)

/-- The function `hsic_cons_release_resource`. -/
def hsic_cons_release_resource (s : State) : Int × State :=
  cons_release_resource s .HSIC_BAM

/-- The function `usb_cons_release_resource`. -/
def usb_cons_release_resource (s : State) : Int × State :=
  cons_release_resource s .HSUSB_BAM

/-! ## Low-power gating -/

/-- The function `msm_bam_lpm_ok`: the answer and the new state. -/
def msm_bam_lpm_ok (s : State) : Bool × State :=
  if s.lpm_wait_handshake ≠ 0 then (false, { s with sched_lpm := 1 }) else (true, s)

/-- The two-pipe scenario at the moment the inactivity timer has fired and global wake
events are armed on both pipes: the HSUSB instance is marked inactive and both event
descriptors are of type `USB_BAM_EVENT_WAKEUP`. -/
def scenario_inactive_state : State :=
  { scenario_state with
    is_bam_inactivity := fun b => decide (b = usb_bam.HSUSB_BAM)
    usb_bam_connections := fun i =>
      { scenario_state.usb_bam_connections i with
        event := { type := .USB_BAM_EVENT_WAKEUP, callback := 41, param := 43 } } }

/-! ## Timer interrupt of a bus instance -/

/-- The enumerator of `enum usb_bam` with the given numeric value, if there is one;
`none` means the value is no valid index of a per-instance array. -/
def usb_bam.of_val (v : Int) : Option usb_bam :=
  if v = usb_bam.SSUSB_BAM.val then some .SSUSB_BAM
  else if v = usb_bam.HSUSB_BAM.val then some .HSUSB_BAM
  else if v = usb_bam.HSIC_BAM.val then some .HSIC_BAM
  else none

/-- The callback cases of the pipe backend: the timer interrupt, or any other case. -/
inductive sps_callback_case where
  | SPS_CALLBACK_BAM_TIMER_IRQ
  | OTHER (raw : Nat)
deriving DecidableEq, Repr

/-- The function `usb_bam_sps_events`; `user` is the instance name registered with
the backend. The result of the name lookup is used as array index without a test. -/
def usb_bam_sps_events (s : State) (sps_cb_case : sps_callback_case) (user : List Char) :
    Except fault (State × List Op) :=
  match sps_cb_case with
  | .SPS_CALLBACK_BAM_TIMER_IRQ =>
    match usb_bam.of_val (get_bam_type_from_core_name user) with
    | none => .error (fault.array_index (get_bam_type_from_core_name user))
    | some bam =>
      let s1 := { s with is_bam_inactivity := Function.update s.is_bam_inactivity bam true }
      match (List.range s1.max_connections).find?
          (fun i => decide ((s1.usb_bam_connections i).bam_type = bam)) with
      | some i =>
        .ok (s1.modify_connection i (fun c =>
              { c with event := { type := .USB_BAM_EVENT_INACTIVITY, param := c.priv,
                                  callback := c.inactivity_notify } }),
             [Op.queue_work_event i])
      | none => .ok (s1, [])
  | .OTHER _ => .ok (s, [])

/-- The external calls of a result, `none` when the run stopped at a fault. -/
def ops_of (r : Except fault (State × List Op)) : Option (List Op) :=
  match r with
  | .ok p => some p.2
  | .error _ => none

/-! ## Producer release -/

/-- The function `wait_for_prod_release`; `ipa_rm_release_resource` is the answer of
the negotiation service. The two tests on the current state only log, so they leave
no trace here. -/
def wait_for_prod_release (s : State) (ipa_rm_release_resource : Int) (cur_bam : usb_bam) :
    State × List Op :=
  let s1 := { s with prod_released := Function.update s.prod_released cur_bam false,
                     cons_released := Function.update s.cons_released cur_bam false }
  let ops1 := [Op.ipa_rm_release_resource_prod cur_bam]
  if ipa_rm_release_resource = 0 then
    ({ s1 with
        cur_prod_state := Function.update s1.cur_prod_state cur_bam .IPA_RM_RESOURCE_RELEASED,
        prod_released := Function.update s1.prod_released cur_bam true }, ops1)
  else if ipa_rm_release_resource = -EINPROGRESS then
    (s1, ops1 ++ [Op.wait_for_completion_timeout .prod_released cur_bam])
  else
    (s1, ops1)

/-- The two-pipe scenario with the producer of every instance already granted. -/
def scenario_granted_state : State :=
  { scenario_state with cur_prod_state := fun _ => .IPA_RM_RESOURCE_GRANTED }

/-- Backend answers of a run in which the negotiation service answers a producer
request with `-EINPROGRESS`. -/
def backend_in_progress : Backend := { backend_ok with ipa_rm_request_resource := -EINPROGRESS }

/-! ## The inactivity-timer control file -/

/-- The kernel character test `isspace` on the characters that can occur here. -/
def isspace (c : Char) : Bool :=
  c = ' ' || c = '\t' || c = '\n' || c = '\r' || c.toNat = 11 || c.toNat = 12

/-- The kernel library routine `strim`: leading and trailing white space removed. -/
def strim (l : List Char) : List Char :=
  ((l.reverse.dropWhile isspace).reverse).dropWhile isspace

/-- All the tokens successive calls of `strsep(&p, ct)` return for a single delimiter
character, until `p` becomes `NULL`; the empty string gives one empty token. -/
def strsep_tokens (ct : Char) : List Char → List (List Char)
  | [] => [[]]
  | c :: cs =>
    if c = ct then [] :: strsep_tokens ct cs
    else
      match strsep_tokens ct cs with
      | t :: ts => (c :: t) :: ts
      | [] => [[c]]

/-- The digits of a decimal number, most significant first, as a natural number. -/
def decimal_value (ds : List Char) : Nat :=
  ds.foldl (fun acc d => 10 * acc + (d.toNat - '0'.toNat)) 0

/-- The conversion `sscanf(timer, "%d", &timer_d)`: leading white space is skipped, an
optional minus sign and at least one digit are read; `none` when nothing is
converted, in which case `timer_d` keeps its old value. -/
def sscanf_d (timer : List Char) : Option Int :=
  let t := timer.dropWhile isspace
  match t with
  | '-' :: rest =>
    if (rest.takeWhile Char.isDigit).isEmpty then none
    else some (-(decimal_value (rest.takeWhile Char.isDigit) : Int))
  | _ =>
    if (t.takeWhile Char.isDigit).isEmpty then none
    else some (decimal_value (t.takeWhile Char.isDigit) : Int)

/-- The body of the `while` loop of `usb_bam_store_inactivity_timer` for one
comma-separated piece `bam_str`; `timer_d` is the value the local variable holds on
entry. The piece is split at blanks into the instance name and the duration; the
result of the name lookup indexes `ctx.inactivity_timer_ms` and
`ctx.pipes_enabled_per_bam` without a test, and a piece without a blank hands a
`NULL` pointer to `sscanf`. Gives the state, the new `timer_d` and the external calls. -/
def usb_bam_store_inactivity_timer_pair (s : State) (timer_d : Int) (bam_str : List Char) :
    Except fault (State × Int × List Op) :=
  match strsep_tokens ' ' bam_str with
  | [] => .error fault.null_pointer
  | [_] => .error fault.null_pointer
  | bam_name :: timer :: _ =>
    let bam := get_bam_type_from_core_name bam_name
    let timer_d1 := (sscanf_d timer).getD timer_d
    match usb_bam.of_val bam with
    | none => .error (fault.array_index bam)
    | some b =>
      let s1 := { s with
        inactivity_timer_ms :=
          Function.update s.inactivity_timer_ms b (Int.toNat (timer_d1 % 4294967296)) }
      if s1.pipes_enabled_per_bam b > 0 then
        .ok (s1, timer_d1, usb_bam_set_inactivity_timer s1 b)
      else
        .ok (s1, timer_d1, [])

/-- The `while (trimmed_buf)` loop of `usb_bam_store_inactivity_timer` over the pieces
that remain. -/
def usb_bam_store_inactivity_timer_loop (s : State) (timer_d : Int) :
    List (List Char) → Except fault (State × List Op)
  | [] => .ok (s, [])
  | bam_str :: rest =>
    match usb_bam_store_inactivity_timer_pair s timer_d bam_str with
    | .error f => .error f
    | .ok (s1, timer_d1, ops1) =>
      match usb_bam_store_inactivity_timer_loop s1 timer_d1 rest with
      | .error f => .error f
      | .ok (s2, ops2) => .ok (s2, ops1 ++ ops2)

/-- The function `usb_bam_store_inactivity_timer` applied to the text `buff` written to
the control file; `timer_d` is what the uninitialised local variable happens to hold.
The return value is always `count` and is left out. -/
def usb_bam_store_inactivity_timer (s : State) (buff : List Char) (timer_d : Int) :
    Except fault (State × List Op) :=
  if strnstr buff "help".toList USB_BAM_MAX_STR_LEN then
    .ok (s, [])
  else
    usb_bam_store_inactivity_timer_loop s timer_d
      (strsep_tokens ',' (strim (buff.take (USB_BAM_MAX_STR_LEN - 1))))

/-- The per-instance timer durations of a result, `none` when the run stopped at a
fault. -/
def timers_of (r : Except fault (State × List Op)) : Option (List Nat) :=
  match r with
  | .ok p => some [p.1.inactivity_timer_ms .SSUSB_BAM, p.1.inactivity_timer_ms .HSUSB_BAM,
      p.1.inactivity_timer_ms .HSIC_BAM]
  | .error _ => none

/-- The fault a result stopped at, `none` when the run went through. -/
def fault_of (r : Except fault (State × List Op)) : Option fault :=
  match r with
  | .ok _ => none
  | .error f => some f

/-! ## Configuration load -/

/-- A row of a table that `devm_kzalloc` has just zeroed; an enumeration-valued field
reads as the first enumerator. -/
def usb_bam_pipe_connect.zeroed : usb_bam_pipe_connect :=
  { name := [], bam_type := .SSUSB_BAM, peer_bam := 0, dir := .USB_TO_PEER_PERIPHERAL,
    pipe_num := 0, mem_type := .SPS_PIPE_MEM, src_phy_addr := 0, src_pipe_index := 0,
    dst_phy_addr := 0, dst_pipe_index := 0, data_fifo_base_offset := 0, data_fifo_size := 0,
    desc_fifo_base_offset := 0, desc_fifo_size := 0, data_mem_buf := sps_mem_buffer.zeroed,
    desc_mem_buf := sps_mem_buffer.zeroed, enabled := false, activity_notify := 0,
    inactivity_notify := 0, priv := 0,
    event := { type := .USB_BAM_EVENT_WAKEUP_PIPE, callback := 0, param := 0 } }

/-- The loaded scenario with row 0 marked enabled while the counter of its instance is
still zero: a state in which flag and counter disagree. -/
def scenario_stale_counter_state : State :=
  scenario_state.modify_connection 0 (fun c => { c with enabled := true })

/-- The four calls of the scenario: connect 0, connect 1, disconnect 0, disconnect 1,
every external call succeeding. -/
def scenario_calls : List Call :=
  [Call.connect 0 true backend_ok, Call.connect 1 true backend_ok, Call.disconnect_pipe 0,
   Call.disconnect_pipe 1]

/-! ## Deferred work of a pipe event -/

/-- The function `__usb_bam_register_wake_cb`. The event descriptor of row `idx` is
filled in and handed to `sps_register_event`, whose answer for this pipe is
`register_event idx`; the options of the endpoint are then replaced and handed to
`sps_set_config`, whose answer is `set_config idx`. The registration records whether
the interrupt handler `usb_bam_wake_cb` or `NULL` is installed. -/
def __usb_bam_register_wake_cb (s : State) (register_event set_config : Nat → Int)
    (idx callback param : Nat) (trigger_cb_per_pipe : Bool) : Result :=
  if idx > s.max_connections then
    Result.plain (-EINVAL) s []
  else
    let pipe := s.sps_pipes idx
    let s1 := s.modify_connection idx (fun c =>
      { c with event :=
          { type := if trigger_cb_per_pipe then usb_bam_event_type.USB_BAM_EVENT_WAKEUP_PIPE
                    else usb_bam_event_type.USB_BAM_EVENT_WAKEUP,
            callback := callback, param := param } })
    let ops1 := [Op.sps_register_event pipe idx (decide (callback ≠ 0))]
    if register_event idx ≠ 0 then
      Result.plain (register_event idx) s1 ops1
    else
      let s2 := s1.modify_sps_connection idx (fun c =>
        { c with options :=
            if callback ≠ 0 then
              { SPS_O_AUTO_ENABLE := true, SPS_O_WAKEUP := true, SPS_O_WAKEUP_IS_ONESHOT := true,
                SPS_O_NO_DISABLE := false, rest := 0 }
            else sps_options.auto_enable_only })
      let ops2 := ops1 ++ [Op.sps_set_config pipe]
      if set_config idx ≠ 0 then
        Result.plain (set_config idx) s2 ops2
      else
        Result.plain 0 s2 ops2

/-- The function `usb_bam_register_wake_cb`. -/
def usb_bam_register_wake_cb (s : State) (register_event set_config : Nat → Int)
    (idx callback param : Nat) : Result :=
  __usb_bam_register_wake_cb s register_event set_config idx callback param true

/-- The test of the loop of `usb_bam_work` on row `i`, `idx` being the row that owns
the event: same instance, direction peer-to-local, enabled. -/
def usb_bam_work_match (s : State) (idx i : Nat) : Bool :=
  decide ((s.usb_bam_connections i).bam_type = (s.usb_bam_connections idx).bam_type) &&
  decide ((s.usb_bam_connections i).dir = usb_bam_pipe_dir.PEER_PERIPHERAL_TO_USB) &&
  (s.usb_bam_connections i).enabled

/-- The loop of the inactivity case of `usb_bam_work` over the indices that remain;
the value `__usb_bam_register_wake_cb` returns is dropped, as in the source. The
counter `i` stays below `ctx.max_connections`, a `u8`, so passing it as the `u8`
parameter keeps its value. -/
def usb_bam_work_register (idx : Nat) (register_event set_config : Nat → Int) :
    List Nat → State → State × List Op
  | [], s => (s, [])
  | i :: rest, s =>
    if usb_bam_work_match s idx i = true then
      let r := __usb_bam_register_wake_cb s register_event set_config i
        (s.usb_bam_connections i).activity_notify (s.usb_bam_connections i).priv false
      ((usb_bam_work_register idx register_event set_config rest r.st).1,
       r.ops ++ (usb_bam_work_register idx register_event set_config rest r.st).2)
    else
      usb_bam_work_register idx register_event set_config rest s

/-- The function `usb_bam_work`, run for the event descriptor embedded in row `idx`
(`container_of`). A wake event calls its callback without testing it, so a `NULL`
callback is a fault; an inactivity event saves callback and parameter, registers the
wake events, and calls the saved callback when it is not `NULL`. The enumeration has no
value for the `default` case. -/
def usb_bam_work (s : State) (register_event set_config : Nat → Int) (idx : Nat) :
    Except fault (State × List Op) :=
  let event_info := (s.usb_bam_connections idx).event
  let pipe_connect := s.usb_bam_connections idx
  let wakeup : Except fault (State × List Op) :=
    if event_info.callback = 0 then
      .error fault.null_pointer
    else
      .ok (s, [Op.event_callback event_info.callback event_info.param] ++
        (if s.inactivity_timer_ms pipe_connect.bam_type ≠ 0 then
          usb_bam_set_inactivity_timer s pipe_connect.bam_type
         else []))
  match event_info.type with
  | .USB_BAM_EVENT_WAKEUP => wakeup
  | .USB_BAM_EVENT_WAKEUP_PIPE => wakeup
  | .USB_BAM_EVENT_INACTIVITY =>
    let callback := event_info.callback
    let param := event_info.param
    let r := usb_bam_work_register idx register_event set_config
      (List.range s.max_connections) s
    .ok (r.1, r.2 ++ (if callback ≠ 0 then [Op.event_callback callback param] else []))

/-- The scenario at the moment the inactivity timer of the HSUSB instance has fired and
its event is queued on row 1: both rows are enabled, row 1 holds the endpoint handle
`0x5000`, the client callbacks 41 (activity) and 42 (inactivity) with parameter 43,
and its event descriptor carries the inactivity callback. -/
def scenario_idle_state : State :=
  { scenario_state with
    sps_pipes := fun i => if i = 1 then 0x5000 else 0x4000
    usb_bam_connections := fun i =>
      { scenario_state.usb_bam_connections i with
        enabled := true, activity_notify := 41, inactivity_notify := 42, priv := 43,
        event := { type := .USB_BAM_EVENT_INACTIVITY, callback := 42, param := 43 } } }

/-- The relation between the state before and after a step that writes, of the table
size, the endpoint handles and the rows, nothing but event descriptors. -/
def State.event_frame (s s1 : State) : Prop :=
  s1.max_connections = s.max_connections ∧ s1.sps_pipes = s.sps_pipes ∧
  ∀ j, ∃ e, s1.usb_bam_connections j = { s.usb_bam_connections j with event := e }

/-- The global wake event of a row: type `USB_BAM_EVENT_WAKEUP`, carrying the activity
callback of the row and its parameter. -/
def usb_bam_pipe_connect.wake_event (c : usb_bam_pipe_connect) : usb_bam_event_info :=
  { type := .USB_BAM_EVENT_WAKEUP, callback := c.activity_notify, param := c.priv }

/-- The registration call `sps_register_event` that installs the wake event of row `i`
on the endpoint of that row. -/
def State.wake_registration (s : State) (i : Nat) : Op :=
  Op.sps_register_event (s.sps_pipes i) i
    (decide ((s.usb_bam_connections i).activity_notify ≠ 0))

/-! ## Signals of the handshake worker -/

/-- Is the call one of the signals of the handshake: a change of the plug/unplug bit in
the shared state, or a call of the peer-reset callback. -/
def Op.is_handshake_signal : Op → Bool
  | .smsm_change_state_apps _ _ => true
  | .peer_reset_callback _ _ => true
  | _ => false

/-- The two-pipe scenario after `usb_bam_connect` of index 1 alone: row 1 of the HSUSB
instance holds an endpoint handle, row 0 of the same instance was never connected
and its handle is still `NULL`. -/
def scenario_second_pipe_state : State :=
  (usb_bam_connect scenario_state backend_ok 1 true).st

/-! ## Disconnecting a pipe from the accelerator -/

/-- The function `wait_for_cons_release`: the timed wait on `cons_released` is entered
unless the test of the function, which reads `cur_prod_state`, finds RELEASED. -/
def wait_for_cons_release (s : State) (cur_bam : usb_bam) : List Op :=
  if s.cur_prod_state cur_bam ≠ ipa_rm_event.IPA_RM_RESOURCE_RELEASED then
    [Op.wait_for_completion_timeout .cons_released cur_bam]
  else []

/-- The function `usb_bam_start_lpm`; `trans` is the transceiver `usb_get_transceiver`
returns, 0 being `NULL`, on which `BUG_ON` fires. -/
def usb_bam_start_lpm (s : State) (trans : Nat) : Except fault (State × List Op) :=
  if trans = 0 then
    .error fault.bug
  else
    let s1 := { s with lpm_wait_handshake := 0 }
    if s1.sched_lpm ≠ 0 then
      .ok (s1, [Op.pm_runtime_resume trans, Op.pm_runtime_put_noidle trans,
        Op.pm_runtime_suspend trans])
    else
      .ok (s1, [])

/-- The store `sps_connection->data.phys_base = 0; sps_connection->desc.phys_base = 0`
of `usb_bam_disconnect_ipa` on row `idx`. -/
def usb_bam_disconnect_ipa_clear (s : State) (idx : Nat) : State :=
  s.modify_sps_connection idx (fun c =>
    { c with data := { c.data with phys_base := 0 }, desc := { c.desc with phys_base := 0 } })

/-- The block `if (ipa_params->prod_clnt_hdl)` of `usb_bam_disconnect_ipa`;
`ipa_rm_release_resource` and `ipa_disconnect` are the answers of the negotiation
service and of the accelerator. -/
def usb_bam_disconnect_ipa_prod (s : State) (ipa_params : usb_bam_connect_ipa_params)
    (prod_clnt_hdl : Nat) (ipa_rm_release_resource ipa_disconnect : Int) : Result :=
  let idx := ipa_params.dst_idx
  let cur_bam := (s.usb_bam_connections idx).bam_type
  let w := wait_for_prod_release s ipa_rm_release_resource cur_bam
  let ops1 := w.2 ++ [Op.ipa_disconnect prod_clnt_hdl]
  if ipa_disconnect ≠ 0 then
    Result.plain ipa_disconnect w.1 ops1
  else
    let r := usb_bam_disconnect_pipe (usb_bam_disconnect_ipa_clear w.1 idx) idx
    Result.plain r.ret r.st (ops1 ++ r.ops)

/-- The block `if (ipa_params->cons_clnt_hdl)` of `usb_bam_disconnect_ipa`, which ends
with the completion notice and `usb_bam_start_lpm`. -/
def usb_bam_disconnect_ipa_cons (s : State) (ipa_params : usb_bam_connect_ipa_params)
    (cons_clnt_hdl : Nat) (ipa_disconnect : Int) (trans : Nat) : Except fault Result :=
  let idx := ipa_params.src_idx
  let cur_bam := (s.usb_bam_connections idx).bam_type
  let ops1 := wait_for_cons_release s cur_bam ++ [Op.ipa_disconnect cons_clnt_hdl]
  if ipa_disconnect ≠ 0 then
    .ok (Result.plain ipa_disconnect s ops1)
  else
    let r := usb_bam_disconnect_pipe (usb_bam_disconnect_ipa_clear s idx) idx
    if r.ret ≠ 0 then
      .ok (Result.plain r.ret r.st (ops1 ++ r.ops))
    else
      let ops2 :=
        if r.st.cur_cons_state cur_bam = ipa_rm_event.IPA_RM_RESOURCE_RELEASED then
          [Op.ipa_rm_notify_completion_cons .IPA_RM_RESOURCE_RELEASED cur_bam]
        else []
      match usb_bam_start_lpm r.st trans with
      | .error f => .error f
      | .ok l => .ok (Result.plain 0 l.1 (ops1 ++ r.ops ++ ops2 ++ l.2))

/-- The function `usb_bam_disconnect_ipa`; `prod_clnt_hdl` and `cons_clnt_hdl` are the
two handle fields of the parameter block. -/
def usb_bam_disconnect_ipa (s : State) (ipa_params : usb_bam_connect_ipa_params)
    (prod_clnt_hdl cons_clnt_hdl : Nat)
    (ipa_rm_release_resource ipa_disconnect_prod ipa_disconnect_cons : Int) (trans : Nat) :
    Except fault Result :=
  if prod_clnt_hdl = 0 ∧ cons_clnt_hdl = 0 then
    .ok (Result.plain (-EINVAL) s [])
  else
    let p :=
      if prod_clnt_hdl ≠ 0 then
        usb_bam_disconnect_ipa_prod s ipa_params prod_clnt_hdl ipa_rm_release_resource
          ipa_disconnect_prod
      else Result.plain 0 s []
    if p.ret ≠ 0 then
      .ok p
    else if cons_clnt_hdl ≠ 0 then
      match usb_bam_disconnect_ipa_cons p.st ipa_params cons_clnt_hdl ipa_disconnect_cons
          trans with
      | .error f => .error f
      | .ok c => .ok { c with ops := p.ops ++ c.ops }
    else
      .ok (Result.plain 0 p.st p.ops)

/-- The two-pipe scenario with both pipes enabled, in the middle of a
handshake-initiated sequence during which `msm_bam_lpm_ok` recorded a retry. -/
def scenario_lpm_pending_state : State :=
  { scenario_idle_state with
    pipes_enabled_per_bam := fun b => if b = usb_bam.HSUSB_BAM then 2 else 0
    sched_lpm := 1
    lpm_wait_handshake := 1 }

/-- The return value and the external calls of a result, `none` when the run stopped
at a fault. -/
def result_of (r : Except fault Result) : Option (Int × List Op) :=
  match r with
  | .ok p => some (p.ret, p.ops)
  | .error _ => none

/-! ## Arming the timer from an accelerator connect -/

/-- The conversion of a `u32` value to `int` on the assignment
`reconnect_pipe_idx[i] = pipe_connect->src_pipe_index`. -/
def u32_to_int (v : Nat) : Int :=
  if v % 4294967296 < 2147483648 then (v % 4294967296 : Nat) else (v % 4294967296 : Nat) - 4294967296

/-- The local variables of `usb_bam_a2_reset` together with the state and the external
calls made so far: `ret`, the `u8` variable `bam`, and the array
`reconnect_pipe_idx`. -/
structure a2_reset_locals where
  st : State
  ops : List Op
  ret : Int
  bam : Nat
  reconnect_pipe_idx : Nat → Int

/-- The loop `Disconnect a2 pipes` of `usb_bam_a2_reset` over the indices that remain.
The test `bam < 0` on the `u8` variable never holds. -/
def usb_bam_a2_reset_disconnect : List Nat → a2_reset_locals → a2_reset_locals
  | [], a => a
  | i :: rest, a =>
    let pipe_connect := a.st.usb_bam_connections i
    if strnstr pipe_connect.name "a2".toList USB_BAM_MAX_STR_LEN && pipe_connect.enabled then
      let r := usb_bam_disconnect_pipe a.st i
      let a1 := { a with
        reconnect_pipe_idx := Function.update a.reconnect_pipe_idx i
          (u32_to_int
            (if pipe_connect.dir = usb_bam_pipe_dir.USB_TO_PEER_PERIPHERAL then
              pipe_connect.src_pipe_index
             else pipe_connect.dst_pipe_index))
        bam := (pipe_connect.bam_type.val % 256).toNat
        st := r.st
        ops := a.ops ++ r.ops }
      if r.ret ≠ 0 then
        usb_bam_a2_reset_disconnect rest { a1 with ret := r.ret }
      else
        usb_bam_a2_reset_disconnect rest a1
    else
      usb_bam_a2_reset_disconnect rest a

/-- The loop `Reconnect A2 pipes` of `usb_bam_a2_reset` over the indices that remain;
`be i` are the answers of the backend during the reconnect of index `i`. -/
def usb_bam_a2_reset_reconnect (be : Nat → Backend) :
    List Nat → a2_reset_locals → a2_reset_locals
  | [], a => a
  | i :: rest, a =>
    if a.reconnect_pipe_idx i ≠ -1 then
      let r := usb_bam_connect a.st (be i) i true
      let a1 := { a with
        st := r.st
        ops := a.ops ++ r.ops
        reconnect_pipe_idx :=
          match r.pipe_idx with
          | some v => Function.update a.reconnect_pipe_idx i (u32_to_int v)
          | none => a.reconnect_pipe_idx }
      if r.ret ≠ 0 then
        usb_bam_a2_reset_reconnect be rest { a1 with ret := r.ret }
      else
        usb_bam_a2_reset_reconnect be rest a1
    else
      usb_bam_a2_reset_reconnect be rest a

/-- The function `usb_bam_a2_reset`. The variable `bam` is a `u8` initialised with
`-1`, that is 255; in the test `bam != -1` it is promoted to `int`, and the reset then
reads `ctx.h_bam[bam]`, an array of one entry per instance. -/
def usb_bam_a2_reset (s : State) (be : Nat → Backend) : Except fault Result :=
  let a0 : a2_reset_locals :=
    { st := s, ops := [], ret := 0, bam := ((-1 : Int) % 256).toNat,
      reconnect_pipe_idx := fun _ => -1 }
  let a1 := usb_bam_a2_reset_disconnect (List.range s.max_connections) a0
  if (a1.bam : Int) ≠ -1 then
    match usb_bam.of_val a1.bam with
    | none => .error (fault.array_index a1.bam)
    | some b =>
      let a2 := { a1 with ops := a1.ops ++ [Op.sps_device_reset (a1.st.h_bam b)] }
      let a3 := usb_bam_a2_reset_reconnect be (List.range a2.st.max_connections) a2
      .ok (Result.plain a3.ret a3.st a3.ops)
  else
    let a3 := usb_bam_a2_reset_reconnect be (List.range a1.st.max_connections) a1
    .ok (Result.plain a3.ret a3.st a3.ops)

/-- The fault a call stopped at, `none` when it returned. -/
def result_fault_of (r : Except fault Result) : Option fault :=
  match r with
  | .ok _ => none
  | .error f => some f

/-- The two-pipe scenario with row 1 an enabled pipe towards the A2 peer. -/
def scenario_a2_state : State :=
  (scenario_state.modify_connection 1 (fun c =>
    { c with name := "hsusb-a2-in".toList, enabled := true })).set_sps_pipe 1 0x4000

/-- The loaded scenario with the handshake in UNPLUG_NOTIFIED, the remote ack latched,
and the reset callback 7 with parameter 9 registered. -/
def scenario_unplug_state : State :=
  { scenario_state with
    peer_handshake_info :=
      { state := .USB_BAM_SM_UNPLUG_NOTIFIED, client_ready := false, ack_received := true,
        pending_work := 0, reset_callback := 7, reset_param := 9 } }

/-! ## The handshake worker on its work queue -/

/-- Modelled from the spec: the kernel work queue and its routine `queue_work` are not
part of the driver file. The handshake together with the position of the worker and of
its work item: `window` is the store owed by a run that is between its two locked
regions, `work_pending` tells that the work item is queued and its run has not
started. `queue_work` returns false and does nothing when the item is already queued,
and otherwise queues it and returns true; the item stops being queued when its run
starts. -/
structure handshake_queue where
  st : State
  window : Option sm_work_resume
  work_pending : Bool

/-- One step of the handshake on its work queue: a whole call of a producer, the start
of the queued worker run (its first locked region), or the second locked region of the
run that is in its window. -/
inductive handshake_queue_step where
  | client_ready (ready : Bool)
  | ack_toggle (new_state_bit : Bool)
  | sm_work_start
  | sm_work_finish

/-- Run one step. The producers get the answer of `queue_work` from the queue; every
`queue_work` call leaves the work item queued. The worker starts only when its item is
queued and no run is in its window; a run that stops at a fault stores nothing. -/
def handshake_queue_step.run (q : handshake_queue) : handshake_queue_step → handshake_queue
  | .client_ready ready =>
    { q with
      st := (usb_bam_client_ready q.st ready (!q.work_pending)).1
      work_pending := q.work_pending ||
        decide (Op.queue_work_handshake ∈
          (usb_bam_client_ready q.st ready (!q.work_pending)).2) }
  | .ack_toggle new_state_bit =>
    { q with
      st := (usb_bam_ack_toggle_cb q.st new_state_bit (!q.work_pending)).1
      work_pending := q.work_pending ||
        decide (Op.queue_work_handshake ∈
          (usb_bam_ack_toggle_cb q.st new_state_bit (!q.work_pending)).2) }
  | .sm_work_start =>
    if q.work_pending = true ∧ q.window = none then
      match usb_bam_sm_work_head q.st.peer_handshake_info with
      | .error _ => { q with work_pending := false }
      | .ok hd =>
        { st := { q.st with peer_handshake_info := hd.1.1 }, window := hd.2,
          work_pending := decide (Op.queue_work_handshake ∈ hd.1.2) }
    else q
  | .sm_work_finish =>
    match q.window with
    | none => q
    | some r =>
      { st := { q.st with
                peer_handshake_info := (usb_bam_sm_work_tail q.st.peer_handshake_info r).1 },
        window := none,
        work_pending := q.work_pending ||
          decide (Op.queue_work_handshake ∈
            (usb_bam_sm_work_tail q.st.peer_handshake_info r).2) }

/-- Run a sequence of steps, left to right. -/
def run_handshake_queue (q : handshake_queue) : List handshake_queue_step → handshake_queue
  | [] => q
  | e :: es => run_handshake_queue (e.run q) es

/-- The loaded scenario with the handshake in INIT, no run in its window and nothing
queued. -/
def scenario_handshake_queue : handshake_queue :=
  { st := scenario_state, window := none, work_pending := false }

/-- The client becomes ready; the worker run starts; during its window the remote ack
arrives and the client becomes not ready; the run finishes; the queued run starts. -/
def scenario_handshake_steps : List handshake_queue_step :=
  [.client_ready true, .sm_work_start, .ack_toggle true, .client_ready false, .sm_work_finish,
   .sm_work_start]

/-! ## The external calls of an accelerator connect with the state they are made in -/

theorem same_frame_refl (s : State) : s.same_frame s :=
  ⟨rfl, rfl, rfl, fun _ => rfl, fun _ => rfl⟩

theorem same_frame_trans {s s1 s2 : State} (h1 : s.same_frame s1) (h2 : s1.same_frame s2) :
    s.same_frame s2 := by
  obtain ⟨a1, b1, c1, d1, e1⟩ := h1
  obtain ⟨a2, b2, c2, d2, e2⟩ := h2
  exact ⟨a2.trans a1, b2.trans b1, c2.trans c1, fun i => (d2 i).trans (d1 i),
    fun i => (e2 i).trans (e1 i)⟩

theorem same_frame_set_sps_pipe (s : State) (idx v : Nat) :
    s.same_frame (s.set_sps_pipe idx v) :=
  ⟨rfl, rfl, rfl, fun _ => rfl, fun _ => rfl⟩

theorem same_frame_modify_sps_connection (s : State) (idx : Nat) (f : sps_connect → sps_connect) :
    s.same_frame (s.modify_sps_connection idx f) :=
  ⟨rfl, rfl, rfl, fun _ => rfl, fun _ => rfl⟩

theorem same_frame_modify_connection (s : State) (idx : Nat)
    (f : usb_bam_pipe_connect → usb_bam_pipe_connect)
    (he : (f (s.usb_bam_connections idx)).enabled = (s.usb_bam_connections idx).enabled)
    (hb : (f (s.usb_bam_connections idx)).bam_type = (s.usb_bam_connections idx).bam_type) :
    s.same_frame (s.modify_connection idx f) := by
  refine ⟨rfl, rfl, rfl, fun i => ?_, fun i => ?_⟩
  · by_cases h : i = idx
    · subst h; simp [State.modify_connection, he]
    · simp [State.modify_connection, Function.update_noteq h]
  · by_cases h : i = idx
    · subst h; simp [State.modify_connection, hb]
    · simp [State.modify_connection, Function.update_noteq h]

theorem connect_pipe_finish_frame (s : State) (be : Backend) (idx : Nat) (ops : List Op)
    (pipe : Nat) (out : Option Nat) :
    s.same_frame (connect_pipe_finish s be idx ops pipe out).st := by
  unfold connect_pipe_finish connect_pipe_error connect_pipe_free_sps_endpoint
  dsimp only
  split <;> exact same_frame_modify_sps_connection _ _ _

theorem connect_pipe_oci_mem_frame (s : State) (be : Backend) (idx : Nat) (ops : List Op)
    (pipe : Nat) (out : Option Nat) :
    s.same_frame (connect_pipe_oci_mem s be idx ops pipe out).st := by
  unfold connect_pipe_oci_mem
  dsimp only
  exact same_frame_trans (same_frame_modify_connection _ _ _ rfl rfl)
    (connect_pipe_finish_frame _ _ _ _ _ _)

theorem connect_pipe_mem_frame (ret : Int) (s : State) (be : Backend) (idx : Nat)
    (ops : List Op) (pipe : Nat) (out : Option Nat) :
    s.same_frame (connect_pipe_mem ret s be idx ops pipe out).st := by
  unfold connect_pipe_mem
  dsimp only
  split
  · split
    · exact same_frame_refl _
    · split
      · exact same_frame_modify_connection _ _ _ rfl rfl
      · exact same_frame_trans (same_frame_modify_connection _ _ _ rfl rfl)
          (same_frame_trans (same_frame_modify_connection _ _ _ rfl rfl)
            (connect_pipe_finish_frame _ _ _ _ _ _))
  · split
    · exact same_frame_refl _
    · split
      · exact same_frame_refl _
      · exact connect_pipe_oci_mem_frame _ _ _ _ _ _
  · exact connect_pipe_oci_mem_frame _ _ _ _ _ _
  · exact same_frame_trans (same_frame_modify_connection _ _ _ rfl rfl)
      (connect_pipe_finish_frame _ _ _ _ _ _)
  · exact same_frame_refl _

theorem connect_pipe_frame (s : State) (be : Backend) (idx : Nat) :
    s.same_frame (connect_pipe s be idx).st := by
  unfold connect_pipe
  dsimp only
  have h1 := same_frame_set_sps_pipe s idx be.sps_alloc_endpoint
  split
  · exact h1
  · split
    · exact h1
    · have h2 := same_frame_trans h1 (same_frame_modify_sps_connection _ idx
        (fun _ => be.sps_get_config_out))
      split
      · exact h2
      · split
        · exact same_frame_trans h2 (same_frame_modify_sps_connection _ _ _)
        · split
          · exact same_frame_trans h2 (same_frame_trans (same_frame_modify_sps_connection _ _ _)
              (same_frame_trans (same_frame_modify_sps_connection _ _ _)
                (same_frame_trans (same_frame_modify_sps_connection _ _ _)
                  (connect_pipe_mem_frame _ _ _ _ _ _ _))))
          · exact same_frame_trans h2 (same_frame_trans (same_frame_modify_sps_connection _ _ _)
              (same_frame_trans (same_frame_modify_sps_connection _ _ _)
                (same_frame_trans (same_frame_modify_sps_connection _ _ _)
                  (connect_pipe_mem_frame _ _ _ _ _ _ _))))

theorem countP_range_congr (p q : Nat → Bool) (n : Nat) (h : ∀ i, i < n → q i = p i) :
    (List.range n).countP q = (List.range n).countP p := by
  apply List.countP_congr
  intro i hi
  rw [h i (List.mem_range.mp hi)]

theorem countP_range_flip (p q : Nat → Bool) (n idx : Nat) (hidx : idx < n)
    (hne : ∀ i, i ≠ idx → q i = p i) (hp : p idx = false) (hq : q idx = true) :
    (List.range n).countP q = (List.range n).countP p + 1 := by
  induction n with
  | zero => omega
  | succ n ih =>
    rw [List.range_succ, List.countP_append, List.countP_append]
    by_cases h : idx = n
    · subst h
      have hc := countP_range_congr p q idx (fun i hi => hne i (by omega))
      simp [hc, hp, hq]
    · have hlt : idx < n := by omega
      have hn : q n = p n := hne n (by omega)
      rw [ih hlt, List.countP_singleton, List.countP_singleton, hn]
      omega

theorem enabled_count_le (s : State) (b : usb_bam) : enabled_count s b ≤ s.max_connections := by
  unfold enabled_count
  exact (List.countP_le_length _).trans (by simp)

theorem counters_consistent_of_same_frame {s s1 : State} (h : s.same_frame s1)
    (hc : s.counters_consistent) : s1.counters_consistent := by
  obtain ⟨hp, hm, hk, he, hb⟩ := h
  obtain ⟨c1, c2, c3⟩ := hc
  refine ⟨hp.trans c1, hm ▸ c2, fun b => ?_⟩
  rw [hk, c3 b]
  unfold enabled_count
  rw [hm]
  exact (countP_range_congr _ _ _ (fun i _ => by rw [he i, hb i])).symm

theorem counters_consistent_of_connect_effect {s s1 : State} {idx : Nat}
    (hidx : idx < s.max_connections) (h : s.connect_effect s1 idx)
    (hc : s.counters_consistent) : s1.counters_consistent := by
  obtain ⟨hp, hm, hb, hoff, hon, he, hk⟩ := h
  obtain ⟨c1, c2, c3⟩ := hc
  refine ⟨hp.trans c1, hm ▸ c2, fun b => ?_⟩
  by_cases hbb : b = (s.usb_bam_connections idx).bam_type
  · subst hbb
    have hflip : enabled_count s1 (s.usb_bam_connections idx).bam_type =
        enabled_count s (s.usb_bam_connections idx).bam_type + 1 := by
      unfold enabled_count
      rw [hm]
      apply countP_range_flip _ _ _ idx hidx
      · intro i hi
        rw [he i hi, hb i]
      · simp [hoff]
      · simp [hon, hb idx]
    have hle := enabled_count_le s1 (s.usb_bam_connections idx).bam_type
    rw [hk, Function.update_same, c3, hflip]
    apply Nat.mod_eq_of_lt
    omega
  · rw [hk, Function.update_noteq hbb, c3 b]
    unfold enabled_count
    rw [hm]
    apply (countP_range_congr _ _ _ _).symm
    intro i _
    by_cases hi : i = idx
    · subst hi
      have h1 : ¬ (s.usb_bam_connections i).bam_type = b := fun h => hbb h.symm
      simp [hb i, h1]
    · rw [he i hi, hb i]

theorem counters_consistent_of_disconnect_effect {s s1 : State} {idx : Nat}
    (hidx : idx < s.max_connections) (h : s.disconnect_effect s1 idx)
    (hc : s.counters_consistent) : s1.counters_consistent := by
  obtain ⟨hp, hm, hb, hon, hoff, he, hk⟩ := h
  obtain ⟨c1, c2, c3⟩ := hc
  refine ⟨hp.trans c1, hm ▸ c2, fun b => ?_⟩
  by_cases hbb : b = (s.usb_bam_connections idx).bam_type
  · subst hbb
    have hflip : enabled_count s (s.usb_bam_connections idx).bam_type =
        enabled_count s1 (s.usb_bam_connections idx).bam_type + 1 := by
      unfold enabled_count
      rw [hm]
      apply countP_range_flip _ _ _ idx hidx
      · intro i hi
        rw [he i hi, hb i]
      · simp [hoff]
      · simp [hon]
    rw [hk, Function.update_same, c3, hflip]
    omega
  · rw [hk, Function.update_noteq hbb, c3 b]
    unfold enabled_count
    rw [hm]
    apply (countP_range_congr _ _ _ _).symm
    intro i _
    by_cases hi : i = idx
    · subst hi
      have h1 : ¬ (s.usb_bam_connections i).bam_type = b := fun h => hbb h.symm
      simp [hb i, h1]
    · rw [he i hi, hb i]

theorem connect_effect_of_frame {s r : State} (idx : Nat) (hf : s.same_frame r)
    (hoff : (s.usb_bam_connections idx).enabled = false) (b : usb_bam)
    (hb : b = (s.usb_bam_connections idx).bam_type) :
    s.connect_effect
      ((r.modify_connection idx (fun c => { c with enabled := true })).set_pipes_enabled b
        (((r.modify_connection idx (fun c => { c with enabled := true })).pipes_enabled_per_bam b
          + 1) % 256)) idx := by
  obtain ⟨hp, hm, hk, he, hbt⟩ := hf
  subst hb
  refine ⟨hp, hm, fun i => ?_, hoff, ?_, fun i hi => ?_, ?_⟩
  · by_cases h : i = idx
    · subst h; simp [State.modify_connection, State.set_pipes_enabled, hbt]
    · simp [State.modify_connection, State.set_pipes_enabled, Function.update_noteq h, hbt]
  · simp [State.modify_connection, State.set_pipes_enabled]
  · simp [State.modify_connection, State.set_pipes_enabled, Function.update_noteq hi, he]
  · simp [State.modify_connection, State.set_pipes_enabled, hk]

theorem usb_bam_connect_effect (s : State) (be : Backend) (idx : Nat) (p : Bool) :
    s.same_frame (usb_bam_connect s be idx p).st ∨
      ((usb_bam_connect s be idx p).ret = 0 ∧
        s.connect_effect (usb_bam_connect s be idx p).st idx) := by
  unfold usb_bam_connect
  dsimp only
  split
  · exact Or.inl (same_frame_refl s)
  · split
    · exact Or.inl (same_frame_refl s)
    · rename_i hen
      split
      · exact Or.inl (same_frame_refl s)
      · split
        · exact Or.inl (same_frame_refl s)
        · have hf := connect_pipe_frame s be idx
          split
          · exact Or.inl hf
          · refine Or.inr ⟨rfl, ?_⟩
            apply connect_effect_of_frame idx hf (by simpa using hen)
            simp [State.modify_connection, hf.2.2.2.2 idx]

theorem disconnect_pipe_frame (s : State) (idx : Nat) :
    s.same_frame (disconnect_pipe s idx).st := by
  unfold disconnect_pipe
  exact same_frame_modify_sps_connection _ _ _

theorem disconnect_pipe_ret (s : State) (idx : Nat) : (disconnect_pipe s idx).ret = 0 := rfl

theorem disconnect_effect_of_frame {s r : State} (idx : Nat) (hf : s.same_frame r)
    (hon : (s.usb_bam_connections idx).enabled = true) :
    s.disconnect_effect
      ((r.modify_connection idx (fun c => { c with enabled := false })).set_pipes_enabled
        ((r.modify_connection idx (fun c => { c with enabled := false })).usb_bam_connections
          idx).bam_type
        ((r.modify_connection idx (fun c => { c with enabled := false })).pipes_enabled_per_bam
          ((r.modify_connection idx (fun c => { c with enabled := false })).usb_bam_connections
            idx).bam_type - 1)) idx := by
  obtain ⟨hp, hm, hk, he, hbt⟩ := hf
  refine ⟨hp, hm, fun i => ?_, hon, ?_, fun i hi => ?_, ?_⟩
  · by_cases h : i = idx
    · subst h; simp [State.modify_connection, State.set_pipes_enabled, hbt]
    · simp [State.modify_connection, State.set_pipes_enabled, Function.update_noteq h, hbt]
  · simp [State.modify_connection, State.set_pipes_enabled]
  · simp [State.modify_connection, State.set_pipes_enabled, Function.update_noteq hi, he]
  · simp [State.modify_connection, State.set_pipes_enabled, hk, hbt]

theorem disconnect_effect_of_frame_zero {s r : State} (idx : Nat) (hf : s.same_frame r)
    (hon : (s.usb_bam_connections idx).enabled = true)
    (hz : s.pipes_enabled_per_bam (s.usb_bam_connections idx).bam_type = 0) :
    s.disconnect_effect (r.modify_connection idx (fun c => { c with enabled := false })) idx := by
  obtain ⟨hp, hm, hk, he, hbt⟩ := hf
  refine ⟨hp, hm, fun i => ?_, hon, ?_, fun i hi => ?_, ?_⟩
  · by_cases h : i = idx
    · subst h; simp [State.modify_connection, hbt]
    · simp [State.modify_connection, Function.update_noteq h, hbt]
  · simp [State.modify_connection]
  · simp [State.modify_connection, Function.update_noteq hi, he]
  · have h0 : s.pipes_enabled_per_bam (s.usb_bam_connections idx).bam_type - 1 =
        s.pipes_enabled_per_bam (s.usb_bam_connections idx).bam_type := by omega
    rw [h0, Function.update_eq_self]
    exact hk

theorem usb_bam_disconnect_pipe_effect (s : State) (idx : Nat) :
    s.same_frame (usb_bam_disconnect_pipe s idx).st ∨
      ((usb_bam_disconnect_pipe s idx).ret = 0 ∧
        s.disconnect_effect (usb_bam_disconnect_pipe s idx).st idx) := by
  unfold usb_bam_disconnect_pipe
  dsimp only
  split
  · exact Or.inl (same_frame_refl s)
  · rename_i hen
    have hon : (s.usb_bam_connections idx).enabled = true := by simpa using hen
    have hf := disconnect_pipe_frame s idx
    split
    · exact Or.inl hf
    · split
      · rename_i hz
        refine Or.inr ⟨rfl, ?_⟩
        apply disconnect_effect_of_frame_zero idx hf hon
        simpa [State.modify_connection, hf.2.2.1, hf.2.2.2.2 idx] using hz
      · exact Or.inr ⟨rfl, disconnect_effect_of_frame idx hf hon⟩

theorem wait_for_prod_granted_frame (s : State) (be : Backend) (b : usb_bam) :
    s.same_frame (wait_for_prod_granted s be b).1 := by
  unfold wait_for_prod_granted
  dsimp only
  split
  · exact ⟨rfl, rfl, rfl, fun _ => rfl, fun _ => rfl⟩
  · split <;> exact ⟨rfl, rfl, rfl, fun _ => rfl, fun _ => rfl⟩

theorem connect_pipe_ipa_direction_frame (s : State) (idx : Nat) (dir : usb_bam_pipe_dir)
    (usb_handle : Nat) (out : ipa_sps_params) :
    s.same_frame (connect_pipe_ipa_direction s idx dir usb_handle out) := by
  unfold connect_pipe_ipa_direction
  dsimp only
  split
  · exact same_frame_trans (same_frame_modify_sps_connection _ _ _)
      (same_frame_modify_connection _ _ _ rfl rfl)
  · exact same_frame_trans (same_frame_modify_sps_connection _ _ _)
      (same_frame_modify_connection _ _ _ rfl rfl)

theorem connect_pipe_ipa_connect_frame (s : State) (be : Backend) (idx : Nat)
    (ipa_params : usb_bam_connect_ipa_params) (usb_handle client_ep_idx : Nat) (ops : List Op) :
    s.same_frame
      (connect_pipe_ipa_connect s be idx ipa_params usb_handle client_ep_idx ops).st := by
  unfold connect_pipe_ipa_connect connect_pipe_ipa_unwind
  dsimp only
  have h1 := same_frame_set_sps_pipe s idx be.sps_alloc_endpoint
  have h4 := same_frame_trans h1 (same_frame_trans (same_frame_modify_sps_connection _ idx
      (fun _ => be.sps_get_config_out))
    (same_frame_trans (connect_pipe_ipa_direction_frame _ idx ipa_params.dir usb_handle
        be.ipa_connect_out)
      (same_frame_modify_sps_connection _ idx (fun c =>
        { c with data := be.ipa_connect_out.data, desc := be.ipa_connect_out.desc,
                 event_thresh := 16,
                 options := { c.options with SPS_O_AUTO_ENABLE := true } }))))
  split
  · exact same_frame_refl s
  · split
    · exact h1
    · split
      · exact h1
      · split
        · exact h4
        · exact h4

theorem connect_pipe_ipa_frame (s : State) (be : Backend) (idx : Nat)
    (ipa_params : usb_bam_connect_ipa_params) :
    s.same_frame (connect_pipe_ipa s be idx ipa_params).st := by
  unfold connect_pipe_ipa
  dsimp only
  have h1 : s.same_frame (s.modify_connection idx (fun c =>
      { c with activity_notify := ipa_params.activity_notify,
               inactivity_notify := ipa_params.inactivity_notify,
               priv := ipa_params.priv })) :=
    same_frame_modify_connection _ _ _ rfl rfl
  by_cases hphy : be.sps_phy2h_usb ≠ 0
  · rw [if_pos hphy]
    exact same_frame_refl s
  · rw [if_neg hphy]
    by_cases hmem : (s.usb_bam_connections idx).mem_type = usb_pipe_mem_type.SPS_PIPE_MEM
    · rw [if_pos hmem]
      by_cases hd : be.sps_setup_bam2bam_fifo_data ≠ 0
      · rw [if_pos hd]
        exact h1
      · rw [if_neg hd]
        by_cases hc : be.sps_setup_bam2bam_fifo_desc ≠ 0
        · rw [if_pos hc]
          exact same_frame_trans h1 (same_frame_modify_connection _ _ _ rfl rfl)
        · rw [if_neg hc]
          exact same_frame_trans h1 (same_frame_trans (same_frame_modify_connection _ _ _ rfl rfl)
            (same_frame_trans (same_frame_modify_connection _ _ _ rfl rfl)
              (connect_pipe_ipa_connect_frame _ _ _ _ _ _ _)))
    · rw [if_neg hmem]
      exact same_frame_trans h1 (connect_pipe_ipa_connect_frame _ _ _ _ _ _ _)

theorem usb_bam_connect_ipa_lpm_frame (s : State) (b : usb_bam) :
    s.same_frame (usb_bam_connect_ipa_lpm s b) := by
  unfold usb_bam_connect_ipa_lpm
  split
  · exact ⟨rfl, rfl, rfl, fun _ => rfl, fun _ => rfl⟩
  · exact same_frame_refl s

theorem usb_bam_connect_ipa_request_frame (s : State) (be : Backend) (dir : usb_bam_pipe_dir)
    (b : usb_bam) : s.same_frame (usb_bam_connect_ipa_request s be dir b).1 := by
  unfold usb_bam_connect_ipa_request
  split
  · exact wait_for_prod_granted_frame _ _ _
  · exact same_frame_refl s

theorem usb_bam_connect_ipa_effect (s : State) (be : Backend)
    (ipa_params : Option usb_bam_connect_ipa_params) :
    s.same_frame (usb_bam_connect_ipa_body s be ipa_params).st ∨
      ∃ idx, idx < s.max_connections ∧ (usb_bam_connect_ipa_body s be ipa_params).ret = 0 ∧
        s.connect_effect (usb_bam_connect_ipa_body s be ipa_params).st idx := by
  unfold usb_bam_connect_ipa_body
  cases ipa_params with
  | none => exact Or.inl (same_frame_refl s)
  | some ipa_params =>
    dsimp only
    have h1 := usb_bam_connect_ipa_lpm_frame s (s.usb_bam_connections ipa_params.idx).bam_type
    have h2 := same_frame_trans h1 (usb_bam_connect_ipa_request_frame _ be ipa_params.dir
      (s.usb_bam_connections ipa_params.idx).bam_type)
    have h3 := same_frame_trans h2 (connect_pipe_ipa_frame _ be ipa_params.idx ipa_params)
    by_cases hidx : ipa_params.idx ≥ s.max_connections
    · rw [if_pos hidx]
      exact Or.inl (same_frame_refl s)
    · rw [if_neg hidx]
      split
      · exact Or.inl h1
      · rename_i hen
        split
        · exact Or.inl h3
        · refine Or.inr ⟨_, Nat.lt_of_not_le hidx, rfl, ?_⟩
          apply connect_effect_of_frame _ h3 _ _ rfl
          rw [← h1.2.2.2.1]
          simpa using hen

theorem call_run_connect_ipa (s : State) (be : Backend)
    (ipa_params : Option usb_bam_connect_ipa_params) :
    (Call.connect_ipa ipa_params be).run s =
      if s.usb_bam_pdev = false then s else (usb_bam_connect_ipa_body s be ipa_params).st := by
  show (match usb_bam_connect_ipa s be ipa_params with
    | .ok r => r.st
    | .error _ => s) = _
  unfold usb_bam_connect_ipa
  by_cases h : s.usb_bam_pdev = false
  · rw [if_pos h, if_pos h]
  · rw [if_neg h, if_neg h]

theorem call_run_max_connections (s : State) (c : Call) :
    (c.run s).max_connections = s.max_connections := by
  cases c with
  | connect idx p be =>
    rcases usb_bam_connect_effect s be idx p with h | ⟨_, h⟩
    · exact h.2.1
    · exact h.2.1
  | connect_ipa ipa_params be =>
    rw [call_run_connect_ipa]
    split
    · rfl
    · rcases usb_bam_connect_ipa_effect s be ipa_params with h | ⟨_, _, _, h⟩
      · exact h.2.1
      · exact h.2.1
  | disconnect_pipe idx =>
    rcases usb_bam_disconnect_pipe_effect s idx with h | ⟨_, h⟩
    · exact h.2.1
    · exact h.2.1

theorem call_run_counters_consistent (s : State) (c : Call)
    (hc : c.configured s.max_connections) (hs : s.counters_consistent) :
    (c.run s).counters_consistent := by
  cases c with
  | connect idx p be =>
    rcases usb_bam_connect_effect s be idx p with h | ⟨_, h⟩
    · exact counters_consistent_of_same_frame h hs
    · exact counters_consistent_of_connect_effect hc h hs
  | connect_ipa ipa_params be =>
    rw [call_run_connect_ipa]
    split
    · exact hs
    · rcases usb_bam_connect_ipa_effect s be ipa_params with h | ⟨idx, hidx, _, h⟩
      · exact counters_consistent_of_same_frame h hs
      · exact counters_consistent_of_connect_effect hidx h hs
  | disconnect_pipe idx =>
    rcases usb_bam_disconnect_pipe_effect s idx with h | ⟨_, h⟩
    · exact counters_consistent_of_same_frame h hs
    · exact counters_consistent_of_disconnect_effect hc h hs

theorem run_calls_counters_consistent (calls : List Call) :
    ∀ s : State, s.counters_consistent → (∀ c ∈ calls, c.configured s.max_connections) →
      (run_calls s calls).counters_consistent := by
  induction calls with
  | nil => intro s hs _; exact hs
  | cons c cs ih =>
    intro s hs hc
    unfold run_calls
    apply ih
    · exact call_run_counters_consistent s c (hc c (List.mem_cons_self _ _)) hs
    · intro c1 hc1
      rw [call_run_max_connections]
      exact hc c1 (List.mem_cons_of_mem _ hc1)

theorem usb_bam_probe_init_counters_consistent (s : State) (hmax : s.max_connections < 256) :
    (usb_bam_probe_init s).counters_consistent := by
  refine ⟨rfl, hmax, fun b => ?_⟩
  symm
  show List.countP _ (List.range s.max_connections) = 0
  rw [List.countP_eq_zero]
  intro i hi
  have hlt : i < s.max_connections := List.mem_range.mp hi
  simp [usb_bam_probe_init, hlt]

/-- C1: starting from the state established at load, after every finite sequence of
`usb_bam_connect`, `usb_bam_connect_ipa` and `usb_bam_disconnect_pipe` calls on
configured indices, whatever the backend answers, the counter
`pipes_enabled_per_bam[b]` of every instance `b` equals the number of connections
with `bam_type = b` and `enabled = true`. -/
theorem pipes_enabled_per_bam_eq_enabled_count (s0 : State) (calls : List Call)
    (hmax : s0.max_connections < 256)
    (hcalls : ∀ c ∈ calls, c.configured s0.max_connections) (b : usb_bam) :
    (run_calls (usb_bam_probe_init s0) calls).pipes_enabled_per_bam b =
      enabled_count (run_calls (usb_bam_probe_init s0) calls) b :=
  (run_calls_counters_consistent calls (usb_bam_probe_init s0)
    (usb_bam_probe_init_counters_consistent s0 hmax) hcalls).2.2 b

/-- C1, at the two-pipe scenario: connect 0, connect 1 through the accelerator
interface, disconnect 0, with every backend call succeeding. -/
theorem pipes_enabled_per_bam_eq_enabled_count_witness :
    (scenario_boot 2 scenario_table).max_connections < 256 ∧
    (∀ c ∈ [Call.connect 0 true backend_ok, Call.connect_ipa (some scenario_ipa_params) backend_ok,
         Call.disconnect_pipe 0], c.configured (scenario_boot 2 scenario_table).max_connections) ∧
    (run_calls (usb_bam_probe_init (scenario_boot 2 scenario_table))
        [Call.connect 0 true backend_ok, Call.connect_ipa (some scenario_ipa_params) backend_ok,
         Call.disconnect_pipe 0]).pipes_enabled_per_bam .HSUSB_BAM =
      enabled_count (run_calls (usb_bam_probe_init (scenario_boot 2 scenario_table))
        [Call.connect 0 true backend_ok, Call.connect_ipa (some scenario_ipa_params) backend_ok,
         Call.disconnect_pipe 0]) .HSUSB_BAM :=
  ⟨by decide, by simp [Call.configured, scenario_boot],
   pipes_enabled_per_bam_eq_enabled_count (scenario_boot 2 scenario_table)
    [Call.connect 0 true backend_ok, Call.connect_ipa (some scenario_ipa_params) backend_ok,
     Call.disconnect_pipe 0]
    (by decide) (by simp [Call.configured, scenario_boot]) .HSUSB_BAM⟩

theorem usb_bam_connect_pdev (s : State) (be : Backend) (idx : Nat) (p : Bool) :
    (usb_bam_connect s be idx p).st.usb_bam_pdev = s.usb_bam_pdev := by
  rcases usb_bam_connect_effect s be idx p with h | ⟨_, h⟩
  · exact h.1
  · exact h.1

theorem usb_bam_connect_enabled_of_ret_zero (s : State) (be : Backend) (idx : Nat) (p : Bool)
    (hret : (usb_bam_connect s be idx p).ret = 0) :
    ((usb_bam_connect s be idx p).st.usb_bam_connections idx).enabled = true := by
  revert hret
  unfold usb_bam_connect
  dsimp only
  split
  · simp [Result.plain, ENODEV]
  · split
    · intro _; assumption
    · split
      · simp [Result.plain, EINVAL]
      · split
        · simp [Result.plain, EINVAL]
        · split
          · intro h0; contradiction
          · intro _
            simp [State.modify_connection, State.set_pipes_enabled]

/-- C2: for every pipe index whose connection is already enabled (the manager device
being present), `usb_bam_connect` returns 0, issues no external call at all and
leaves the whole state, in particular the connection table, the enabled flags and
every per-instance counter, unchanged; hence after a connect that returned success a
second connect of the same index, without a disconnect in between, again returns 0,
issues no external call and gives the same state as the first one alone. -/
theorem usb_bam_connect_enabled_noop (s : State) (be : Backend) (idx : Nat) (p : Bool)
    (hdev : s.usb_bam_pdev = true) :
    ((s.usb_bam_connections idx).enabled = true →
      (usb_bam_connect s be idx p).ret = 0 ∧ (usb_bam_connect s be idx p).ops = [] ∧
      (usb_bam_connect s be idx p).st = s) ∧
    ((usb_bam_connect s be idx p).ret = 0 → ∀ (be2 : Backend) (p2 : Bool),
      (usb_bam_connect (usb_bam_connect s be idx p).st be2 idx p2).ret = 0 ∧
      (usb_bam_connect (usb_bam_connect s be idx p).st be2 idx p2).ops = [] ∧
      (usb_bam_connect (usb_bam_connect s be idx p).st be2 idx p2).st =
        (usb_bam_connect s be idx p).st) := by
  have key : ∀ (t : State) (b : Backend) (q : Bool), t.usb_bam_pdev = true →
      (t.usb_bam_connections idx).enabled = true →
      (usb_bam_connect t b idx q).ret = 0 ∧ (usb_bam_connect t b idx q).ops = [] ∧
      (usb_bam_connect t b idx q).st = t := by
    intro t b q ht he
    simp [usb_bam_connect, ht, he, Result.plain]
  refine ⟨key s be p hdev, fun hret be2 p2 => ?_⟩
  exact key _ be2 p2 ((usb_bam_connect_pdev s be idx p).trans hdev)
    (usb_bam_connect_enabled_of_ret_zero s be idx p hret)

/-- C2, at the two-pipe scenario: index 0 is connected, which succeeds, and is then
connected a second time. -/
theorem usb_bam_connect_enabled_noop_witness :
    scenario_state.usb_bam_pdev = true ∧
    (usb_bam_connect scenario_state backend_ok 0 true).ret = 0 ∧
    (usb_bam_connect (usb_bam_connect scenario_state backend_ok 0 true).st backend_ok 0
      true).ret = 0 ∧
    (usb_bam_connect (usb_bam_connect scenario_state backend_ok 0 true).st backend_ok 0
      true).ops = [] ∧
    (usb_bam_connect (usb_bam_connect scenario_state backend_ok 0 true).st backend_ok 0
      true).st = (usb_bam_connect scenario_state backend_ok 0 true).st :=
  ⟨rfl, by decide,
   (usb_bam_connect_enabled_noop scenario_state backend_ok 0 true rfl).2 (by decide)
     backend_ok true⟩

/-- C3: for every index whose connection is not enabled (as is every configured index
right after load, before any connect), `usb_bam_disconnect_pipe` returns 0, issues no
external call, and leaves the whole state, so every enabled flag and every
per-instance counter, unchanged. -/
theorem usb_bam_disconnect_pipe_not_enabled_noop (s : State) (idx : Nat)
    (h : (s.usb_bam_connections idx).enabled = false) :
    (usb_bam_disconnect_pipe s idx).ret = 0 ∧ (usb_bam_disconnect_pipe s idx).ops = [] ∧
    (usb_bam_disconnect_pipe s idx).st = s := by
  simp [usb_bam_disconnect_pipe, h, Result.plain]

/-- C3, at the two-pipe scenario right after load: index 1 has never been connected. -/
theorem usb_bam_disconnect_pipe_not_enabled_noop_witness :
    (scenario_state.usb_bam_connections 1).enabled = false ∧
    (usb_bam_disconnect_pipe scenario_state 1).ret = 0 ∧
    (usb_bam_disconnect_pipe scenario_state 1).ops = [] ∧
    (usb_bam_disconnect_pipe scenario_state 1).st = scenario_state :=
  ⟨rfl, usb_bam_disconnect_pipe_not_enabled_noop scenario_state 1 rfl⟩

theorem usb_bam_sm_work_pending_state (h : usb_bam_peer_handshake_info) :
    (usb_bam_sm_work_pending h).1.state = h.state := by
  unfold usb_bam_sm_work_pending
  split <;> rfl

theorem usb_bam_sm_work_pending_flags (h : usb_bam_peer_handshake_info) :
    (usb_bam_sm_work_pending h).1.client_ready = h.client_ready ∧
    (usb_bam_sm_work_pending h).1.ack_received = h.ack_received := by
  unfold usb_bam_sm_work_pending
  split <;> exact ⟨rfl, rfl⟩

theorem usb_bam_sm_work_switch_state (h : usb_bam_peer_handshake_info) :
    ∀ step, usb_bam_sm_work_switch h = .ok step →
      step.1.state = h.state ∨ step.1.state = h.state.next := by
  obtain ⟨st, cr, ack, pw, cb, prm⟩ := h
  intro step hstep
  by_cases hcb : cb = 0 <;> cases st <;> cases cr <;> cases ack <;>
    simp [usb_bam_sm_work_switch, hcb] at hstep <;> subst hstep <;> simp [usb_bam_sm.next]

theorem usb_bam_sm_work_cases (s : State) :
    (∃ step, usb_bam_sm_work_switch s.peer_handshake_info = .ok step ∧
      usb_bam_sm_work s =
        { st := { s with peer_handshake_info := (usb_bam_sm_work_pending step.1).1 },
          ops := step.2 ++ (usb_bam_sm_work_pending step.1).2, fault := none }) ∨
    (∃ f, usb_bam_sm_work_switch s.peer_handshake_info = .error f ∧
      usb_bam_sm_work s = { st := s, ops := [], fault := some f }) := by
  unfold usb_bam_sm_work
  cases hsw : usb_bam_sm_work_switch s.peer_handshake_info with
  | error f => exact Or.inr ⟨f, rfl, rfl⟩
  | ok step => exact Or.inl ⟨step, rfl, rfl⟩

theorem usb_bam_sm_work_proj (s : State) :
    (usb_bam_sm_work s).1.peer_handshake_info =
      (match usb_bam_sm_work_switch s.peer_handshake_info with
        | .ok step => (usb_bam_sm_work_pending step.1).1
        | .error _ => s.peer_handshake_info) ∧
    (usb_bam_sm_work s).2 =
      (match usb_bam_sm_work_switch s.peer_handshake_info with
        | .ok step => step.2 ++ (usb_bam_sm_work_pending step.1).2
        | .error _ => []) := by
  rcases usb_bam_sm_work_cases s with ⟨step, hsw, hw⟩ | ⟨f, hsw, hw⟩ <;> rw [hw, hsw] <;>
    exact ⟨rfl, rfl⟩

theorem usb_bam_sm_work_null_callback (s : State)
    (hc : s.peer_handshake_info.state = .USB_BAM_SM_UNPLUG_NOTIFIED ∧
      s.peer_handshake_info.ack_received = true ∧ s.peer_handshake_info.reset_callback = 0) :
    (usb_bam_sm_work s).fault = some fault.null_pointer ∧
    (usb_bam_sm_work s).1 = s ∧ (usb_bam_sm_work s).2 = [] := by
  have herr : usb_bam_sm_work_switch s.peer_handshake_info = .error fault.null_pointer := by
    unfold usb_bam_sm_work_switch
    rw [hc.1]
    simp [hc.2.1, hc.2.2]
  rcases usb_bam_sm_work_cases s with ⟨step, hsw, _⟩ | ⟨f, hsw, hw⟩
  · rw [herr] at hsw
    cases hsw
  · rw [herr] at hsw
    cases hsw
    rw [hw]
    exact ⟨rfl, rfl, rfl⟩

theorem usb_bam_sm_work_state (s : State) :
    (usb_bam_sm_work s).1.peer_handshake_info.state = s.peer_handshake_info.state ∨
    (usb_bam_sm_work s).1.peer_handshake_info.state = s.peer_handshake_info.state.next := by
  unfold usb_bam_sm_work
  cases hsw : usb_bam_sm_work_switch s.peer_handshake_info with
  | error f => exact Or.inl rfl
  | ok step =>
    dsimp only
    rw [usb_bam_sm_work_pending_state]
    exact usb_bam_sm_work_switch_state _ step hsw

theorem handshake_event_run_state (s : State) (e : handshake_event) :
    (e.run s).peer_handshake_info.state = s.peer_handshake_info.state ∨
    (e.run s).peer_handshake_info.state = s.peer_handshake_info.state.next := by
  cases e with
  | client_ready ready queued =>
    left
    simp only [handshake_event.run, usb_bam_client_ready]
    split
    · rfl
    · split <;> rfl
  | ack_toggle new_state_bit queued =>
    left
    simp only [handshake_event.run, usb_bam_ack_toggle_cb]
    split
    · rfl
    · split <;> rfl
  | sm_work => exact usb_bam_sm_work_state s

theorem handshake_states_head (s : State) (es : List handshake_event) :
    (handshake_states s es).head? = some s.peer_handshake_info.state := by
  cases es <;> rfl

theorem handshake_states_chain (es : List handshake_event) :
    ∀ s : State, List.Chain' (fun a b => b = a ∨ b = a.next) (handshake_states s es) := by
  induction es with
  | nil => intro s; simp [handshake_states]
  | cons e es ih =>
    intro s
    unfold handshake_states
    rw [List.chain'_cons']
    refine ⟨fun y hy => ?_, ih _⟩
    rw [handshake_states_head] at hy
    cases hy
    exact handshake_event_run_state s e

theorem usb_bam_sm_work_regions (s : State) :
    (∀ hd, usb_bam_sm_work_head s.peer_handshake_info = .ok hd →
      (usb_bam_sm_work s).fault = none ∧
      (usb_bam_sm_work s).1.peer_handshake_info =
        (match hd.2 with
          | none => hd.1.1
          | some r => (usb_bam_sm_work_tail hd.1.1 r).1) ∧
      (usb_bam_sm_work s).2 =
        (match hd.2 with
          | none => hd.1.2
          | some r => hd.1.2 ++ (usb_bam_sm_work_tail hd.1.1 r).2)) ∧
    (∀ f, usb_bam_sm_work_head s.peer_handshake_info = .error f →
      (usb_bam_sm_work s).fault = some f ∧ (usb_bam_sm_work s).1 = s ∧
      (usb_bam_sm_work s).2 = []) := by
  unfold usb_bam_sm_work
  generalize s.peer_handshake_info = h
  obtain ⟨st, cr, ack, pw, cb, prm⟩ := h
  by_cases hcb : cb = 0 <;> cases st <;> cases cr <;> cases ack <;>
    simp [usb_bam_sm_work_switch, usb_bam_sm_work_head, usb_bam_sm_work_tail, hcb]

theorem usb_bam_client_ready_regions (s : State) (ready : Bool) :
    (usb_bam_client_ready s ready true).1 = usb_bam_client_ready_locked s ready ∧
    (s.peer_handshake_info.client_ready ≠ ready →
      (usb_bam_client_ready s ready false).1 =
        pending_work_increment (usb_bam_client_ready_locked s ready)) := by
  unfold usb_bam_client_ready usb_bam_client_ready_locked pending_work_increment
  constructor
  · by_cases h : s.peer_handshake_info.client_ready = ready <;> simp [h]
  · intro h
    simp [h]

theorem usb_bam_ack_toggle_cb_regions (s : State) (bit : Bool) :
    (usb_bam_ack_toggle_cb s bit true).1 = usb_bam_ack_toggle_cb_locked s bit ∧
    (bit ≠ s.last_processed_state →
      (usb_bam_ack_toggle_cb s bit false).1 =
        pending_work_increment (usb_bam_ack_toggle_cb_locked s bit)) := by
  unfold usb_bam_ack_toggle_cb usb_bam_ack_toggle_cb_locked pending_work_increment
  constructor
  · by_cases h : bit = s.last_processed_state <;> simp [h]
  · intro h
    simp [h]

theorem usb_bam_sm_work_head_step (h : usb_bam_peer_handshake_info)
    (hd : (usb_bam_peer_handshake_info × List Op) × Option sm_work_resume)
    (hhd : usb_bam_sm_work_head h = .ok hd) :
    (hd.1.1.state = h.state ∨ hd.1.1.state = h.state.next) ∧
    (∀ r, hd.2 = some r → r.target = hd.1.1.state.next) := by
  obtain ⟨st, cr, ack, pw, cb, prm⟩ := h
  by_cases hcb : cb = 0 <;> cases st <;> cases cr <;> cases ack <;>
    simp [usb_bam_sm_work_head, hcb] at hhd <;> subst hhd <;>
    simp [usb_bam_sm_work_pending_state, usb_bam_sm.next, sm_work_resume.target]

theorem handshake_region_run_step (m : handshake_machine) (e : handshake_region)
    (hinv : ∀ r, m.window = some r → r.target = m.st.peer_handshake_info.state.next) :
    ((e.run m).st.peer_handshake_info.state = m.st.peer_handshake_info.state ∨
      (e.run m).st.peer_handshake_info.state = m.st.peer_handshake_info.state.next) ∧
    (∀ r, (e.run m).window = some r →
      r.target = (e.run m).st.peer_handshake_info.state.next) := by
  obtain ⟨s, w⟩ := m
  cases e with
  | client_ready_store ready =>
    have hst : (usb_bam_client_ready_locked s ready).peer_handshake_info.state =
        s.peer_handshake_info.state := by
      unfold usb_bam_client_ready_locked; split <;> rfl
    exact ⟨Or.inl hst, fun r hr => by simpa [handshake_region.run, hst] using hinv r hr⟩
  | ack_toggle_store bit =>
    have hst : (usb_bam_ack_toggle_cb_locked s bit).peer_handshake_info.state =
        s.peer_handshake_info.state := by
      unfold usb_bam_ack_toggle_cb_locked; split <;> rfl
    exact ⟨Or.inl hst, fun r hr => by simpa [handshake_region.run, hst] using hinv r hr⟩
  | pending_work_inc =>
    exact ⟨Or.inl rfl, fun r hr => hinv r hr⟩
  | sm_work_head =>
    cases w with
    | some r0 => exact ⟨Or.inl rfl, fun r hr => hinv r hr⟩
    | none =>
      simp only [handshake_region.run]
      cases hhd : usb_bam_sm_work_head s.peer_handshake_info with
      | error f => exact ⟨Or.inl rfl, fun r hr => hinv r hr⟩
      | ok hd => exact usb_bam_sm_work_head_step s.peer_handshake_info hd hhd
  | sm_work_tail =>
    cases w with
    | none => exact ⟨Or.inl rfl, fun r hr => hinv r hr⟩
    | some r0 =>
      have h0 := hinv r0 rfl
      simp only [handshake_region.run]
      refine ⟨Or.inr ?_, fun r hr => by simp at hr⟩
      rw [← h0]
      cases r0 <;> simp [usb_bam_sm_work_tail, usb_bam_sm_work_pending_state, sm_work_resume.target]

theorem handshake_region_states_head (m : handshake_machine) (es : List handshake_region) :
    (handshake_region_states m es).head? = some m.st.peer_handshake_info.state := by
  cases es <;> rfl

theorem handshake_region_states_chain (es : List handshake_region) :
    ∀ m : handshake_machine,
      (∀ r, m.window = some r → r.target = m.st.peer_handshake_info.state.next) →
      List.Chain' (fun a b => b = a ∨ b = a.next) (handshake_region_states m es) := by
  induction es with
  | nil => intro m _; simp [handshake_region_states]
  | cons e es ih =>
    intro m hinv
    unfold handshake_region_states
    rw [List.chain'_cons']
    obtain ⟨hstep, hinv1⟩ := handshake_region_run_step m e hinv
    refine ⟨fun y hy => ?_, ih _ hinv1⟩
    rw [handshake_region_states_head] at hy
    cases hy
    exact hstep

/-- C4: for every handshake state and every value of `client_ready`, `ack_received`
and `pending_work`, one run of `usb_bam_sm_work` either leaves the state unchanged or
moves it to its successor on the cycle INIT, PLUG_NOTIFIED, PLUG_ACKED,
UNPLUG_NOTIFIED, INIT; consequently, along every interleaving of `client_ready`
updates, ack notifications and worker runs, every two consecutive handshake states
are equal or joined by one edge of the cycle, so no state is ever skipped. This holds
for interleavings of whole calls and also for interleavings of the locked regions of
these calls, where the producers may run while a worker run has dropped the lock in
the middle of a transition. -/
theorem usb_bam_sm_work_never_skips :
    (∀ s : State,
      (usb_bam_sm_work s).1.peer_handshake_info.state = s.peer_handshake_info.state ∨
      (usb_bam_sm_work s).1.peer_handshake_info.state = s.peer_handshake_info.state.next) ∧
    (∀ (s : State) (es : List handshake_event),
      List.Chain' (fun a b => b = a ∨ b = a.next) (handshake_states s es)) ∧
    (∀ (s : State) (es : List handshake_region),
      List.Chain' (fun a b => b = a ∨ b = a.next)
        (handshake_region_states { st := s, window := none } es)) :=
  ⟨usb_bam_sm_work_state, fun s es => handshake_states_chain es s,
   fun s es => handshake_region_states_chain es { st := s, window := none }
     (fun r hr => by cases hr)⟩

/-- C5: one run of `usb_bam_sm_work` computes the transition table: from INIT to
PLUG_NOTIFIED iff `client_ready`; from PLUG_NOTIFIED to PLUG_ACKED iff
`ack_received`, which is then cleared; from PLUG_ACKED to UNPLUG_NOTIFIED iff not
`client_ready`; from UNPLUG_NOTIFIED to INIT iff `ack_received`, the reset callback
being registered, and `ack_received` is then cleared; otherwise state and
`ack_received` stay as they were; `client_ready` is never written. The one run that
does not end is the run that finds `ack_received` in UNPLUG_NOTIFIED with a `NULL`
reset callback: it stops at the call through the `NULL` pointer with nothing stored. -/
theorem usb_bam_sm_work_transition_table (s : State) :
    (usb_bam_sm_work s).1.peer_handshake_info.client_ready = s.peer_handshake_info.client_ready ∧
    (s.peer_handshake_info.state = .USB_BAM_SM_INIT →
      (s.peer_handshake_info.client_ready = true →
        (usb_bam_sm_work s).1.peer_handshake_info.state = .USB_BAM_SM_PLUG_NOTIFIED ∧
        (usb_bam_sm_work s).1.peer_handshake_info.ack_received =
          s.peer_handshake_info.ack_received) ∧
      (s.peer_handshake_info.client_ready = false →
        (usb_bam_sm_work s).1.peer_handshake_info.state = .USB_BAM_SM_INIT ∧
        (usb_bam_sm_work s).1.peer_handshake_info.ack_received =
          s.peer_handshake_info.ack_received)) ∧
    (s.peer_handshake_info.state = .USB_BAM_SM_PLUG_NOTIFIED →
      (s.peer_handshake_info.ack_received = true →
        (usb_bam_sm_work s).1.peer_handshake_info.state = .USB_BAM_SM_PLUG_ACKED ∧
        (usb_bam_sm_work s).1.peer_handshake_info.ack_received = false) ∧
      (s.peer_handshake_info.ack_received = false →
        (usb_bam_sm_work s).1.peer_handshake_info.state = .USB_BAM_SM_PLUG_NOTIFIED ∧
        (usb_bam_sm_work s).1.peer_handshake_info.ack_received = false)) ∧
    (s.peer_handshake_info.state = .USB_BAM_SM_PLUG_ACKED →
      (s.peer_handshake_info.client_ready = false →
        (usb_bam_sm_work s).1.peer_handshake_info.state = .USB_BAM_SM_UNPLUG_NOTIFIED ∧
        (usb_bam_sm_work s).1.peer_handshake_info.ack_received =
          s.peer_handshake_info.ack_received) ∧
      (s.peer_handshake_info.client_ready = true →
        (usb_bam_sm_work s).1.peer_handshake_info.state = .USB_BAM_SM_PLUG_ACKED ∧
        (usb_bam_sm_work s).1.peer_handshake_info.ack_received =
          s.peer_handshake_info.ack_received)) ∧
    (s.peer_handshake_info.state = .USB_BAM_SM_UNPLUG_NOTIFIED →
      (s.peer_handshake_info.ack_received = true →
        s.peer_handshake_info.reset_callback ≠ 0 →
        (usb_bam_sm_work s).1.peer_handshake_info.state = .USB_BAM_SM_INIT ∧
        (usb_bam_sm_work s).1.peer_handshake_info.ack_received = false) ∧
      (s.peer_handshake_info.ack_received = true →
        s.peer_handshake_info.reset_callback = 0 →
        (usb_bam_sm_work s).fault = some fault.null_pointer ∧
        (usb_bam_sm_work s).1 = s ∧ (usb_bam_sm_work s).2 = []) ∧
      (s.peer_handshake_info.ack_received = false →
        (usb_bam_sm_work s).1.peer_handshake_info.state = .USB_BAM_SM_UNPLUG_NOTIFIED ∧
        (usb_bam_sm_work s).1.peer_handshake_info.ack_received = false)) ∧
    ((usb_bam_sm_work s).fault = none ↔
      ¬(s.peer_handshake_info.state = .USB_BAM_SM_UNPLUG_NOTIFIED ∧
        s.peer_handshake_info.ack_received = true ∧
        s.peer_handshake_info.reset_callback = 0)) := by
  obtain ⟨pdev, pdata, mx, rows, pipes, conns, c1, c2, hb, cnt, tm, ina, ps, cs, sl, lw, pa, ca,
    cr1, pr1, phi, lps⟩ := s
  obtain ⟨st, cr, ack, pw, cb, prm⟩ := phi
  by_cases hcb : cb = 0 <;> cases st <;> cases cr <;> cases ack <;>
    simp [usb_bam_sm_work, usb_bam_sm_work_switch, usb_bam_sm_work_pending_state,
      usb_bam_sm_work_pending_flags, hcb]

/-- C5, at concrete states: in UNPLUG_NOTIFIED with an ack and the reset callback 7
registered the run ends in INIT with the ack cleared; with no callback registered it
stops at the call through `NULL`. -/
theorem usb_bam_sm_work_transition_table_witness :
    (usb_bam_sm_work
      { scenario_state with
        peer_handshake_info :=
          { state := .USB_BAM_SM_UNPLUG_NOTIFIED, client_ready := false, ack_received := true,
            pending_work := 0, reset_callback := 7, reset_param := 9 }
      }).1.peer_handshake_info.state = .USB_BAM_SM_INIT ∧
    (usb_bam_sm_work
      { scenario_state with
        peer_handshake_info :=
          { state := .USB_BAM_SM_UNPLUG_NOTIFIED, client_ready := false, ack_received := true,
            pending_work := 0, reset_callback := 0, reset_param := 0 }
      }).fault = some fault.null_pointer :=
  ⟨((usb_bam_sm_work_transition_table
      { scenario_state with
        peer_handshake_info :=
          { state := .USB_BAM_SM_UNPLUG_NOTIFIED, client_ready := false, ack_received := true,
            pending_work := 0, reset_callback := 7, reset_param := 9 }
      }).2.2.2.2.1 rfl).1 rfl (by decide) |>.1,
   ((usb_bam_sm_work_transition_table
      { scenario_state with
        peer_handshake_info :=
          { state := .USB_BAM_SM_UNPLUG_NOTIFIED, client_ready := false, ack_received := true,
            pending_work := 0, reset_callback := 0, reset_param := 0 }
      }).2.2.2.2.1 rfl).2.1 rfl rfl |>.1⟩

theorem release_ops_append (a b : List Op) : release_ops (a ++ b) = release_ops a ++ release_ops b := by
  simp [release_ops]

theorem usb_bam_connect_of_connect_pipe_failure (s : State) (be : Backend) (idx : Nat)
    (hdev : s.usb_bam_pdev = true) (hoff : (s.usb_bam_connections idx).enabled = false)
    (hidx : idx ≤ s.max_connections) (hret : (connect_pipe s be idx).ret ≠ 0) :
    (usb_bam_connect s be idx true).ret = (connect_pipe s be idx).ret ∧
    (usb_bam_connect s be idx true).st = (connect_pipe s be idx).st ∧
    release_ops (usb_bam_connect s be idx true).ops = release_ops (connect_pipe s be idx).ops := by
  have hn : ¬ idx > s.max_connections := by omega
  unfold usb_bam_connect
  dsimp only
  rw [if_neg (by simp [hdev]), if_neg (by simp [hoff]), if_neg (by simp), if_neg hn,
    if_pos hret]
  refine ⟨rfl, rfl, ?_⟩
  show release_ops (_ ++ (connect_pipe s be idx).ops) = _
  rw [release_ops_append]
  split <;> simp [release_ops, Op.is_release]

theorem connect_rolled_back_of_connect_pipe (s : State) (be : Backend) (idx : Nat)
    (code : Int) (released : List Op)
    (hdev : s.usb_bam_pdev = true) (hoff : (s.usb_bam_connections idx).enabled = false)
    (hidx : idx < s.max_connections) (hcode : code ≠ 0)
    (hret : (connect_pipe s be idx).ret = code)
    (hrel : release_ops (connect_pipe s be idx).ops = released) :
    connect_rolled_back s (usb_bam_connect s be idx true) idx code released := by
  obtain ⟨h1, h2, h3⟩ := usb_bam_connect_of_connect_pipe_failure s be idx hdev hoff
    (Nat.le_of_lt hidx) (by rw [hret]; exact hcode)
  have hf := connect_pipe_frame s be idx
  refine ⟨h1.trans hret, hcode, ?_, fun i => ?_, ?_, h3.trans hrel⟩
  · rw [h2, hf.2.2.2.1 idx, hoff]
  · rw [h2, hf.2.2.2.1 i]
  · rw [h2, hf.2.2.1]

theorem connect_pipe_alloc_failure (s : State) (be : Backend) (idx : Nat)
    (h0 : be.sps_alloc_endpoint = 0) :
    (connect_pipe s be idx).ret = -ENOMEM ∧ release_ops (connect_pipe s be idx).ops = [] := by
  simp [connect_pipe, h0, Result.plain, release_ops, Op.is_release]

theorem connect_pipe_get_config_failure (s : State) (be : Backend) (idx : Nat)
    (h0 : be.sps_alloc_endpoint ≠ 0) (h1 : be.sps_get_config ≠ 0) :
    (connect_pipe s be idx).ret = be.sps_get_config ∧
    release_ops (connect_pipe s be idx).ops = [Op.sps_free_endpoint be.sps_alloc_endpoint] := by
  simp [connect_pipe, h0, h1, connect_pipe_free_sps_endpoint, release_ops, Op.is_release]

theorem connect_pipe_phy2h_src_failure (s : State) (be : Backend) (idx : Nat)
    (h0 : be.sps_alloc_endpoint ≠ 0) (h1 : be.sps_get_config = 0) (h2 : be.sps_phy2h_src ≠ 0) :
    (connect_pipe s be idx).ret = be.sps_phy2h_src ∧
    release_ops (connect_pipe s be idx).ops = [Op.sps_free_endpoint be.sps_alloc_endpoint] := by
  simp [connect_pipe, h0, h1, h2, connect_pipe_free_sps_endpoint, release_ops, Op.is_release]

theorem connect_pipe_phy2h_dst_failure (s : State) (be : Backend) (idx : Nat)
    (h0 : be.sps_alloc_endpoint ≠ 0) (h1 : be.sps_get_config = 0) (h2 : be.sps_phy2h_src = 0)
    (h3 : be.sps_phy2h_dst ≠ 0) :
    (connect_pipe s be idx).ret = be.sps_phy2h_dst ∧
    release_ops (connect_pipe s be idx).ops = [Op.sps_free_endpoint be.sps_alloc_endpoint] := by
  simp [connect_pipe, h0, h1, h2, h3, connect_pipe_free_sps_endpoint, release_ops, Op.is_release]

theorem connect_pipe_reaches_mem (s : State) (be : Backend) (idx : Nat)
    (h0 : be.sps_alloc_endpoint ≠ 0) (h1 : be.sps_get_config = 0) (h2 : be.sps_phy2h_src = 0)
    (h3 : be.sps_phy2h_dst = 0) :
    ∃ (s1 : State) (out : Option Nat) (ops : List Op),
      s1.usb_bam_connections = s.usb_bam_connections ∧ s1.mem_clk = s.mem_clk ∧
      s1.mem_iface_clk = s.mem_iface_clk ∧ release_ops ops = [] ∧
      connect_pipe s be idx = connect_pipe_mem 0 s1 be idx ops be.sps_alloc_endpoint out := by
  by_cases hd : (s.usb_bam_connections idx).dir = usb_bam_pipe_dir.USB_TO_PEER_PERIPHERAL
  · refine ⟨?s1, ?out, ?ops, ?_, ?_, ?_, ?_, ?h⟩
    case h =>
      simp only [connect_pipe, h0, h1, h2, h3, hd, ne_eq, not_true_eq_false, if_false, if_true]
      exact rfl
    all_goals exact rfl
  · refine ⟨?s2, ?out2, ?ops2, ?_, ?_, ?_, ?_, ?h2⟩
    case h2 =>
      simp only [connect_pipe, h0, h1, h2, h3, hd, ne_eq, not_true_eq_false, if_false, if_true]
      exact rfl
    all_goals exact rfl

theorem connect_pipe_mem_fifo_data_failure (ret : Int) (s : State) (be : Backend) (idx : Nat)
    (ops : List Op) (pipe : Nat) (out : Option Nat)
    (hm : (s.usb_bam_connections idx).mem_type = usb_pipe_mem_type.SPS_PIPE_MEM)
    (h : be.sps_setup_bam2bam_fifo_data ≠ 0) :
    (connect_pipe_mem ret s be idx ops pipe out).ret = be.sps_setup_bam2bam_fifo_data ∧
    release_ops (connect_pipe_mem ret s be idx ops pipe out).ops =
      release_ops ops ++ [Op.sps_free_endpoint pipe] := by
  simp [connect_pipe_mem, hm, h, connect_pipe_free_sps_endpoint, release_ops, Op.is_release]

theorem connect_pipe_mem_fifo_desc_failure (ret : Int) (s : State) (be : Backend) (idx : Nat)
    (ops : List Op) (pipe : Nat) (out : Option Nat)
    (hm : (s.usb_bam_connections idx).mem_type = usb_pipe_mem_type.SPS_PIPE_MEM)
    (h1 : be.sps_setup_bam2bam_fifo_data = 0) (h2 : be.sps_setup_bam2bam_fifo_desc ≠ 0) :
    (connect_pipe_mem ret s be idx ops pipe out).ret = be.sps_setup_bam2bam_fifo_desc ∧
    release_ops (connect_pipe_mem ret s be idx ops pipe out).ops =
      release_ops ops ++ [Op.sps_free_endpoint pipe] := by
  simp [connect_pipe_mem, hm, h1, h2, connect_pipe_free_sps_endpoint, release_ops, Op.is_release]

theorem connect_pipe_finish_connect_failure (s : State) (be : Backend) (idx : Nat)
    (ops : List Op) (pipe : Nat) (out : Option Nat) (hc : be.sps_connect < 0) :
    (connect_pipe_finish s be idx ops pipe out).ret = be.sps_connect ∧
    release_ops (connect_pipe_finish s be idx ops pipe out).ops =
      release_ops ops ++ [Op.sps_disconnect pipe, Op.sps_free_endpoint pipe] := by
  simp [connect_pipe_finish, hc, connect_pipe_error, connect_pipe_free_sps_endpoint, release_ops,
    Op.is_release]

theorem usb_bam_val_nonneg (b : usb_bam) : ¬ b.val < 0 := by
  cases b <;> simp [usb_bam.val]

theorem connect_pipe_mem_connect_failure (ret : Int) (s : State) (be : Backend) (idx : Nat)
    (ops : List Op) (pipe : Nat) (out : Option Nat)
    (hp : connect_pipe_mem_provisioned s be idx) (hc : be.sps_connect < 0) :
    (connect_pipe_mem ret s be idx ops pipe out).ret = be.sps_connect ∧
    release_ops (connect_pipe_mem ret s be idx ops pipe out).ops =
      release_ops ops ++ [Op.sps_disconnect pipe, Op.sps_free_endpoint pipe] := by
  unfold connect_pipe_mem_provisioned at hp
  unfold connect_pipe_mem
  dsimp only
  split
  · rename_i hm
    rw [hm] at hp
    rw [if_neg (by simp [hp.1]), if_neg (by simp [hp.2])]
    have h := connect_pipe_finish_connect_failure
      ((s.modify_connection idx (fun c =>
          { c with data_mem_buf := be.sps_setup_bam2bam_fifo_data_out })).modify_connection idx
        (fun c => { c with desc_mem_buf := be.sps_setup_bam2bam_fifo_desc_out })) be idx
      (ops ++ [Op.sps_setup_bam2bam_fifo (s.usb_bam_connections idx).data_fifo_base_offset
          (s.usb_bam_connections idx).data_fifo_size] ++
        [Op.sps_setup_bam2bam_fifo (s.usb_bam_connections idx).desc_fifo_base_offset
          (s.usb_bam_connections idx).desc_fifo_size]) pipe out hc
    refine ⟨h.1, h.2.trans ?_⟩
    simp [release_ops, Op.is_release]
  · rename_i hm
    rw [hm] at hp
    rw [if_neg (by simp [hp.1, hp.2]), if_neg (usb_bam_val_nonneg _)]
    unfold connect_pipe_oci_mem
    dsimp only
    refine ⟨(connect_pipe_finish_connect_failure _ be idx _ pipe out hc).1,
      (connect_pipe_finish_connect_failure _ be idx _ pipe out hc).2.trans ?_⟩
    simp [release_ops, Op.is_release]
  · unfold connect_pipe_oci_mem
    dsimp only
    refine ⟨(connect_pipe_finish_connect_failure _ be idx _ pipe out hc).1,
      (connect_pipe_finish_connect_failure _ be idx _ pipe out hc).2.trans ?_⟩
    simp [release_ops, Op.is_release]
  · refine ⟨(connect_pipe_finish_connect_failure _ be idx _ pipe out hc).1,
      (connect_pipe_finish_connect_failure _ be idx _ pipe out hc).2.trans ?_⟩
    simp [release_ops, Op.is_release]
  · rename_i hm
    rw [hm] at hp
    exact absurd hp id

/-- C6: for every disabled configured index, with the device present and a non-null
output pointer, each failure `connect_pipe` can meet makes `usb_bam_connect` return
that non-zero status with no `enabled` flag and no per-instance counter changed:
a failed endpoint allocation gives `-ENOMEM` (nothing was allocated, nothing is
released); a failing `sps_get_config`, source or destination `sps_phy2h`, data or
descriptor FIFO set-up gives the status of that call and the endpoint is released by
`sps_free_endpoint` alone; `sps_connect` returning a negative status gives that status
and the endpoint is released by `sps_disconnect` followed by `sps_free_endpoint`. -/
theorem usb_bam_connect_failure_rolls_back (s : State) (be : Backend) (idx : Nat)
    (hdev : s.usb_bam_pdev = true) (hoff : (s.usb_bam_connections idx).enabled = false)
    (hidx : idx < s.max_connections) :
    (be.sps_alloc_endpoint = 0 →
      connect_rolled_back s (usb_bam_connect s be idx true) idx (-ENOMEM) []) ∧
    (be.sps_alloc_endpoint ≠ 0 → be.sps_get_config ≠ 0 →
      connect_rolled_back s (usb_bam_connect s be idx true) idx be.sps_get_config
        [Op.sps_free_endpoint be.sps_alloc_endpoint]) ∧
    (be.sps_alloc_endpoint ≠ 0 → be.sps_get_config = 0 → be.sps_phy2h_src ≠ 0 →
      connect_rolled_back s (usb_bam_connect s be idx true) idx be.sps_phy2h_src
        [Op.sps_free_endpoint be.sps_alloc_endpoint]) ∧
    (be.sps_alloc_endpoint ≠ 0 → be.sps_get_config = 0 → be.sps_phy2h_src = 0 →
      be.sps_phy2h_dst ≠ 0 →
      connect_rolled_back s (usb_bam_connect s be idx true) idx be.sps_phy2h_dst
        [Op.sps_free_endpoint be.sps_alloc_endpoint]) ∧
    (be.sps_alloc_endpoint ≠ 0 → be.sps_get_config = 0 → be.sps_phy2h_src = 0 →
      be.sps_phy2h_dst = 0 →
      (s.usb_bam_connections idx).mem_type = usb_pipe_mem_type.SPS_PIPE_MEM →
      be.sps_setup_bam2bam_fifo_data ≠ 0 →
      connect_rolled_back s (usb_bam_connect s be idx true) idx be.sps_setup_bam2bam_fifo_data
        [Op.sps_free_endpoint be.sps_alloc_endpoint]) ∧
    (be.sps_alloc_endpoint ≠ 0 → be.sps_get_config = 0 → be.sps_phy2h_src = 0 →
      be.sps_phy2h_dst = 0 →
      (s.usb_bam_connections idx).mem_type = usb_pipe_mem_type.SPS_PIPE_MEM →
      be.sps_setup_bam2bam_fifo_data = 0 → be.sps_setup_bam2bam_fifo_desc ≠ 0 →
      connect_rolled_back s (usb_bam_connect s be idx true) idx be.sps_setup_bam2bam_fifo_desc
        [Op.sps_free_endpoint be.sps_alloc_endpoint]) ∧
    (be.sps_alloc_endpoint ≠ 0 → be.sps_get_config = 0 → be.sps_phy2h_src = 0 →
      be.sps_phy2h_dst = 0 → connect_pipe_mem_provisioned s be idx → be.sps_connect < 0 →
      connect_rolled_back s (usb_bam_connect s be idx true) idx be.sps_connect
        [Op.sps_disconnect be.sps_alloc_endpoint,
         Op.sps_free_endpoint be.sps_alloc_endpoint]) := by
  have lift := connect_rolled_back_of_connect_pipe s be idx
  refine ⟨fun h0 => ?_, fun h0 h1 => ?_, fun h0 h1 h2 => ?_, fun h0 h1 h2 h3 => ?_,
    fun h0 h1 h2 h3 hm h4 => ?_, fun h0 h1 h2 h3 hm h4 h5 => ?_,
    fun h0 h1 h2 h3 hp hc => ?_⟩
  · exact lift _ _ hdev hoff hidx (by simp [ENOMEM])
      (connect_pipe_alloc_failure s be idx h0).1 (connect_pipe_alloc_failure s be idx h0).2
  · exact lift _ _ hdev hoff hidx h1
      (connect_pipe_get_config_failure s be idx h0 h1).1
      (connect_pipe_get_config_failure s be idx h0 h1).2
  · exact lift _ _ hdev hoff hidx h2
      (connect_pipe_phy2h_src_failure s be idx h0 h1 h2).1
      (connect_pipe_phy2h_src_failure s be idx h0 h1 h2).2
  · exact lift _ _ hdev hoff hidx h3
      (connect_pipe_phy2h_dst_failure s be idx h0 h1 h2 h3).1
      (connect_pipe_phy2h_dst_failure s be idx h0 h1 h2 h3).2
  · obtain ⟨s1, out, ops, hc1, _, _, hrel, heq⟩ := connect_pipe_reaches_mem s be idx h0 h1 h2 h3
    have hm1 : (s1.usb_bam_connections idx).mem_type = usb_pipe_mem_type.SPS_PIPE_MEM := by
      rw [hc1]; exact hm
    have h := connect_pipe_mem_fifo_data_failure 0 s1 be idx ops be.sps_alloc_endpoint out hm1 h4
    rw [← heq, hrel] at h
    exact lift _ _ hdev hoff hidx h4 h.1 h.2
  · obtain ⟨s1, out, ops, hc1, _, _, hrel, heq⟩ := connect_pipe_reaches_mem s be idx h0 h1 h2 h3
    have hm1 : (s1.usb_bam_connections idx).mem_type = usb_pipe_mem_type.SPS_PIPE_MEM := by
      rw [hc1]; exact hm
    have h := connect_pipe_mem_fifo_desc_failure 0 s1 be idx ops be.sps_alloc_endpoint out hm1
      h4 h5
    rw [← heq, hrel] at h
    exact lift _ _ hdev hoff hidx h5 h.1 h.2
  · obtain ⟨s1, out, ops, hc1, hk1, hk2, hrel, heq⟩ :=
      connect_pipe_reaches_mem s be idx h0 h1 h2 h3
    have hp1 : connect_pipe_mem_provisioned s1 be idx := by
      unfold connect_pipe_mem_provisioned at hp ⊢
      rw [hc1, hk1, hk2]
      exact hp
    have h := connect_pipe_mem_connect_failure 0 s1 be idx ops be.sps_alloc_endpoint out hp1 hc
    rw [← heq, hrel] at h
    exact lift _ _ hdev hoff hidx (by omega) h.1 h.2

/-- C6, at the two-pipe scenario: index 0 (private core memory) is connected while
`sps_connect` reports `-5`. -/
theorem usb_bam_connect_failure_rolls_back_witness :
    scenario_state.usb_bam_pdev = true ∧
    (scenario_state.usb_bam_connections 0).enabled = false ∧
    0 < scenario_state.max_connections ∧
    connect_rolled_back scenario_state (usb_bam_connect scenario_state backend_connect_fails 0 true)
      0 (-5) [Op.sps_disconnect 0x5000, Op.sps_free_endpoint 0x5000] :=
  ⟨rfl, rfl, by decide,
   (usb_bam_connect_failure_rolls_back scenario_state backend_connect_fails 0 rfl rfl
      (by decide)).2.2.2.2.2.2 (by decide) rfl rfl rfl
      (by simp [connect_pipe_mem_provisioned, scenario_state, scenario_state_of, scenario_boot,
        usb_bam_probe_init, scenario_table, scenario_connection, IS_ERR])
      (by decide)⟩

/-- C7 (the code at the failing input): a disabled connection whose memory strategy is
none of the four supported ones is connected with every backend call succeeding;
`usb_bam_connect` frees the endpoint and nevertheless returns 0, marks the connection
enabled and increments the counter of its instance. -/
theorem usb_bam_connect_unknown_mem_type_reports_success :
    (unknown_mem_state.usb_bam_connections 0).enabled = false ∧
    (unknown_mem_state.usb_bam_connections 0).mem_type = usb_pipe_mem_type.UNKNOWN_MEM 4 ∧
    (usb_bam_connect unknown_mem_state backend_ok 0 true).ret = 0 ∧
    ((usb_bam_connect unknown_mem_state backend_ok 0 true).st.usb_bam_connections 0).enabled
      = true ∧
    (usb_bam_connect unknown_mem_state backend_ok 0 true).st.pipes_enabled_per_bam .HSUSB_BAM
      = 1 ∧
    (usb_bam_connect unknown_mem_state backend_ok 0 true).ops =
      [Op.sps_alloc_endpoint, Op.sps_get_config 0x5000, Op.sps_phy2h 0x1000,
       Op.sps_phy2h 0x2000, Op.sps_free_endpoint 0x5000] := by
  decide

/-- C8 (the code at the failing input): a disabled private-core-memory connection is
connected while `mem_clk` is available and `mem_iface_clk` is not; `usb_bam_connect`
writes no private-RAM register and frees the endpoint, and nevertheless returns 0,
marks the connection enabled and increments the counter of its instance. -/
theorem usb_bam_connect_missing_iface_clk_reports_success :
    (iface_clk_missing_state.usb_bam_connections 0).enabled = false ∧
    (iface_clk_missing_state.usb_bam_connections 0).mem_type =
      usb_pipe_mem_type.USB_PRIVATE_MEM ∧
    IS_ERR iface_clk_missing_state.mem_clk = false ∧
    IS_ERR iface_clk_missing_state.mem_iface_clk = true ∧
    (usb_bam_connect iface_clk_missing_state backend_ok 0 true).ret = 0 ∧
    ((usb_bam_connect iface_clk_missing_state backend_ok 0 true).st.usb_bam_connections
      0).enabled = true ∧
    (usb_bam_connect iface_clk_missing_state backend_ok 0 true).st.pipes_enabled_per_bam
      .HSUSB_BAM = 1 ∧
    (usb_bam_connect iface_clk_missing_state backend_ok 0 true).ops =
      [Op.sps_alloc_endpoint, Op.sps_get_config 0x5000, Op.sps_phy2h 0x1000,
       Op.sps_phy2h 0x2000, Op.sps_free_endpoint 0x5000] := by
  decide

/-- C9 (the code at the failing input): in the two-pipe scenario `usb_bam_connect` is
called with `idx = max_connections = 2` and a non-null output pointer, the memory
behind the table reading as a disabled row; the call does not return `-EINVAL` but
runs `connect_pipe` on that row, returns 0, marks it enabled and increments a
counter. -/
theorem usb_bam_connect_idx_eq_max_connections_proceeds :
    scenario_state.max_connections = 2 ∧
    (usb_bam_connect scenario_state backend_ok 2 true).ret = 0 ∧
    (usb_bam_connect scenario_state backend_ok 2 true).ops =
      [Op.sps_alloc_endpoint, Op.sps_get_config 0x5000, Op.sps_phy2h 0x1000,
       Op.sps_phy2h 0x2000, Op.sps_setup_bam2bam_fifo 0x100 0x200,
       Op.sps_setup_bam2bam_fifo 0x400 0x80, Op.sps_connect 0x5000] ∧
    ((usb_bam_connect scenario_state backend_ok 2 true).st.usb_bam_connections 2).enabled
      = true ∧
    (usb_bam_connect scenario_state backend_ok 2 true).st.sps_pipes 2 = 0x5000 ∧
    (usb_bam_connect scenario_state backend_ok 2 true).st.pipes_enabled_per_bam .SSUSB_BAM
      = 1 := by
  decide

theorem usb_bam_val_injective {a b : usb_bam} : a.val = b.val ↔ a = b := by
  cases a <;> cases b <;> simp [usb_bam.val]

theorem get_bam_type_from_core_name_range (name : List Char) :
    get_bam_type_from_core_name name = -EINVAL ∨
      ∃ b : usb_bam, get_bam_type_from_core_name name = b.val := by
  unfold get_bam_type_from_core_name
  split
  · exact Or.inr ⟨_, rfl⟩
  · split
    · exact Or.inr ⟨_, rfl⟩
    · split
      · exact Or.inr ⟨_, rfl⟩
      · exact Or.inl rfl

theorem find_range_first (p : Nat → Bool) (n : Nat) :
    ((∃ i, i < n ∧ p i = true) →
      ∃ i, (List.range n).find? p = some i ∧ i < n ∧ p i = true ∧ ∀ j, j < i → p j = false) ∧
    ((¬ ∃ i, i < n ∧ p i = true) → (List.range n).find? p = none) := by
  constructor
  · rintro ⟨i, hi, hp⟩
    cases h : (List.range n).find? p with
    | none =>
      rw [List.find?_range_eq_none] at h
      have := h i hi
      simp [hp] at this
    | some k =>
      rw [List.find?_range_eq_some] at h
      refine ⟨k, rfl, List.mem_range.mp h.2.1, h.1, fun j hj => ?_⟩
      simpa using h.2.2 j hj
  · intro hno
    rw [List.find?_range_eq_none]
    intro i hi
    cases hp : p i with
    | false => rfl
    | true => exact absurd ⟨i, hi, hp⟩ hno

/-- C10: for an unrecognised core name `usb_bam_get_connection_idx` returns `-EINVAL`
whatever the table holds; for a core name that resolves to the bus instance `b` it
returns an index below `max_connections` exactly when some configured connection
matches instance, peer role, direction and pipe number, every index it returns
matches and has no matching index below it (it is the smallest one), and it returns
`-ENODEV` exactly when no configured connection matches; a core name always is of one
of these two kinds. -/
theorem usb_bam_get_connection_idx_first_match (s : State) (core_name : List Char)
    (client : Nat) (dir : usb_bam_pipe_dir) (num : Nat) :
    (get_bam_type_from_core_name core_name = -EINVAL →
      usb_bam_get_connection_idx s core_name client dir num = -EINVAL) ∧
    (∀ b : usb_bam, get_bam_type_from_core_name core_name = b.val →
      ((∃ i : Nat, i < s.max_connections ∧
          usb_bam_get_connection_idx s core_name client dir num = (i : Int)) ↔
        ∃ i, i < s.max_connections ∧ connection_matches s b client dir num i) ∧
      (∀ i : Nat, usb_bam_get_connection_idx s core_name client dir num = (i : Int) →
        i < s.max_connections ∧ connection_matches s b client dir num i ∧
        ∀ j, j < i → ¬ connection_matches s b client dir num j) ∧
      (usb_bam_get_connection_idx s core_name client dir num = -ENODEV ↔
        ¬ ∃ i, i < s.max_connections ∧ connection_matches s b client dir num i)) ∧
    (get_bam_type_from_core_name core_name = -EINVAL ∨
      ∃ b : usb_bam, get_bam_type_from_core_name core_name = b.val) := by
  refine ⟨fun h => ?_, fun b hb => ?_, get_bam_type_from_core_name_range core_name⟩
  · simp [usb_bam_get_connection_idx, h, EINVAL]
  · have hp : ∀ i, decide ((s.usb_bam_connections i).bam_type.val = b.val ∧
        (s.usb_bam_connections i).peer_bam = client ∧ (s.usb_bam_connections i).dir = dir ∧
        (s.usb_bam_connections i).pipe_num = num) = true ↔
        connection_matches s b client dir num i := by
      intro i
      simp [connection_matches, usb_bam_val_injective]
    have hpf : ∀ i, decide ((s.usb_bam_connections i).bam_type.val = b.val ∧
        (s.usb_bam_connections i).peer_bam = client ∧ (s.usb_bam_connections i).dir = dir ∧
        (s.usb_bam_connections i).pipe_num = num) = false ↔
        ¬ connection_matches s b client dir num i := by
      intro i
      rw [← hp i]
      simp
    obtain ⟨hsome, hnone⟩ := find_range_first (fun i =>
      decide ((s.usb_bam_connections i).bam_type.val = b.val ∧
        (s.usb_bam_connections i).peer_bam = client ∧ (s.usb_bam_connections i).dir = dir ∧
        (s.usb_bam_connections i).pipe_num = num)) s.max_connections
    have hval : ¬ b.val < 0 := usb_bam_val_nonneg b
    by_cases hex : ∃ i, i < s.max_connections ∧ connection_matches s b client dir num i
    · obtain ⟨i0, hi0, hm0⟩ := hex
      obtain ⟨k, hk, hkn, hkp, hkmin⟩ := hsome ⟨i0, hi0, (hp i0).mpr hm0⟩
      have hr : usb_bam_get_connection_idx s core_name client dir num = (k : Int) := by
        simp only [usb_bam_get_connection_idx, hb, hval, if_false, hk]
      rw [hr]
      refine ⟨⟨fun _ => ⟨i0, hi0, hm0⟩, fun _ => ⟨k, hkn, rfl⟩⟩, fun i hi => ?_, ?_⟩
      · have hki : k = i := by exact_mod_cast hi
        subst hki
        exact ⟨hkn, (hp k).mp hkp, fun j hj => (hpf j).mp (hkmin j hj)⟩
      · constructor
        · intro h
          simp [ENODEV] at h
        · intro h
          exact absurd ⟨i0, hi0, hm0⟩ h
    · have hfind := hnone (fun ⟨i, hi, hpi⟩ => hex ⟨i, hi, (hp i).mp hpi⟩)
      have hr : usb_bam_get_connection_idx s core_name client dir num = -ENODEV := by
        simp only [usb_bam_get_connection_idx, hb, hval, if_false, hfind]
      rw [hr]
      refine ⟨⟨fun ⟨i, _, hi⟩ => ?_, fun h => absurd h hex⟩, fun i hi => ?_, ?_⟩
      · simp [ENODEV] at hi
      · simp [ENODEV] at hi
      · exact ⟨fun _ => hex, fun _ => rfl⟩

/-- C10, at the two-pipe scenario: the name `hsusb` resolves to the HSUSB instance, the
peer-to-local pipe 0 of peer role 0 is found at index 1, which matches and has no
matching index below it; a name that is not recognised gives `-EINVAL`, and a
recognised instance without a configured connection gives `-ENODEV`. -/
theorem usb_bam_get_connection_idx_first_match_witness :
    get_bam_type_from_core_name "hsusb".toList = usb_bam.HSUSB_BAM.val ∧
    usb_bam_get_connection_idx scenario_state "hsusb".toList 0 .PEER_PERIPHERAL_TO_USB 0 = 1 ∧
    (1 < scenario_state.max_connections ∧
      connection_matches scenario_state .HSUSB_BAM 0 .PEER_PERIPHERAL_TO_USB 0 1 ∧
      ∀ j, j < 1 → ¬ connection_matches scenario_state .HSUSB_BAM 0 .PEER_PERIPHERAL_TO_USB 0 j) ∧
    usb_bam_get_connection_idx scenario_state "qdss".toList 0 .PEER_PERIPHERAL_TO_USB 0
      = -EINVAL ∧
    usb_bam_get_connection_idx scenario_state "ssusb".toList 0 .USB_TO_PEER_PERIPHERAL 0
      = -ENODEV :=
  ⟨by decide, by decide,
   ((usb_bam_get_connection_idx_first_match scenario_state "hsusb".toList 0
      .PEER_PERIPHERAL_TO_USB 0).2.1 .HSUSB_BAM (by decide)).2.1 1 (by decide),
   (usb_bam_get_connection_idx_first_match scenario_state "qdss".toList 0
      .PEER_PERIPHERAL_TO_USB 0).1 (by decide),
   by decide⟩

theorem usb_bam_wake_cb_global_set (s : State) (idx : Nat)
    (ht : (s.usb_bam_connections idx).event.type = usb_bam_event_type.USB_BAM_EVENT_WAKEUP)
    (hf : s.is_bam_inactivity (s.usb_bam_connections idx).bam_type = true) :
    usb_bam_wake_cb s idx =
      ({ s with is_bam_inactivity :=
          Function.update s.is_bam_inactivity (s.usb_bam_connections idx).bam_type false },
       [Op.queue_work_event idx]) := by
  simp [usb_bam_wake_cb, ht, hf]

theorem usb_bam_wake_cb_global_clear (s : State) (idx : Nat)
    (ht : (s.usb_bam_connections idx).event.type = usb_bam_event_type.USB_BAM_EVENT_WAKEUP)
    (hf : s.is_bam_inactivity (s.usb_bam_connections idx).bam_type = false) :
    usb_bam_wake_cb s idx = (s, []) := by
  simp [usb_bam_wake_cb, ht, hf]

theorem usb_bam_wake_cb_seq_suppressed (idxs : List Nat) :
    ∀ (s : State) (b : usb_bam),
      (∀ i ∈ idxs, (s.usb_bam_connections i).event.type =
          usb_bam_event_type.USB_BAM_EVENT_WAKEUP ∧ (s.usb_bam_connections i).bam_type = b) →
      s.is_bam_inactivity b = false → usb_bam_wake_cb_seq s idxs = (s, []) := by
  induction idxs with
  | nil => intro s b _ _; rfl
  | cons i rest ih =>
    intro s b hall hf
    have hi := hall i (List.mem_cons_self _ _)
    have h1 : usb_bam_wake_cb s i = (s, []) :=
      usb_bam_wake_cb_global_clear s i hi.1 (by rw [hi.2]; exact hf)
    unfold usb_bam_wake_cb_seq
    rw [h1]
    rw [ih s b (fun j hj => hall j (List.mem_cons_of_mem _ hj)) hf]
    rfl

/-- C11: on a wake interrupt `usb_bam_wake_cb` always queues a per-pipe wake event and
leaves the state, so the inactive flag, as it is; it queues a global wake event iff
the inactive flag of the pipe's instance is set, and queuing it clears exactly that
flag; a global wake event arriving with the flag clear does nothing. Hence, starting
with the flag of instance `b` set, `n >= 1` back-to-back global wake interrupts on
pipes of `b` queue exactly one event, the one of the first pipe, and clear the flag
once: the first interrupt clears it and every later one is suppressed. -/
theorem usb_bam_wake_cb_dispatch (s : State) (idx : Nat) :
    ((s.usb_bam_connections idx).event.type = usb_bam_event_type.USB_BAM_EVENT_WAKEUP_PIPE →
      usb_bam_wake_cb s idx = (s, [Op.queue_work_event idx])) ∧
    ((s.usb_bam_connections idx).event.type = usb_bam_event_type.USB_BAM_EVENT_WAKEUP →
      ((usb_bam_wake_cb s idx).2 = [Op.queue_work_event idx] ↔
        s.is_bam_inactivity (s.usb_bam_connections idx).bam_type = true) ∧
      (s.is_bam_inactivity (s.usb_bam_connections idx).bam_type = true →
        (usb_bam_wake_cb s idx).1 =
          { s with is_bam_inactivity :=
              Function.update s.is_bam_inactivity (s.usb_bam_connections idx).bam_type false }) ∧
      (s.is_bam_inactivity (s.usb_bam_connections idx).bam_type = false →
        usb_bam_wake_cb s idx = (s, []))) ∧
    (∀ (rest : List Nat) (b : usb_bam),
      (∀ i ∈ idx :: rest, (s.usb_bam_connections i).event.type =
          usb_bam_event_type.USB_BAM_EVENT_WAKEUP ∧ (s.usb_bam_connections i).bam_type = b) →
      s.is_bam_inactivity b = true →
      usb_bam_wake_cb_seq s (idx :: rest) =
        ({ s with is_bam_inactivity := Function.update s.is_bam_inactivity b false },
         [Op.queue_work_event idx]) ∧
      usb_bam_wake_cb_seq (usb_bam_wake_cb s idx).1 rest = ((usb_bam_wake_cb s idx).1, [])) := by
  refine ⟨fun ht => by simp [usb_bam_wake_cb, ht], fun ht => ⟨?_, ?_, ?_⟩, ?_⟩
  · cases hf : s.is_bam_inactivity (s.usb_bam_connections idx).bam_type with
    | false => simp [usb_bam_wake_cb_global_clear s idx ht hf]
    | true => simp [usb_bam_wake_cb_global_set s idx ht hf]
  · intro hf
    rw [usb_bam_wake_cb_global_set s idx ht hf]
  · exact usb_bam_wake_cb_global_clear s idx ht
  · intro rest b hall hf
    have hi := hall idx (List.mem_cons_self _ _)
    have h1 := usb_bam_wake_cb_global_set s idx hi.1 (by rw [hi.2]; exact hf)
    rw [hi.2] at h1
    have h2 : usb_bam_wake_cb_seq
        { s with is_bam_inactivity := Function.update s.is_bam_inactivity b false } rest =
        ({ s with is_bam_inactivity := Function.update s.is_bam_inactivity b false }, []) :=
      usb_bam_wake_cb_seq_suppressed rest _ b
        (fun j hj => hall j (List.mem_cons_of_mem _ hj)) (by simp)
    constructor
    · unfold usb_bam_wake_cb_seq
      rw [h1, h2]
      rfl
    · rw [h1]
      exact h2

/-- C11, at the two-pipe scenario with the HSUSB instance marked inactive: two global
wake interrupts arrive back to back on pipe 1, then one on pipe 0; only the first is
queued and the flag ends up clear. -/
theorem usb_bam_wake_cb_dispatch_witness :
    scenario_inactive_state.is_bam_inactivity .HSUSB_BAM = true ∧
    (usb_bam_wake_cb_seq scenario_inactive_state [1, 1, 0]).2 = [Op.queue_work_event 1] ∧
    (usb_bam_wake_cb_seq scenario_inactive_state [1, 1, 0]).1.is_bam_inactivity .HSUSB_BAM
      = false :=
  ⟨rfl,
   by
    have h := ((usb_bam_wake_cb_dispatch scenario_inactive_state 1).2.2 [1, 0] .HSUSB_BAM
      (by decide) rfl).1
    rw [h],
   by
    have h := ((usb_bam_wake_cb_dispatch scenario_inactive_state 1).2.2 [1, 0] .HSUSB_BAM
      (by decide) rfl).1
    rw [h]
    rfl⟩

/-- C13: for each negotiated instance, `cons_request_resource` sets the consumer state
to granted and returns 0 iff the enabled-pipe counter of the instance is non-zero,
`-EINPROGRESS` otherwise; `cons_release_resource` sets the consumer state to released
and returns 0 iff that counter is zero, `-EINPROGRESS` otherwise; neither changes a
counter, a connection row (so no enabled flag), the producer state or the consumer
state of another instance; the four registered callbacks are these two functions at
HSUSB and HSIC. -/
theorem cons_resource_callbacks (s : State) (b : usb_bam) :
    ((cons_request_resource s b).2.cur_cons_state b = ipa_rm_event.IPA_RM_RESOURCE_GRANTED ∧
      ((cons_request_resource s b).1 = 0 ↔ s.pipes_enabled_per_bam b ≠ 0) ∧
      ((cons_request_resource s b).1 = -EINPROGRESS ↔ s.pipes_enabled_per_bam b = 0) ∧
      (cons_request_resource s b).2.pipes_enabled_per_bam = s.pipes_enabled_per_bam ∧
      (cons_request_resource s b).2.usb_bam_connections = s.usb_bam_connections ∧
      (cons_request_resource s b).2.cur_prod_state = s.cur_prod_state ∧
      (∀ c, c ≠ b → (cons_request_resource s b).2.cur_cons_state c = s.cur_cons_state c)) ∧
    ((cons_release_resource s b).2.cur_cons_state b = ipa_rm_event.IPA_RM_RESOURCE_RELEASED ∧
      ((cons_release_resource s b).1 = 0 ↔ s.pipes_enabled_per_bam b = 0) ∧
      ((cons_release_resource s b).1 = -EINPROGRESS ↔ s.pipes_enabled_per_bam b ≠ 0) ∧
      (cons_release_resource s b).2.pipes_enabled_per_bam = s.pipes_enabled_per_bam ∧
      (cons_release_resource s b).2.usb_bam_connections = s.usb_bam_connections ∧
      (cons_release_resource s b).2.cur_prod_state = s.cur_prod_state ∧
      (∀ c, c ≠ b → (cons_release_resource s b).2.cur_cons_state c = s.cur_cons_state c)) ∧
    (usb_cons_request_resource s = cons_request_resource s .HSUSB_BAM ∧
      hsic_cons_request_resource s = cons_request_resource s .HSIC_BAM ∧
      usb_cons_release_resource s = cons_release_resource s .HSUSB_BAM ∧
      hsic_cons_release_resource s = cons_release_resource s .HSIC_BAM) := by
  refine ⟨?_, ?_, rfl, rfl, rfl, rfl⟩
  · unfold cons_request_resource
    by_cases h : s.pipes_enabled_per_bam b = 0
    · simp [h, EINPROGRESS]
      intro c hc
      exact Function.update_noteq hc _ _
    · simp [h, EINPROGRESS]
      intro c hc
      exact Function.update_noteq hc _ _
  · unfold cons_release_resource
    by_cases h : s.pipes_enabled_per_bam b = 0
    · simp [h, EINPROGRESS]
      intro c hc
      exact Function.update_noteq hc _ _
    · simp [h, EINPROGRESS]
      intro c hc
      exact Function.update_noteq hc _ _

/-- C15: `msm_bam_lpm_ok` returns false exactly when `lpm_wait_handshake` is set, and
then it sets `sched_lpm` to 1 and changes nothing else; otherwise it returns true and
leaves the state as it is. In both cases `lpm_wait_handshake`, the connection table
and the counters are unchanged. -/
theorem msm_bam_lpm_ok_gate (s : State) :
    ((msm_bam_lpm_ok s).1 = false ↔ s.lpm_wait_handshake ≠ 0) ∧
    (s.lpm_wait_handshake ≠ 0 → (msm_bam_lpm_ok s).2 = { s with sched_lpm := 1 }) ∧
    (s.lpm_wait_handshake = 0 → msm_bam_lpm_ok s = (true, s)) ∧
    (msm_bam_lpm_ok s).2.lpm_wait_handshake = s.lpm_wait_handshake ∧
    (msm_bam_lpm_ok s).2.usb_bam_connections = s.usb_bam_connections ∧
    (msm_bam_lpm_ok s).2.max_connections = s.max_connections ∧
    (msm_bam_lpm_ok s).2.pipes_enabled_per_bam = s.pipes_enabled_per_bam := by
  unfold msm_bam_lpm_ok
  by_cases h : s.lpm_wait_handshake = 0 <;> simp [h]

theorem usb_bam_of_val_val (b : usb_bam) : usb_bam.of_val b.val = some b := by
  cases b <;> decide

theorem usb_bam_sps_events_timer_at (s : State) (user : List Char) (b : usb_bam)
    (hb : get_bam_type_from_core_name user = b.val) :
    (∀ i0, i0 < s.max_connections → (s.usb_bam_connections i0).bam_type = b →
      (∀ j, j < i0 → (s.usb_bam_connections j).bam_type ≠ b) →
      usb_bam_sps_events s .SPS_CALLBACK_BAM_TIMER_IRQ user =
        .ok ({ s with
                is_bam_inactivity := Function.update s.is_bam_inactivity b true
                usb_bam_connections := Function.update s.usb_bam_connections i0
                  { s.usb_bam_connections i0 with
                    event := { type := .USB_BAM_EVENT_INACTIVITY,
                               callback := (s.usb_bam_connections i0).inactivity_notify,
                               param := (s.usb_bam_connections i0).priv } } },
             [Op.queue_work_event i0])) ∧
    ((∀ i, i < s.max_connections → (s.usb_bam_connections i).bam_type ≠ b) →
      usb_bam_sps_events s .SPS_CALLBACK_BAM_TIMER_IRQ user =
        .ok ({ s with is_bam_inactivity := Function.update s.is_bam_inactivity b true }, [])) := by
  have hv : usb_bam.of_val (get_bam_type_from_core_name user) = some b := by
    rw [hb]; exact usb_bam_of_val_val b
  refine ⟨fun i0 hi0 hbi hmin => ?_, fun hnone => ?_⟩
  · have hfind : (List.range s.max_connections).find?
        (fun i => decide ((s.usb_bam_connections i).bam_type = b)) = some i0 := by
      rw [List.find?_range_eq_some]
      refine ⟨by simpa using hbi, List.mem_range.mpr hi0, fun j hj => ?_⟩
      simpa using hmin j hj
    simp only [usb_bam_sps_events, hv, hfind]
    rfl
  · have hfind : (List.range s.max_connections).find?
        (fun i => decide ((s.usb_bam_connections i).bam_type = b)) = none := by
      rw [List.find?_range_eq_none]
      intro i hi
      simpa using hnone i hi
    simp only [usb_bam_sps_events, hv, hfind]

theorem usb_bam_set_inactivity_timer_row (s : State) (b : usb_bam)
    (h : usb_bam_set_inactivity_timer s b ≠ []) :
    ∃ i, i < s.max_connections ∧ (s.usb_bam_connections i).bam_type = b := by
  by_contra hno
  apply h
  have hfind := (find_range_first
    (fun i => decide ((s.usb_bam_connections i).bam_type = b)) s.max_connections).2
    (by
      rintro ⟨i, hi, hp⟩
      exact hno ⟨i, hi, by simpa using hp⟩)
  unfold usb_bam_set_inactivity_timer
  simp only [hfind]
  rfl

/-- C12: on a timer interrupt for an instance name that resolves to the instance `b`,
the table holding a connection of `b`, `usb_bam_sps_events` marks `b` inactive and
touches no other flag, and queues exactly one inactivity event, on the lowest-index
connection `i0` of `b`, whose event descriptor becomes type INACTIVITY with callback
`inactivity_notify` and parameter `priv` of that connection; nothing else in the state
changes, in particular no other connection row. Every other callback case changes
nothing. The table holds a connection of `b` whenever the timer of `b` is armed:
`usb_bam_set_inactivity_timer`, the only place that operates the timer, makes a timer
call for `b` only in a table that holds a connection of `b`. -/
theorem usb_bam_sps_events_timer (s : State) (user : List Char) (b : usb_bam)
    (hb : get_bam_type_from_core_name user = b.val)
    (hrow : ∃ i, i < s.max_connections ∧ (s.usb_bam_connections i).bam_type = b) :
    (∃ i0, i0 < s.max_connections ∧ (s.usb_bam_connections i0).bam_type = b ∧
      (∀ j, j < i0 → (s.usb_bam_connections j).bam_type ≠ b) ∧
      usb_bam_sps_events s .SPS_CALLBACK_BAM_TIMER_IRQ user =
        .ok ({ s with
                is_bam_inactivity := Function.update s.is_bam_inactivity b true
                usb_bam_connections := Function.update s.usb_bam_connections i0
                  { s.usb_bam_connections i0 with
                    event := { type := .USB_BAM_EVENT_INACTIVITY,
                               callback := (s.usb_bam_connections i0).inactivity_notify,
                               param := (s.usb_bam_connections i0).priv } } },
             [Op.queue_work_event i0])) ∧
    (∀ raw, usb_bam_sps_events s (.OTHER raw) user = .ok (s, [])) ∧
    (∀ t : State, usb_bam_set_inactivity_timer t b ≠ [] →
      ∃ i, i < t.max_connections ∧ (t.usb_bam_connections i).bam_type = b) := by
  refine ⟨?_, fun raw => rfl, fun t => usb_bam_set_inactivity_timer_row t b⟩
  obtain ⟨i, hi, hbi⟩ := hrow
  obtain ⟨i0, _, hi0, hp, hmin⟩ := (find_range_first
    (fun i => decide ((s.usb_bam_connections i).bam_type = b)) s.max_connections).1
    ⟨i, hi, by simpa using hbi⟩
  have hbi0 : (s.usb_bam_connections i0).bam_type = b := by simpa using hp
  have hmin0 : ∀ j, j < i0 → (s.usb_bam_connections j).bam_type ≠ b := by
    intro j hj
    simpa using hmin j hj
  exact ⟨i0, hi0, hbi0, hmin0,
    (usb_bam_sps_events_timer_at s user b hb).1 i0 hi0 hbi0 hmin0⟩

/-- C12, at the two-pipe scenario: the timer interrupt of `hsusb`, whose lowest
connection is connection 0, queues the inactivity event on connection 0. -/
theorem usb_bam_sps_events_timer_witness :
    get_bam_type_from_core_name "hsusb".toList = usb_bam.HSUSB_BAM.val ∧
    (scenario_state.usb_bam_connections 0).bam_type = usb_bam.HSUSB_BAM ∧
    ops_of (usb_bam_sps_events scenario_state .SPS_CALLBACK_BAM_TIMER_IRQ "hsusb".toList) =
      some [Op.queue_work_event 0] :=
  ⟨by decide, by decide,
   by
    obtain ⟨⟨i0, _, _, hmin, heq⟩, _⟩ :=
      usb_bam_sps_events_timer scenario_state "hsusb".toList .HSUSB_BAM (by decide)
        ⟨0, by decide, by decide⟩
    have h0 : i0 = 0 := by
      by_contra h
      exact hmin 0 (Nat.pos_of_ne_zero h) (by decide)
    subst h0
    rw [heq]
    rfl⟩

/-- C14 (the claim fails here): the producer of HSUSB is already granted and the
negotiation service answers `-EINPROGRESS`; `wait_for_prod_granted` still issues the
request and enters the timed wait on `prod_avail`. Likewise `wait_for_prod_release`
with the producer already released (the state right after load) issues the release
call and enters the timed wait on `prod_released`. -/
theorem wait_for_prod_granted_no_short_circuit :
    scenario_granted_state.cur_prod_state .HSUSB_BAM = ipa_rm_event.IPA_RM_RESOURCE_GRANTED ∧
    (wait_for_prod_granted scenario_granted_state backend_in_progress .HSUSB_BAM).2 =
      [Op.ipa_rm_request_resource_prod .HSUSB_BAM,
       Op.wait_for_completion_timeout .prod_avail .HSUSB_BAM] ∧
    scenario_state.cur_prod_state .HSUSB_BAM = ipa_rm_event.IPA_RM_RESOURCE_RELEASED ∧
    (wait_for_prod_release scenario_state (-EINPROGRESS) .HSUSB_BAM).2 =
      [Op.ipa_rm_release_resource_prod .HSUSB_BAM,
       Op.wait_for_completion_timeout .prod_released .HSUSB_BAM] := by
  decide

/-- C14 (amended): whatever the producer state of the instance is, also when it is
already granted, `wait_for_prod_granted` issues exactly one request to the negotiation
service and enters the timed wait exactly when the service answers `-EINPROGRESS`;
when the service answers 0 the producer state becomes granted without a wait.
Symmetrically `wait_for_prod_release` always issues exactly one release call, waits
exactly when the answer is `-EINPROGRESS`, and records released when the answer
is 0. -/
theorem wait_for_prod_always_requests (s : State) (be : Backend) (answer : Int) (b : usb_bam) :
    (wait_for_prod_granted s be b).2 =
      Op.ipa_rm_request_resource_prod b ::
        (if be.ipa_rm_request_resource = -EINPROGRESS then
          [Op.wait_for_completion_timeout .prod_avail b] else []) ∧
    (be.ipa_rm_request_resource = 0 →
      (wait_for_prod_granted s be b).1.cur_prod_state b =
        ipa_rm_event.IPA_RM_RESOURCE_GRANTED) ∧
    (be.ipa_rm_request_resource ≠ 0 →
      (wait_for_prod_granted s be b).1.cur_prod_state = s.cur_prod_state) ∧
    (wait_for_prod_release s answer b).2 =
      Op.ipa_rm_release_resource_prod b ::
        (if answer = -EINPROGRESS then
          [Op.wait_for_completion_timeout .prod_released b] else []) ∧
    (answer = 0 →
      (wait_for_prod_release s answer b).1.cur_prod_state b =
        ipa_rm_event.IPA_RM_RESOURCE_RELEASED) ∧
    (answer ≠ 0 → (wait_for_prod_release s answer b).1.cur_prod_state = s.cur_prod_state) := by
  unfold wait_for_prod_granted wait_for_prod_release
  refine ⟨?_, ?_, ?_, ?_, ?_, ?_⟩
  · by_cases h0 : be.ipa_rm_request_resource = 0
    · simp [h0, EINPROGRESS]
    · by_cases h1 : be.ipa_rm_request_resource = -EINPROGRESS
      · simp [h1, EINPROGRESS]
      · simp [h0, h1]
  · intro h0
    simp [h0]
  · intro h0
    by_cases h1 : be.ipa_rm_request_resource = -EINPROGRESS
    · simp [h1, EINPROGRESS]
    · simp [h0, h1]
  · by_cases h0 : answer = 0
    · simp [h0, EINPROGRESS]
    · by_cases h1 : answer = -EINPROGRESS
      · simp [h1, EINPROGRESS]
      · simp [h0, h1]
  · intro h0
    simp [h0]
  · intro h0
    by_cases h1 : answer = -EINPROGRESS
    · simp [h1, EINPROGRESS]
    · simp [h0, h1]

/-- C16 (the code at the failing input): the text `foo 100` is written to the
inactivity-timer control of the loaded two-pipe scenario; the name matches no bus
instance, the lookup gives `-EINVAL = -22`, and `usb_bam_store_inactivity_timer`
indexes `ctx.inactivity_timer_ms` with it. A valid pair after it is never reached,
while the same valid pair alone is stored. -/
theorem usb_bam_store_inactivity_timer_unknown_name_indexes_array :
    get_bam_type_from_core_name "foo".toList = -EINVAL ∧
    fault_of (usb_bam_store_inactivity_timer scenario_state "foo 100".toList 0) =
      some (fault.array_index (-22)) ∧
    fault_of (usb_bam_store_inactivity_timer scenario_state "foo 100,hsusb 50".toList 0) =
      some (fault.array_index (-22)) ∧
    timers_of (usb_bam_store_inactivity_timer scenario_state "hsusb 50\n".toList 0) =
      some [0, 50, 0] := by
  decide

theorem usb_bam_disconnect_pipe_enabled_effect (s : State) (idx : Nat)
    (hon : (s.usb_bam_connections idx).enabled = true) :
    (usb_bam_disconnect_pipe s idx).ret = 0 ∧
      s.disconnect_effect (usb_bam_disconnect_pipe s idx).st idx := by
  have hf := disconnect_pipe_frame s idx
  unfold usb_bam_disconnect_pipe
  dsimp only
  rw [if_neg (by simp [hon])]
  have hret : (disconnect_pipe s idx).ret = 0 := rfl
  rw [if_neg (by simp [hret])]
  split
  · rename_i hz
    refine ⟨rfl, ?_⟩
    apply disconnect_effect_of_frame_zero idx hf hon
    simpa [State.modify_connection, hf.2.2.1, hf.2.2.2.2 idx] using hz
  · exact ⟨rfl, disconnect_effect_of_frame idx hf hon⟩

theorem usb_bam_connect_disabled_effect (s : State) (be : Backend) (idx : Nat) (p : Bool)
    (hoff : (s.usb_bam_connections idx).enabled = false)
    (hret : (usb_bam_connect s be idx p).ret = 0) :
    s.connect_effect (usb_bam_connect s be idx p).st idx := by
  rcases usb_bam_connect_effect s be idx p with hf | ⟨_, he⟩
  · have h1 := usb_bam_connect_enabled_of_ret_zero s be idx p hret
    rw [hf.2.2.2.1 idx, hoff] at h1
    cases h1
  · exact he

/-- C18: for every enabled connection, `usb_bam_disconnect_pipe` returns 0 and marks
the connection disabled; when the counter of its instance is already zero the counter
stays zero, and otherwise it goes down by exactly one. -/
theorem usb_bam_disconnect_pipe_counter_floor (s : State) (idx : Nat)
    (hon : (s.usb_bam_connections idx).enabled = true) :
    (usb_bam_disconnect_pipe s idx).ret = 0 ∧
    ((usb_bam_disconnect_pipe s idx).st.usb_bam_connections idx).enabled = false ∧
    (s.pipes_enabled_per_bam (s.usb_bam_connections idx).bam_type = 0 →
      (usb_bam_disconnect_pipe s idx).st.pipes_enabled_per_bam
        (s.usb_bam_connections idx).bam_type = 0) ∧
    (s.pipes_enabled_per_bam (s.usb_bam_connections idx).bam_type ≠ 0 →
      (usb_bam_disconnect_pipe s idx).st.pipes_enabled_per_bam
        (s.usb_bam_connections idx).bam_type + 1 =
      s.pipes_enabled_per_bam (s.usb_bam_connections idx).bam_type) := by
  obtain ⟨hret, _, _, _, _, hoff, _, hcnt⟩ := usb_bam_disconnect_pipe_enabled_effect s idx hon
  refine ⟨hret, hoff, fun hz => ?_, fun hnz => ?_⟩
  · rw [hcnt, Function.update_same, hz]
  · rw [hcnt, Function.update_same]
    omega

/-- C18, at the scenario state whose row 0 is enabled while the counter of its
instance is zero: the disconnect returns 0, row 0 is disabled and the counter is zero. -/
theorem usb_bam_disconnect_pipe_counter_floor_witness :
    (scenario_stale_counter_state.usb_bam_connections 0).enabled = true ∧
    scenario_stale_counter_state.pipes_enabled_per_bam usb_bam.HSUSB_BAM = 0 ∧
    (usb_bam_disconnect_pipe scenario_stale_counter_state 0).ret = 0 ∧
    ((usb_bam_disconnect_pipe scenario_stale_counter_state 0).st.usb_bam_connections
      0).enabled = false ∧
    (usb_bam_disconnect_pipe scenario_stale_counter_state 0).st.pipes_enabled_per_bam
      usb_bam.HSUSB_BAM = 0 :=
  ⟨by decide, by decide,
   (usb_bam_disconnect_pipe_counter_floor scenario_stale_counter_state 0 (by decide)).1,
   (usb_bam_disconnect_pipe_counter_floor scenario_stale_counter_state 0 (by decide)).2.1,
   (usb_bam_disconnect_pipe_counter_floor scenario_stale_counter_state 0 (by decide)).2.2.1
     (by decide)⟩

theorem counter_lt_of_consistent (s : State) (idx : Nat) (hc : s.counters_consistent)
    (hidx : idx < s.max_connections) (hoff : (s.usb_bam_connections idx).enabled = false) :
    s.pipes_enabled_per_bam (s.usb_bam_connections idx).bam_type < 255 := by
  obtain ⟨_, hmax, hcnt⟩ := hc
  rw [hcnt]
  have hle := enabled_count_le s (s.usb_bam_connections idx).bam_type
  have hne : enabled_count s (s.usb_bam_connections idx).bam_type ≠ s.max_connections := by
    intro heq
    unfold enabled_count at heq
    have hall := List.countP_eq_length.mp (heq.trans (List.length_range _).symm) idx
      (List.mem_range.mpr hidx)
    simp [hoff] at hall
  omega

theorem counter_pos_of_consistent (s : State) (idx : Nat) (hc : s.counters_consistent)
    (hidx : idx < s.max_connections) (hon : (s.usb_bam_connections idx).enabled = true) :
    s.pipes_enabled_per_bam (s.usb_bam_connections idx).bam_type ≠ 0 := by
  obtain ⟨_, _, hcnt⟩ := hc
  rw [hcnt]
  apply Nat.pos_iff_ne_zero.mp
  unfold enabled_count
  exact List.countP_pos_iff.mpr ⟨idx, List.mem_range.mpr hidx, by simp [hon]⟩

/-- C19: a `usb_bam_connect` of a disabled index that returns 0 sets the enabled flag
of that connection and raises the counter of its instance by exactly one (the `u8`
counter not being at 255, as in every state in which the counters count the enabled
connections); a `usb_bam_disconnect_pipe` of an enabled index clears that flag and
lowers the counter of its instance by exactly one (the counter not being zero); the
enabled flag of every other connection and the counter of every other instance are
unchanged. In the scenario, connect 0, connect 1, disconnect 0, disconnect 1 give the
counter values 1, 2, 1, 0. -/
theorem usb_bam_connect_disconnect_frame :
    (∀ (s : State) (be : Backend) (idx : Nat) (p : Bool),
      (s.usb_bam_connections idx).enabled = false →
      (usb_bam_connect s be idx p).ret = 0 →
      s.pipes_enabled_per_bam (s.usb_bam_connections idx).bam_type < 255 →
      ((usb_bam_connect s be idx p).st.usb_bam_connections idx).enabled = true ∧
      (∀ i, i ≠ idx →
        ((usb_bam_connect s be idx p).st.usb_bam_connections i).enabled =
          (s.usb_bam_connections i).enabled) ∧
      (usb_bam_connect s be idx p).st.pipes_enabled_per_bam
          (s.usb_bam_connections idx).bam_type =
        s.pipes_enabled_per_bam (s.usb_bam_connections idx).bam_type + 1 ∧
      (∀ b, b ≠ (s.usb_bam_connections idx).bam_type →
        (usb_bam_connect s be idx p).st.pipes_enabled_per_bam b =
          s.pipes_enabled_per_bam b)) ∧
    (∀ (s : State) (idx : Nat),
      (s.usb_bam_connections idx).enabled = true →
      s.pipes_enabled_per_bam (s.usb_bam_connections idx).bam_type ≠ 0 →
      ((usb_bam_disconnect_pipe s idx).st.usb_bam_connections idx).enabled = false ∧
      (∀ i, i ≠ idx →
        ((usb_bam_disconnect_pipe s idx).st.usb_bam_connections i).enabled =
          (s.usb_bam_connections i).enabled) ∧
      (usb_bam_disconnect_pipe s idx).st.pipes_enabled_per_bam
          (s.usb_bam_connections idx).bam_type + 1 =
        s.pipes_enabled_per_bam (s.usb_bam_connections idx).bam_type ∧
      (∀ b, b ≠ (s.usb_bam_connections idx).bam_type →
        (usb_bam_disconnect_pipe s idx).st.pipes_enabled_per_bam b =
          s.pipes_enabled_per_bam b)) ∧
    ((scenario_state.usb_bam_connections 0).bam_type = usb_bam.HSUSB_BAM ∧
      (scenario_state.usb_bam_connections 1).bam_type = usb_bam.HSUSB_BAM ∧
      (scenario_state.usb_bam_connections 0).dir = usb_bam_pipe_dir.USB_TO_PEER_PERIPHERAL ∧
      (scenario_state.usb_bam_connections 0).mem_type = usb_pipe_mem_type.USB_PRIVATE_MEM ∧
      (scenario_state.usb_bam_connections 1).dir = usb_bam_pipe_dir.PEER_PERIPHERAL_TO_USB ∧
      (scenario_state.usb_bam_connections 1).mem_type = usb_pipe_mem_type.SYSTEM_MEM ∧
      (run_calls scenario_state (scenario_calls.take 1)).pipes_enabled_per_bam
        usb_bam.HSUSB_BAM = 1 ∧
      (run_calls scenario_state (scenario_calls.take 2)).pipes_enabled_per_bam
        usb_bam.HSUSB_BAM = 2 ∧
      (run_calls scenario_state (scenario_calls.take 3)).pipes_enabled_per_bam
        usb_bam.HSUSB_BAM = 1 ∧
      (run_calls scenario_state (scenario_calls.take 4)).pipes_enabled_per_bam
        usb_bam.HSUSB_BAM = 0) := by
  refine ⟨fun s be idx p hoff hret hlt => ?_, fun s idx hon hnz => ?_, by decide⟩
  · obtain ⟨_, _, _, _, hon1, hother, hcnt⟩ := usb_bam_connect_disabled_effect s be idx p hoff hret
    refine ⟨hon1, hother, ?_, fun b hb => ?_⟩
    · rw [hcnt, Function.update_same]
      exact Nat.mod_eq_of_lt (by omega)
    · rw [hcnt, Function.update_noteq hb]
  · obtain ⟨_, _, _, _, _, hoff1, hother, hcnt⟩ := usb_bam_disconnect_pipe_enabled_effect s idx hon
    refine ⟨hoff1, hother, ?_, fun b hb => ?_⟩
    · rw [hcnt, Function.update_same]
      omega
    · rw [hcnt, Function.update_noteq hb]

/-- C19, at the scenario: the connect of index 0 on the loaded state enables row 0,
leaves row 1 alone and raises the HSUSB counter from 0 to 1; the disconnect of index 0
that follows disables row 0 and lowers the counter back by one. -/
theorem usb_bam_connect_disconnect_frame_witness :
    (((usb_bam_connect scenario_state backend_ok 0 true).st.usb_bam_connections 0).enabled =
        true ∧
      (∀ i, i ≠ 0 →
        ((usb_bam_connect scenario_state backend_ok 0 true).st.usb_bam_connections i).enabled =
          (scenario_state.usb_bam_connections i).enabled) ∧
      (usb_bam_connect scenario_state backend_ok 0 true).st.pipes_enabled_per_bam
          (scenario_state.usb_bam_connections 0).bam_type =
        scenario_state.pipes_enabled_per_bam (scenario_state.usb_bam_connections 0).bam_type +
          1 ∧
      (∀ b, b ≠ (scenario_state.usb_bam_connections 0).bam_type →
        (usb_bam_connect scenario_state backend_ok 0 true).st.pipes_enabled_per_bam b =
          scenario_state.pipes_enabled_per_bam b)) ∧
    ((usb_bam_disconnect_pipe (run_calls scenario_state (scenario_calls.take 1))
        0).st.pipes_enabled_per_bam
          ((run_calls scenario_state (scenario_calls.take 1)).usb_bam_connections 0).bam_type +
        1 =
      (run_calls scenario_state (scenario_calls.take 1)).pipes_enabled_per_bam
        ((run_calls scenario_state (scenario_calls.take 1)).usb_bam_connections 0).bam_type) :=
  ⟨usb_bam_connect_disconnect_frame.1 scenario_state backend_ok 0 true (by decide) (by decide)
      (by decide),
   (usb_bam_connect_disconnect_frame.2.1 (run_calls scenario_state (scenario_calls.take 1)) 0
      (by decide) (by decide)).2.2.1⟩

theorem event_frame_refl (s : State) : s.event_frame s :=
  ⟨rfl, rfl, fun j => ⟨(s.usb_bam_connections j).event, rfl⟩⟩

theorem event_frame_trans {s s1 s2 : State} (h1 : s.event_frame s1) (h2 : s1.event_frame s2) :
    s.event_frame s2 := by
  refine ⟨h2.1.trans h1.1, h2.2.1.trans h1.2.1, fun j => ?_⟩
  obtain ⟨e1, he1⟩ := h1.2.2 j
  obtain ⟨e2, he2⟩ := h2.2.2 j
  exact ⟨e2, by rw [he2, he1]⟩

theorem event_frame_modify_event (s : State) (i : Nat) (e : usb_bam_event_info) :
    s.event_frame (s.modify_connection i (fun c => { c with event := e })) := by
  refine ⟨rfl, rfl, fun j => ?_⟩
  by_cases h : j = i
  · subst h
    exact ⟨e, by simp [State.modify_connection]⟩
  · exact ⟨(s.usb_bam_connections j).event,
      by simp [State.modify_connection, Function.update_noteq h]⟩

theorem register_wake_cb_frame (s : State) (re sc : Nat → Int) (i cb pm : Nat) (t : Bool) :
    s.event_frame (__usb_bam_register_wake_cb s re sc i cb pm t).st := by
  unfold __usb_bam_register_wake_cb
  dsimp only
  split
  · exact event_frame_refl s
  · split
    · exact event_frame_modify_event s i _
    · split <;> exact event_frame_modify_event s i _

theorem register_wake_cb_step (s : State) (re sc : Nat → Int) (i cb pm : Nat)
    (hi : i ≤ s.max_connections) :
    ((__usb_bam_register_wake_cb s re sc i cb pm false).st.usb_bam_connections i).event =
        { type := .USB_BAM_EVENT_WAKEUP, callback := cb, param := pm } ∧
    (∀ j, j ≠ i →
      (__usb_bam_register_wake_cb s re sc i cb pm false).st.usb_bam_connections j =
        s.usb_bam_connections j) ∧
    ((__usb_bam_register_wake_cb s re sc i cb pm false).ops =
        [Op.sps_register_event (s.sps_pipes i) i (decide (cb ≠ 0))] ∨
      (__usb_bam_register_wake_cb s re sc i cb pm false).ops =
        [Op.sps_register_event (s.sps_pipes i) i (decide (cb ≠ 0)),
         Op.sps_set_config (s.sps_pipes i)]) := by
  unfold __usb_bam_register_wake_cb
  dsimp only
  rw [if_neg (Nat.not_lt.mpr hi)]
  split
  · refine ⟨by simp [Result.plain, State.modify_connection], fun j hj => ?_, Or.inl rfl⟩
    simp [Result.plain, State.modify_connection, Function.update_noteq hj]
  · split
    · refine ⟨by simp [Result.plain, State.modify_connection, State.modify_sps_connection],
        fun j hj => ?_, Or.inr rfl⟩
      simp [Result.plain, State.modify_connection, State.modify_sps_connection,
        Function.update_noteq hj]
    · refine ⟨by simp [Result.plain, State.modify_connection, State.modify_sps_connection],
        fun j hj => ?_, Or.inr rfl⟩
      simp [Result.plain, State.modify_connection, State.modify_sps_connection,
        Function.update_noteq hj]

theorem usb_bam_work_match_frame {s s1 : State} (h : s.event_frame s1) (idx j : Nat) :
    usb_bam_work_match s1 idx j = usb_bam_work_match s idx j := by
  obtain ⟨e1, h1⟩ := h.2.2 j
  obtain ⟨e2, h2⟩ := h.2.2 idx
  unfold usb_bam_work_match
  rw [h1, h2]

theorem wake_event_frame {s s1 : State} (h : s.event_frame s1) (j : Nat) :
    (s1.usb_bam_connections j).wake_event = (s.usb_bam_connections j).wake_event := by
  obtain ⟨e1, h1⟩ := h.2.2 j
  rw [h1]
  rfl

theorem wake_registration_frame {s s1 : State} (h : s.event_frame s1) (j : Nat) :
    s1.wake_registration j = s.wake_registration j := by
  obtain ⟨e1, h1⟩ := h.2.2 j
  unfold State.wake_registration
  rw [h1, h.2.1]

theorem usb_bam_work_register_frame (idx : Nat) (re sc : Nat → Int) (l : List Nat) :
    ∀ s : State, s.event_frame (usb_bam_work_register idx re sc l s).1 := by
  induction l with
  | nil => intro s; exact event_frame_refl s
  | cons i rest ih =>
    intro s
    unfold usb_bam_work_register
    split
    · exact event_frame_trans (register_wake_cb_frame s re sc i _ _ false) (ih _)
    · exact ih s

theorem usb_bam_work_register_events (idx : Nat) (re sc : Nat → Int) (l : List Nat) :
    ∀ s : State, (∀ i ∈ l, i ≤ s.max_connections) → ∀ j,
      ((j ∈ l ∧ usb_bam_work_match s idx j = true) →
        ((usb_bam_work_register idx re sc l s).1.usb_bam_connections j).event =
          (s.usb_bam_connections j).wake_event) ∧
      (¬(j ∈ l ∧ usb_bam_work_match s idx j = true) →
        ((usb_bam_work_register idx re sc l s).1.usb_bam_connections j).event =
          (s.usb_bam_connections j).event) := by
  induction l with
  | nil =>
    intro s _ j
    exact ⟨fun h => absurd h.1 (List.not_mem_nil j), fun _ => rfl⟩
  | cons i rest ih =>
    intro s hl j
    have hi : i ≤ s.max_connections := hl i (List.mem_cons_self _ _)
    unfold usb_bam_work_register
    by_cases hm : usb_bam_work_match s idx i = true
    · rw [if_pos hm]
      dsimp only
      have hf := register_wake_cb_frame s re sc i (s.usb_bam_connections i).activity_notify
        (s.usb_bam_connections i).priv false
      obtain ⟨hev, hoth, _⟩ := register_wake_cb_step s re sc i
        (s.usb_bam_connections i).activity_notify (s.usb_bam_connections i).priv hi
      have hih := ih _ (fun k hk => by rw [hf.1]; exact hl k (List.mem_cons_of_mem _ hk)) j
      rw [usb_bam_work_match_frame hf, wake_event_frame hf] at hih
      refine ⟨fun h => ?_, fun h => ?_⟩
      · by_cases hjr : j ∈ rest
        · exact hih.1 ⟨hjr, h.2⟩
        · have hji : j = i := by
            rcases List.mem_cons.mp h.1 with h1 | h1
            · exact h1
            · exact absurd h1 hjr
          subst hji
          rw [hih.2 (fun hc => hjr hc.1), hev]
          rfl
      · have hji : j ≠ i := fun hc => h ⟨hc ▸ List.mem_cons_self _ _, hc ▸ hm⟩
        rw [hih.2 (fun hc => h ⟨List.mem_cons_of_mem _ hc.1, hc.2⟩), hoth j hji]
    · rw [if_neg hm]
      have hih := ih s (fun k hk => hl k (List.mem_cons_of_mem _ hk)) j
      refine ⟨fun h => ?_, fun h => ?_⟩
      · rcases List.mem_cons.mp h.1 with h1 | h1
        · exact absurd (h1 ▸ h.2) hm
        · exact hih.1 ⟨h1, h.2⟩
      · exact hih.2 (fun hc => h ⟨List.mem_cons_of_mem _ hc.1, hc.2⟩)

theorem usb_bam_work_register_ops (idx : Nat) (re sc : Nat → Int) (l : List Nat) :
    ∀ s : State, (∀ i ∈ l, i ≤ s.max_connections) →
      (∀ op ∈ (usb_bam_work_register idx re sc l s).2,
        ∃ i ∈ l, usb_bam_work_match s idx i = true ∧
          (op = s.wake_registration i ∨ op = Op.sps_set_config (s.sps_pipes i))) ∧
      (∀ i ∈ l, usb_bam_work_match s idx i = true →
        s.wake_registration i ∈ (usb_bam_work_register idx re sc l s).2) := by
  induction l with
  | nil =>
    intro s _
    exact ⟨fun op h => absurd h (List.not_mem_nil op), fun i h => absurd h (List.not_mem_nil i)⟩
  | cons i rest ih =>
    intro s hl
    have hi : i ≤ s.max_connections := hl i (List.mem_cons_self _ _)
    unfold usb_bam_work_register
    by_cases hm : usb_bam_work_match s idx i = true
    · rw [if_pos hm]
      dsimp only
      have hf := register_wake_cb_frame s re sc i (s.usb_bam_connections i).activity_notify
        (s.usb_bam_connections i).priv false
      obtain ⟨_, _, hops⟩ := register_wake_cb_step s re sc i
        (s.usb_bam_connections i).activity_notify (s.usb_bam_connections i).priv hi
      obtain ⟨ih1, ih2⟩ :=
        ih _ (fun k hk => by rw [hf.1]; exact hl k (List.mem_cons_of_mem _ hk))
      have hreg : s.wake_registration i ∈
          (__usb_bam_register_wake_cb s re sc i (s.usb_bam_connections i).activity_notify
            (s.usb_bam_connections i).priv false).ops := by
        rcases hops with h | h <;> rw [h] <;> simp [State.wake_registration]
      refine ⟨fun op hop => ?_, fun k hk hmk => ?_⟩
      · rcases List.mem_append.mp hop with h | h
        · refine ⟨i, List.mem_cons_self _ _, hm, ?_⟩
          rcases hops with h1 | h1
          · rw [h1] at h
            exact Or.inl (List.mem_singleton.mp h)
          · rw [h1] at h
            rcases List.mem_cons.mp h with h2 | h2
            · exact Or.inl h2
            · exact Or.inr (List.mem_singleton.mp h2)
        · obtain ⟨k, hk, hmk, hk2⟩ := ih1 op h
          rw [usb_bam_work_match_frame hf, wake_registration_frame hf, hf.2.1] at *
          exact ⟨k, List.mem_cons_of_mem _ hk, hmk, hk2⟩
      · apply List.mem_append.mpr
        rcases List.mem_cons.mp hk with h | h
        · subst h
          exact Or.inl hreg
        · right
          have := ih2 k h (by rw [usb_bam_work_match_frame hf]; exact hmk)
          rw [wake_registration_frame hf] at this
          exact this
    · rw [if_neg hm]
      obtain ⟨ih1, ih2⟩ := ih s (fun k hk => hl k (List.mem_cons_of_mem _ hk))
      refine ⟨fun op hop => ?_, fun k hk hmk => ?_⟩
      · obtain ⟨k, hk, hmk, hk2⟩ := ih1 op hop
        exact ⟨k, List.mem_cons_of_mem _ hk, hmk, hk2⟩
      · rcases List.mem_cons.mp hk with h | h
        · exact absurd (h ▸ hmk) hm
        · exact ih2 k h hmk

theorem usb_bam_work_match_iff (s : State) (idx i : Nat) :
    usb_bam_work_match s idx i = true ↔
      ((s.usb_bam_connections i).bam_type = (s.usb_bam_connections idx).bam_type ∧
        (s.usb_bam_connections i).dir = usb_bam_pipe_dir.PEER_PERIPHERAL_TO_USB ∧
        (s.usb_bam_connections i).enabled = true) := by
  simp [usb_bam_work_match, and_assoc]

/-- C20: when `usb_bam_work` handles an inactivity event owned by connection `idx`, it
returns, and its external calls are a block of registrations followed by the call of
the callback and parameter the event carried when the work started (present iff that
callback is not `NULL`). The block holds a wake registration for connection `i` exactly
when `i` is a configured connection of the instance of `idx`, peer-to-local and
enabled, on the endpoint of `i`, and holds no callback call. Every such connection ends
with the global wake event carrying its own `activity_notify` and `priv` in its
descriptor, and every other row is as before. -/
theorem usb_bam_work_inactivity (s : State) (register_event set_config : Nat → Int)
    (idx : Nat)
    (hty : (s.usb_bam_connections idx).event.type =
      usb_bam_event_type.USB_BAM_EVENT_INACTIVITY) :
    ∃ st regs,
      usb_bam_work s register_event set_config idx =
        .ok (st, regs ++
          (if (s.usb_bam_connections idx).event.callback ≠ 0 then
            [Op.event_callback (s.usb_bam_connections idx).event.callback
              (s.usb_bam_connections idx).event.param]
           else [])) ∧
      (∀ p i w, Op.sps_register_event p i w ∈ regs ↔
        ((i < s.max_connections ∧
            (s.usb_bam_connections i).bam_type = (s.usb_bam_connections idx).bam_type ∧
            (s.usb_bam_connections i).dir = usb_bam_pipe_dir.PEER_PERIPHERAL_TO_USB ∧
            (s.usb_bam_connections i).enabled = true) ∧
          p = s.sps_pipes i ∧ w = decide ((s.usb_bam_connections i).activity_notify ≠ 0))) ∧
      (∀ c q, Op.event_callback c q ∉ regs) ∧
      (∀ i, i < s.max_connections →
        (s.usb_bam_connections i).bam_type = (s.usb_bam_connections idx).bam_type →
        (s.usb_bam_connections i).dir = usb_bam_pipe_dir.PEER_PERIPHERAL_TO_USB →
        (s.usb_bam_connections i).enabled = true →
        st.usb_bam_connections i =
          { s.usb_bam_connections i with
            event := { type := usb_bam_event_type.USB_BAM_EVENT_WAKEUP,
                       callback := (s.usb_bam_connections i).activity_notify,
                       param := (s.usb_bam_connections i).priv } }) ∧
      (∀ i, ¬(i < s.max_connections ∧
            (s.usb_bam_connections i).bam_type = (s.usb_bam_connections idx).bam_type ∧
            (s.usb_bam_connections i).dir = usb_bam_pipe_dir.PEER_PERIPHERAL_TO_USB ∧
            (s.usb_bam_connections i).enabled = true) →
        st.usb_bam_connections i = s.usb_bam_connections i) := by
  have hl : ∀ i ∈ List.range s.max_connections, i ≤ s.max_connections :=
    fun i hi => Nat.le_of_lt (List.mem_range.mp hi)
  have hf := usb_bam_work_register_frame idx register_event set_config
    (List.range s.max_connections) s
  have hev := usb_bam_work_register_events idx register_event set_config
    (List.range s.max_connections) s hl
  obtain ⟨hops1, hops2⟩ := usb_bam_work_register_ops idx register_event set_config
    (List.range s.max_connections) s hl
  refine ⟨(usb_bam_work_register idx register_event set_config
      (List.range s.max_connections) s).1,
    (usb_bam_work_register idx register_event set_config
      (List.range s.max_connections) s).2, ?_, ?_, ?_, ?_, ?_⟩
  · unfold usb_bam_work
    simp only [hty]
  · intro p i w
    constructor
    · intro h
      obtain ⟨k, hk, hmk, hk2⟩ := hops1 _ h
      rcases hk2 with h1 | h1
      · unfold State.wake_registration at h1
        injection h1 with hp hi hw
        subst hi
        exact ⟨⟨List.mem_range.mp hk, (usb_bam_work_match_iff s idx i).mp hmk⟩, hp, hw⟩
      · cases h1
    · rintro ⟨⟨hi, hm⟩, hp, hw⟩
      have := hops2 i (List.mem_range.mpr hi) ((usb_bam_work_match_iff s idx i).mpr hm)
      unfold State.wake_registration at this
      rw [hp, hw]
      exact this
  · intro c q h
    obtain ⟨k, _, _, hk2⟩ := hops1 _ h
    rcases hk2 with h1 | h1
    · unfold State.wake_registration at h1
      cases h1
    · cases h1
  · intro i hi hb hd he
    obtain ⟨e, hrow⟩ := hf.2.2 i
    have h1 := (hev i).1 ⟨List.mem_range.mpr hi, (usb_bam_work_match_iff s idx i).mpr ⟨hb, hd, he⟩⟩
    rw [hrow] at h1 ⊢
    simp only at h1
    rw [h1]
    rfl
  · intro i hn
    obtain ⟨e, hrow⟩ := hf.2.2 i
    have h1 := (hev i).2
      (fun hc => hn ⟨List.mem_range.mp hc.1, (usb_bam_work_match_iff s idx i).mp hc.2⟩)
    rw [hrow] at h1 ⊢
    simp only at h1
    rw [h1]

/-- C20, at the scenario in which the inactivity event of the HSUSB instance is queued
on row 1, the only peer-to-local row: the wake event of row 1 is registered on its
endpoint, its options are configured, and only then the inactivity callback 42 is
called with parameter 43, although the descriptor of row 1 now holds the wake event. -/
theorem usb_bam_work_inactivity_witness :
    (scenario_idle_state.usb_bam_connections 1).event.type =
      usb_bam_event_type.USB_BAM_EVENT_INACTIVITY ∧
    ops_of (usb_bam_work scenario_idle_state (fun _ => 0) (fun _ => 0) 1) =
      some [Op.sps_register_event 0x5000 1 true, Op.sps_set_config 0x5000,
        Op.event_callback 42 43] ∧
    ∃ st regs,
      usb_bam_work scenario_idle_state (fun _ => 0) (fun _ => 0) 1 =
        .ok (st, regs ++
          (if (scenario_idle_state.usb_bam_connections 1).event.callback ≠ 0 then
            [Op.event_callback (scenario_idle_state.usb_bam_connections 1).event.callback
              (scenario_idle_state.usb_bam_connections 1).event.param]
           else [])) ∧
      (∀ p i w, Op.sps_register_event p i w ∈ regs ↔
        ((i < scenario_idle_state.max_connections ∧
            (scenario_idle_state.usb_bam_connections i).bam_type =
              (scenario_idle_state.usb_bam_connections 1).bam_type ∧
            (scenario_idle_state.usb_bam_connections i).dir =
              usb_bam_pipe_dir.PEER_PERIPHERAL_TO_USB ∧
            (scenario_idle_state.usb_bam_connections i).enabled = true) ∧
          p = scenario_idle_state.sps_pipes i ∧
          w = decide ((scenario_idle_state.usb_bam_connections i).activity_notify ≠ 0))) ∧
      (∀ c q, Op.event_callback c q ∉ regs) ∧
      (∀ i, i < scenario_idle_state.max_connections →
        (scenario_idle_state.usb_bam_connections i).bam_type =
          (scenario_idle_state.usb_bam_connections 1).bam_type →
        (scenario_idle_state.usb_bam_connections i).dir =
          usb_bam_pipe_dir.PEER_PERIPHERAL_TO_USB →
        (scenario_idle_state.usb_bam_connections i).enabled = true →
        st.usb_bam_connections i =
          { scenario_idle_state.usb_bam_connections i with
            event := { type := usb_bam_event_type.USB_BAM_EVENT_WAKEUP,
                       callback := (scenario_idle_state.usb_bam_connections i).activity_notify,
                       param := (scenario_idle_state.usb_bam_connections i).priv } }) ∧
      (∀ i, ¬(i < scenario_idle_state.max_connections ∧
            (scenario_idle_state.usb_bam_connections i).bam_type =
              (scenario_idle_state.usb_bam_connections 1).bam_type ∧
            (scenario_idle_state.usb_bam_connections i).dir =
              usb_bam_pipe_dir.PEER_PERIPHERAL_TO_USB ∧
            (scenario_idle_state.usb_bam_connections i).enabled = true) →
        st.usb_bam_connections i = scenario_idle_state.usb_bam_connections i) :=
  ⟨by decide, by decide,
   usb_bam_work_inactivity scenario_idle_state (fun _ => 0) (fun _ => 0) 1 (by decide)⟩

/-- C21: one run of `usb_bam_sm_work` sets the plug/unplug bit exactly when it takes
INIT to PLUG_NOTIFIED, which it does exactly when it starts in INIT with
`client_ready` set; it clears the bit exactly when it takes PLUG_ACKED to
UNPLUG_NOTIFIED, which it does exactly when it starts in PLUG_ACKED with
`client_ready` clear; it calls the peer-reset callback exactly when it takes
UNPLUG_NOTIFIED to INIT, with the registered callback and parameter, which it does
exactly when it starts in UNPLUG_NOTIFIED with `ack_received` set and a callback
registered. It emits at most one signal, and none when the state does not change. In
the run that calls the callback, the first locked region ends with the call owed and
the state still UNPLUG_NOTIFIED, and the store of INIT is made by the second locked
region, after the call, which emits no signal itself. With `ack_received` set in
UNPLUG_NOTIFIED and no callback registered the run stops at the call through `NULL`
with no call made and nothing stored. -/
theorem usb_bam_sm_work_signals (s : State) :
    (Op.smsm_change_state_apps false true ∈ (usb_bam_sm_work s).2 ↔
      (s.peer_handshake_info.state = .USB_BAM_SM_INIT ∧
        (usb_bam_sm_work s).1.peer_handshake_info.state = .USB_BAM_SM_PLUG_NOTIFIED)) ∧
    ((s.peer_handshake_info.state = .USB_BAM_SM_INIT ∧
        (usb_bam_sm_work s).1.peer_handshake_info.state = .USB_BAM_SM_PLUG_NOTIFIED) ↔
      (s.peer_handshake_info.state = .USB_BAM_SM_INIT ∧
        s.peer_handshake_info.client_ready = true)) ∧
    (Op.smsm_change_state_apps true false ∈ (usb_bam_sm_work s).2 ↔
      (s.peer_handshake_info.state = .USB_BAM_SM_PLUG_ACKED ∧
        (usb_bam_sm_work s).1.peer_handshake_info.state = .USB_BAM_SM_UNPLUG_NOTIFIED)) ∧
    ((s.peer_handshake_info.state = .USB_BAM_SM_PLUG_ACKED ∧
        (usb_bam_sm_work s).1.peer_handshake_info.state = .USB_BAM_SM_UNPLUG_NOTIFIED) ↔
      (s.peer_handshake_info.state = .USB_BAM_SM_PLUG_ACKED ∧
        s.peer_handshake_info.client_ready = false)) ∧
    (∀ c p, Op.peer_reset_callback c p ∈ (usb_bam_sm_work s).2 ↔
      (s.peer_handshake_info.state = .USB_BAM_SM_UNPLUG_NOTIFIED ∧
        (usb_bam_sm_work s).1.peer_handshake_info.state = .USB_BAM_SM_INIT ∧
        c = s.peer_handshake_info.reset_callback ∧ p = s.peer_handshake_info.reset_param)) ∧
    ((s.peer_handshake_info.state = .USB_BAM_SM_UNPLUG_NOTIFIED ∧
        (usb_bam_sm_work s).1.peer_handshake_info.state = .USB_BAM_SM_INIT) ↔
      (s.peer_handshake_info.state = .USB_BAM_SM_UNPLUG_NOTIFIED ∧
        s.peer_handshake_info.ack_received = true ∧
        s.peer_handshake_info.reset_callback ≠ 0)) ∧
    (∀ a b, Op.smsm_change_state_apps a b ∈ (usb_bam_sm_work s).2 → a = !b) ∧
    ((usb_bam_sm_work s).2.filter Op.is_handshake_signal).length ≤ 1 ∧
    ((usb_bam_sm_work s).1.peer_handshake_info.state = s.peer_handshake_info.state →
      (usb_bam_sm_work s).2.filter Op.is_handshake_signal = []) ∧
    ((s.peer_handshake_info.state = .USB_BAM_SM_UNPLUG_NOTIFIED ∧
        s.peer_handshake_info.ack_received = true ∧
        s.peer_handshake_info.reset_callback ≠ 0) →
      usb_bam_sm_work_head s.peer_handshake_info =
        .ok ((s.peer_handshake_info,
          [Op.peer_reset_callback s.peer_handshake_info.reset_callback
            s.peer_handshake_info.reset_param]), some sm_work_resume.to_INIT) ∧
      (usb_bam_sm_work_tail s.peer_handshake_info sm_work_resume.to_INIT).1.state =
        .USB_BAM_SM_INIT ∧
      (usb_bam_sm_work_tail s.peer_handshake_info sm_work_resume.to_INIT).2.filter
        Op.is_handshake_signal = []) ∧
    ((s.peer_handshake_info.state = .USB_BAM_SM_UNPLUG_NOTIFIED ∧
        s.peer_handshake_info.ack_received = true ∧
        s.peer_handshake_info.reset_callback = 0) →
      (usb_bam_sm_work s).fault = some fault.null_pointer ∧
      (usb_bam_sm_work s).1 = s ∧ (usb_bam_sm_work s).2 = []) := by
  obtain ⟨hp1, hp2⟩ := usb_bam_sm_work_proj s
  refine ⟨?_, ?_, ?_, ?_, ?_, ?_, ?_, ?_, ?_, ?_, usb_bam_sm_work_null_callback s⟩ <;>
    (try rw [hp1]) <;> (try rw [hp2]) <;> clear hp1 hp2 <;>
    generalize s.peer_handshake_info = h <;>
    obtain ⟨st, cr, ack, pw, cb, prm⟩ := h <;>
    by_cases hpw : pw = 0 <;> by_cases hcb : cb = 0 <;>
    cases st <;> cases cr <;> cases ack <;>
    simp [usb_bam_sm_work_switch, usb_bam_sm_work_pending, usb_bam_sm_work_head,
      usb_bam_sm_work_tail, Op.is_handshake_signal, hpw, hcb, eq_comm]

/-- C21, at the scenario in UNPLUG_NOTIFIED with the ack latched and the callback 7
registered: the run calls the callback 7 on the parameter 9 and nothing else and ends
in INIT; the call is owed at the end of the first locked region, the state still being
UNPLUG_NOTIFIED. -/
theorem usb_bam_sm_work_signals_witness :
    (usb_bam_sm_work scenario_unplug_state).2 = [Op.peer_reset_callback 7 9] ∧
    (usb_bam_sm_work scenario_unplug_state).1.peer_handshake_info.state = .USB_BAM_SM_INIT ∧
    usb_bam_sm_work_head scenario_unplug_state.peer_handshake_info =
      .ok ((scenario_unplug_state.peer_handshake_info, [Op.peer_reset_callback 7 9]),
        some sm_work_resume.to_INIT) :=
  ⟨by decide, by decide,
   ((usb_bam_sm_work_signals scenario_unplug_state).2.2.2.2.2.2.2.2.2.1
      ⟨rfl, rfl, by decide⟩).1⟩

/-- C22 (the code at the failing input): in the two-pipe scenario only index 1 is
connected, so the HSUSB instance has a connection holding an endpoint handle and one
enabled pipe, while the handle of its first connection, index 0, is `NULL`. Arming the
timer of HSUSB, directly or by writing `hsusb 50` to the control file, takes the handle
of index 0 and issues no timer operation at all; with index 0 connected instead, the
same write issues CONFIG and RESET on its handle. -/
theorem usb_bam_set_inactivity_timer_first_row_without_handle :
    (scenario_second_pipe_state.usb_bam_connections 0).bam_type = usb_bam.HSUSB_BAM ∧
    (scenario_second_pipe_state.usb_bam_connections 1).bam_type = usb_bam.HSUSB_BAM ∧
    scenario_second_pipe_state.sps_pipes 0 = 0 ∧
    scenario_second_pipe_state.sps_pipes 1 = 0x5000 ∧
    (scenario_second_pipe_state.usb_bam_connections 1).enabled = true ∧
    scenario_second_pipe_state.pipes_enabled_per_bam usb_bam.HSUSB_BAM = 1 ∧
    usb_bam_set_inactivity_timer
      { scenario_second_pipe_state with inactivity_timer_ms := fun _ => 50 }
      usb_bam.HSUSB_BAM = [] ∧
    timers_of (usb_bam_store_inactivity_timer scenario_second_pipe_state "hsusb 50".toList 0) =
      some [0, 50, 0] ∧
    ops_of (usb_bam_store_inactivity_timer scenario_second_pipe_state "hsusb 50".toList 0) =
      some [] ∧
    ops_of (usb_bam_store_inactivity_timer (usb_bam_connect scenario_state backend_ok 0 true).st
        "hsusb 50".toList 0) =
      some [Op.sps_timer_ctrl 0x5000 .SPS_TIMER_OP_CONFIG 50,
        Op.sps_timer_ctrl 0x5000 .SPS_TIMER_OP_RESET 50] := by
  decide

theorem disconnect_pipe_lpm (s : State) (idx : Nat) :
    (disconnect_pipe s idx).st.sched_lpm = s.sched_lpm ∧
    ∀ d, Op.pm_runtime_suspend d ∉ (disconnect_pipe s idx).ops := by
  refine ⟨rfl, fun d => ?_⟩
  unfold disconnect_pipe
  dsimp only [Result.plain]
  cases (s.usb_bam_connections idx).mem_type <;> simp <;> (try split_ifs) <;> simp

theorem usb_bam_disconnect_pipe_lpm (s : State) (idx : Nat) :
    (usb_bam_disconnect_pipe s idx).st.sched_lpm = s.sched_lpm ∧
    ∀ d, Op.pm_runtime_suspend d ∉ (usb_bam_disconnect_pipe s idx).ops := by
  obtain ⟨h1, h2⟩ := disconnect_pipe_lpm s idx
  unfold usb_bam_disconnect_pipe
  dsimp only
  split
  · exact ⟨rfl, fun d => by simp [Result.plain]⟩
  · split
    · exact ⟨h1, h2⟩
    · split
      · exact ⟨h1, h2⟩
      · exact ⟨h1, h2⟩

theorem wait_for_prod_release_lpm (s : State) (answer : Int) (b : usb_bam) :
    (wait_for_prod_release s answer b).1.sched_lpm = s.sched_lpm ∧
    ∀ d, Op.pm_runtime_suspend d ∉ (wait_for_prod_release s answer b).2 := by
  unfold wait_for_prod_release
  dsimp only
  split
  · exact ⟨rfl, fun d => by simp⟩
  · split <;> exact ⟨rfl, fun d => by simp⟩

theorem usb_bam_disconnect_ipa_prod_lpm (s : State) (ipa_params : usb_bam_connect_ipa_params)
    (hdl : Nat) (answer ipa_disconnect : Int) :
    (usb_bam_disconnect_ipa_prod s ipa_params hdl answer ipa_disconnect).st.sched_lpm =
      s.sched_lpm ∧
    ∀ d, Op.pm_runtime_suspend d ∉
      (usb_bam_disconnect_ipa_prod s ipa_params hdl answer ipa_disconnect).ops := by
  obtain ⟨h1, h2⟩ := wait_for_prod_release_lpm s answer
    (s.usb_bam_connections ipa_params.dst_idx).bam_type
  unfold usb_bam_disconnect_ipa_prod
  dsimp only
  split
  · refine ⟨h1, fun d => ?_⟩
    simp [Result.plain, h2 d]
  · obtain ⟨h3, h4⟩ := usb_bam_disconnect_pipe_lpm
      (usb_bam_disconnect_ipa_clear
        (wait_for_prod_release s answer (s.usb_bam_connections ipa_params.dst_idx).bam_type).1
        ipa_params.dst_idx) ipa_params.dst_idx
    refine ⟨h3.trans h1, fun d => ?_⟩
    simp [Result.plain, h2 d, h4 d]

theorem usb_bam_disconnect_ipa_cons_lpm (s : State) (ipa_params : usb_bam_connect_ipa_params)
    (hdl : Nat) (ipa_disconnect : Int) (trans : Nat) (ht : trans ≠ 0) :
    ∃ c, usb_bam_disconnect_ipa_cons s ipa_params hdl ipa_disconnect trans = .ok c ∧
      (c.ret = 0 → c.st.lpm_wait_handshake = 0 ∧ c.st.sched_lpm = s.sched_lpm ∧
        (Op.pm_runtime_suspend trans ∈ c.ops ↔ s.sched_lpm ≠ 0)) := by
  obtain ⟨h3, h4⟩ := usb_bam_disconnect_pipe_lpm
    (usb_bam_disconnect_ipa_clear s ipa_params.src_idx) ipa_params.src_idx
  have h3s : (usb_bam_disconnect_pipe (usb_bam_disconnect_ipa_clear s ipa_params.src_idx)
      ipa_params.src_idx).st.sched_lpm = s.sched_lpm := h3
  unfold usb_bam_disconnect_ipa_cons
  dsimp only
  split
  · rename_i hne
    exact ⟨_, rfl, fun h => absurd h hne⟩
  · split
    · rename_i hne
      exact ⟨_, rfl, fun h => absurd h hne⟩
    · unfold usb_bam_start_lpm
      rw [if_neg ht]
      dsimp only
      by_cases hs : s.sched_lpm = 0
      · rw [if_neg (by rw [h3s]; simpa using hs)]
        refine ⟨_, rfl, fun _ => ⟨rfl, h3s, ?_⟩⟩
        simp only [Result.plain, List.append_nil, List.mem_append, h4 trans, or_false, hs,
          ne_eq, not_true_eq_false, iff_false, not_or]
        unfold wait_for_cons_release
        constructor
        · constructor
          · split <;> simp
          · simp
        · split <;> simp
      · rw [if_pos (by rw [h3s]; exact hs)]
        refine ⟨_, rfl, fun _ => ⟨rfl, h3s, ?_⟩⟩
        simp [Result.plain, hs]

/-- C24: `usb_bam_start_lpm`, the transceiver being present, clears
`lpm_wait_handshake` and performs the runtime suspend of the transceiver exactly when
`sched_lpm` is set; `msm_bam_lpm_ok` called next returns true. It is reached at the end
of the consumer branch of `usb_bam_disconnect_ipa`: whenever that function is called
with a consumer handle and returns 0, `lpm_wait_handshake` is cleared, the suspend was
performed exactly when a retry had been recorded, and `msm_bam_lpm_ok` returns true. -/
theorem usb_bam_start_lpm_completes (s : State) (trans : Nat) (ht : trans ≠ 0) :
    usb_bam_start_lpm s trans =
      .ok ({ s with lpm_wait_handshake := 0 },
        if s.sched_lpm ≠ 0 then
          [Op.pm_runtime_resume trans, Op.pm_runtime_put_noidle trans,
            Op.pm_runtime_suspend trans]
        else []) ∧
    msm_bam_lpm_ok { s with lpm_wait_handshake := 0 } =
      (true, { s with lpm_wait_handshake := 0 }) ∧
    (∀ (ipa_params : usb_bam_connect_ipa_params) (prod_clnt_hdl cons_clnt_hdl : Nat)
        (ipa_rm_release_resource ipa_disconnect_prod ipa_disconnect_cons : Int),
      cons_clnt_hdl ≠ 0 →
      ∃ r, usb_bam_disconnect_ipa s ipa_params prod_clnt_hdl cons_clnt_hdl
          ipa_rm_release_resource ipa_disconnect_prod ipa_disconnect_cons trans = .ok r ∧
        (r.ret = 0 →
          r.st.lpm_wait_handshake = 0 ∧
          (Op.pm_runtime_suspend trans ∈ r.ops ↔ s.sched_lpm ≠ 0) ∧
          (msm_bam_lpm_ok r.st).1 = true)) := by
  refine ⟨?_, ?_, ?_⟩
  · unfold usb_bam_start_lpm
    rw [if_neg ht]
    dsimp only
    split <;> rfl
  · simp [msm_bam_lpm_ok]
  · intro ipa_params prod cons answer dp dc hcons
    unfold usb_bam_disconnect_ipa
    rw [if_neg (fun h => hcons h.2)]
    dsimp only
    generalize hpdef : (if prod ≠ 0 then
      usb_bam_disconnect_ipa_prod s ipa_params prod answer dp else Result.plain 0 s []) = p
    have hpl : p.st.sched_lpm = s.sched_lpm ∧ ∀ d, Op.pm_runtime_suspend d ∉ p.ops := by
      subst hpdef
      split
      · exact usb_bam_disconnect_ipa_prod_lpm s ipa_params prod answer dp
      · exact ⟨rfl, fun d => by simp [Result.plain]⟩
    by_cases hret : p.ret ≠ 0
    · rw [if_pos hret]
      exact ⟨p, rfl, fun h => absurd h hret⟩
    · rw [if_neg hret, if_pos hcons]
      obtain ⟨c, hc, hc2⟩ := usb_bam_disconnect_ipa_cons_lpm p.st ipa_params cons dc trans ht
      rw [hc]
      refine ⟨_, rfl, fun hr => ?_⟩
      obtain ⟨h1, h2, h3⟩ := hc2 hr
      refine ⟨h1, ?_, by simp [msm_bam_lpm_ok, h1]⟩
      rw [hpl.1] at h3
      simp only [List.mem_append, hpl.2 trans, false_or]
      exact h3

/-- C24, at the scenario in which a retry was recorded during the sequence: with the
transceiver 7, `usb_bam_disconnect_ipa` on the consumer handle 31 of row 0 returns 0
and ends with the runtime suspend of the transceiver, and `usb_bam_start_lpm` clears
the flag. -/
theorem usb_bam_start_lpm_completes_witness :
    scenario_lpm_pending_state.sched_lpm = 1 ∧
    scenario_lpm_pending_state.lpm_wait_handshake = 1 ∧
    result_of (usb_bam_disconnect_ipa scenario_lpm_pending_state scenario_ipa_params 0 31 0 0 0
        7) =
      some (0,
        [Op.ipa_disconnect 31, Op.sps_disconnect 0x4000, Op.sps_free_endpoint 0x4000,
          Op.writel_relaxed_qscratch_ram1 0, Op.clk_disable_unprepare (clk.ok 1),
          Op.clk_disable_unprepare (clk.ok 2), Op.iounmap 0, Op.iounmap 0,
          Op.ipa_rm_notify_completion_cons .IPA_RM_RESOURCE_RELEASED .HSUSB_BAM,
          Op.pm_runtime_resume 7, Op.pm_runtime_put_noidle 7, Op.pm_runtime_suspend 7]) ∧
    usb_bam_start_lpm scenario_lpm_pending_state 7 =
      .ok ({ scenario_lpm_pending_state with lpm_wait_handshake := 0 },
        if scenario_lpm_pending_state.sched_lpm ≠ 0 then
          [Op.pm_runtime_resume 7, Op.pm_runtime_put_noidle 7, Op.pm_runtime_suspend 7]
        else []) :=
  ⟨by decide, by decide, by decide,
   (usb_bam_start_lpm_completes scenario_lpm_pending_state 7 (by decide)).1⟩

/-- C27 (the code at the failing input): the consumer of HSUSB is already released
while its producer is granted; `wait_for_cons_release`, whose test reads the producer
state, enters the timed wait on `cons_released`, and so does `usb_bam_disconnect_ipa`
called with a consumer handle only. With the producer released it does not wait, also
when the consumer is still granted. -/
theorem wait_for_cons_release_waits_on_producer_state :
    scenario_granted_state.cur_cons_state .HSUSB_BAM =
      ipa_rm_event.IPA_RM_RESOURCE_RELEASED ∧
    scenario_granted_state.cur_prod_state .HSUSB_BAM =
      ipa_rm_event.IPA_RM_RESOURCE_GRANTED ∧
    wait_for_cons_release scenario_granted_state .HSUSB_BAM =
      [Op.wait_for_completion_timeout .cons_released .HSUSB_BAM] ∧
    result_of (usb_bam_disconnect_ipa scenario_granted_state scenario_ipa_params 0 31 0 0 0 7) =
      some (0,
        [Op.wait_for_completion_timeout .cons_released .HSUSB_BAM, Op.ipa_disconnect 31,
          Op.ipa_rm_notify_completion_cons .IPA_RM_RESOURCE_RELEASED .HSUSB_BAM]) ∧
    wait_for_cons_release
      { scenario_state with cur_cons_state := fun _ => .IPA_RM_RESOURCE_GRANTED }
      .HSUSB_BAM = [] := by
  decide

/-- C23 (the code at the failing input): row 0 of the scenario, a private-core-memory
connection, is connected while `mem_iface_clk` is an error pointer; `usb_bam_connect`
returns 0 and marks the row enabled although no clock was enabled, the private-RAM
register was not written and no FIFO was mapped. The disconnect that follows writes
0x0 to the register and disables both clocks, the error pointer included. With both
clocks present the same connect enables both clocks, writes 0x4 and maps both FIFOs at
offset plus platform base address. -/
theorem usb_bam_connect_private_mem_without_clocks :
    (iface_clk_missing_state.usb_bam_connections 0).mem_type =
      usb_pipe_mem_type.USB_PRIVATE_MEM ∧
    (usb_bam_connect iface_clk_missing_state backend_ok 0 true).ret = 0 ∧
    ((usb_bam_connect iface_clk_missing_state backend_ok 0 true).st.usb_bam_connections
      0).enabled = true ∧
    (∀ c, Op.clk_prepare_enable c ∉ (usb_bam_connect iface_clk_missing_state backend_ok 0
      true).ops) ∧
    (∀ v, Op.writel_relaxed_qscratch_ram1 v ∉
      (usb_bam_connect iface_clk_missing_state backend_ok 0 true).ops) ∧
    (usb_bam_disconnect_pipe (usb_bam_connect iface_clk_missing_state backend_ok 0 true).st
        0).ops =
      [Op.sps_disconnect 0x5000, Op.sps_free_endpoint 0x5000,
        Op.writel_relaxed_qscratch_ram1 0, Op.clk_disable_unprepare (clk.ok 1),
        Op.clk_disable_unprepare (clk.err (-2)), Op.iounmap 0, Op.iounmap 0] ∧
    (usb_bam_connect scenario_state backend_ok 0 true).ops =
      [Op.sps_alloc_endpoint, Op.sps_get_config 0x5000, Op.sps_phy2h 0x1000,
        Op.sps_phy2h 0x2000, Op.clk_prepare_enable (clk.ok 1),
        Op.clk_prepare_enable (clk.ok 2), Op.writel_relaxed_qscratch_ram1 0x4,
        Op.ioremap (0xF0000000 + 0x100) 0x200, Op.ioremap (0xF0000000 + 0x400) 0x80,
        Op.sps_connect 0x5000] := by
  refine ⟨by decide, by decide, by decide, ?_, ?_, by decide, by decide⟩
  · have h : (usb_bam_connect iface_clk_missing_state backend_ok 0 true).ops =
        [Op.sps_alloc_endpoint, Op.sps_get_config 0x5000, Op.sps_phy2h 0x1000,
          Op.sps_phy2h 0x2000, Op.sps_free_endpoint 0x5000] := by decide
    intro c
    rw [h]
    simp
  · have h : (usb_bam_connect iface_clk_missing_state backend_ok 0 true).ops =
        [Op.sps_alloc_endpoint, Op.sps_get_config 0x5000, Op.sps_phy2h 0x1000,
          Op.sps_phy2h 0x2000, Op.sps_free_endpoint 0x5000] := by decide
    intro v
    rw [h]
    simp

theorem handshake_pending_work_accounting (s : State) :
    (∀ ready queued, s.peer_handshake_info.client_ready ≠ ready →
      (usb_bam_client_ready s ready queued).2 = [Op.queue_work_handshake] ∧
      (usb_bam_client_ready s ready queued).1.peer_handshake_info.client_ready = ready ∧
      (usb_bam_client_ready s ready queued).1.peer_handshake_info.pending_work =
        s.peer_handshake_info.pending_work + (if queued then 0 else 1)) ∧
    (∀ queued, usb_bam_client_ready s s.peer_handshake_info.client_ready queued = (s, [])) ∧
    (∀ new_state_bit queued, new_state_bit ≠ s.last_processed_state →
      (usb_bam_ack_toggle_cb s new_state_bit queued).2 = [Op.queue_work_handshake] ∧
      (usb_bam_ack_toggle_cb s new_state_bit queued).1.peer_handshake_info.ack_received =
        true ∧
      (usb_bam_ack_toggle_cb s new_state_bit queued).1.last_processed_state = new_state_bit ∧
      (usb_bam_ack_toggle_cb s new_state_bit queued).1.peer_handshake_info.pending_work =
        s.peer_handshake_info.pending_work + (if queued then 0 else 1)) ∧
    (∀ queued, usb_bam_ack_toggle_cb s s.last_processed_state queued = (s, [])) ∧
    (∀ step, usb_bam_sm_work_switch s.peer_handshake_info = .ok step →
      (s.peer_handshake_info.pending_work ≠ 0 →
        (usb_bam_sm_work s).1.peer_handshake_info.pending_work =
          s.peer_handshake_info.pending_work - 1 ∧
        (usb_bam_sm_work s).2.count Op.queue_work_handshake = 1) ∧
      (s.peer_handshake_info.pending_work = 0 →
        (usb_bam_sm_work s).1.peer_handshake_info.pending_work = 0 ∧
        (usb_bam_sm_work s).2.count Op.queue_work_handshake = 0)) := by
  refine ⟨?_, ?_, ?_, ?_, ?_⟩
  · intro ready queued h
    cases queued <;> simp [usb_bam_client_ready, h]
  · intro queued
    simp [usb_bam_client_ready]
  · intro bit queued h
    cases queued <;> simp [usb_bam_ack_toggle_cb, h]
  · intro queued
    simp [usb_bam_ack_toggle_cb]
  · obtain ⟨hp1, hp2⟩ := usb_bam_sm_work_proj s
    rw [hp1, hp2]
    clear hp1 hp2
    generalize s.peer_handshake_info = h
    obtain ⟨st, cr, ack, pw, cb, prm⟩ := h
    intro step hstep
    by_cases hpw : pw = 0 <;> by_cases hcb : cb = 0 <;>
      cases st <;> cases cr <;> cases ack <;>
      simp [usb_bam_sm_work_switch, hcb] at hstep <;>
      simp [usb_bam_sm_work_switch, usb_bam_sm_work_pending, hpw, hcb]

/-- C25 (the code at the failing input): the handshake starts in INIT with nothing
queued. The client becomes ready and the worker run starts; while that run is in its
window around `smsm_change_state`, the remote ack arrives, which queues the worker
again, and the client becomes not ready, which finds the worker queued and raises
`pending_work` to 1. The second locked region of the first run then lowers
`pending_work` to 0 and calls `queue_work` on the work item that is already queued,
which does nothing. The one run that is left takes PLUG_NOTIFIED to PLUG_ACKED. The
handshake ends in PLUG_ACKED with `client_ready` clear, where a run would go on to
UNPLUG_NOTIFIED, with `pending_work` 0 and no run queued: one event is lost. -/
theorem usb_bam_sm_work_requeue_on_queued_item_drops_event :
    (run_handshake_queue scenario_handshake_queue
      (scenario_handshake_steps.take 4)).st.peer_handshake_info.pending_work = 1 ∧
    (run_handshake_queue scenario_handshake_queue
      (scenario_handshake_steps.take 4)).work_pending = true ∧
    (run_handshake_queue scenario_handshake_queue
      (scenario_handshake_steps.take 4)).window = some sm_work_resume.to_PLUG_NOTIFIED ∧
    (run_handshake_queue scenario_handshake_queue
      (scenario_handshake_steps.take 5)).st.peer_handshake_info.pending_work = 0 ∧
    (run_handshake_queue scenario_handshake_queue
      (scenario_handshake_steps.take 5)).work_pending = true ∧
    (run_handshake_queue scenario_handshake_queue
      scenario_handshake_steps).st.peer_handshake_info.state = .USB_BAM_SM_PLUG_ACKED ∧
    (run_handshake_queue scenario_handshake_queue
      scenario_handshake_steps).st.peer_handshake_info.client_ready = false ∧
    (run_handshake_queue scenario_handshake_queue
      scenario_handshake_steps).st.peer_handshake_info.pending_work = 0 ∧
    (run_handshake_queue scenario_handshake_queue scenario_handshake_steps).work_pending =
      false ∧
    (run_handshake_queue scenario_handshake_queue scenario_handshake_steps).window = none ∧
    (usb_bam_sm_work
      (run_handshake_queue scenario_handshake_queue
        scenario_handshake_steps).st).1.peer_handshake_info.state =
      .USB_BAM_SM_UNPLUG_NOTIFIED := by
  decide

/-- C28: `get_bam_type_from_core_name` maps each entry of `bam_enable_strings` back to
its instance. For any name, with `n` its first 50 characters: if `n` contains `ssusb`
or `dwc3` the result is SSUSB; otherwise, if it contains `hsic`, HSIC; otherwise, if
it contains `hsusb` or `ci`, HSUSB; otherwise `-EINVAL`. The result is always one of
the three instances or `-EINVAL`. -/
theorem get_bam_type_from_core_name_resolves :
    (∀ b : usb_bam, get_bam_type_from_core_name (bam_enable_strings b) = b.val) ∧
    (∀ name : List Char,
      (("ssusb".toList <:+: name.take 50 ∨ "dwc3".toList <:+: name.take 50) →
        get_bam_type_from_core_name name = usb_bam.SSUSB_BAM.val) ∧
      (¬("ssusb".toList <:+: name.take 50 ∨ "dwc3".toList <:+: name.take 50) →
        "hsic".toList <:+: name.take 50 →
        get_bam_type_from_core_name name = usb_bam.HSIC_BAM.val) ∧
      (¬("ssusb".toList <:+: name.take 50 ∨ "dwc3".toList <:+: name.take 50) →
        ¬"hsic".toList <:+: name.take 50 →
        ("hsusb".toList <:+: name.take 50 ∨ "ci".toList <:+: name.take 50) →
        get_bam_type_from_core_name name = usb_bam.HSUSB_BAM.val) ∧
      (¬("ssusb".toList <:+: name.take 50 ∨ "dwc3".toList <:+: name.take 50) →
        ¬"hsic".toList <:+: name.take 50 →
        ¬("hsusb".toList <:+: name.take 50 ∨ "ci".toList <:+: name.take 50) →
        get_bam_type_from_core_name name = -EINVAL)) ∧
    (∀ name : List Char,
      get_bam_type_from_core_name name = -EINVAL ∨
        ∃ b : usb_bam, get_bam_type_from_core_name name = b.val) := by
  refine ⟨fun b => by cases b <;> decide, fun name => ⟨?_, ?_, ?_, ?_⟩,
    get_bam_type_from_core_name_range⟩
  · intro h
    unfold get_bam_type_from_core_name
    rw [if_pos]
    simpa [strnstr, bam_enable_strings, USB_BAM_MAX_STR_LEN] using h
  · intro h1 h2
    unfold get_bam_type_from_core_name
    rw [if_neg, if_pos]
    · simpa [strnstr, bam_enable_strings, USB_BAM_MAX_STR_LEN] using h2
    · simpa [strnstr, bam_enable_strings, USB_BAM_MAX_STR_LEN] using h1
  · intro h1 h2 h3
    unfold get_bam_type_from_core_name
    rw [if_neg, if_neg, if_pos]
    · simpa [strnstr, bam_enable_strings, USB_BAM_MAX_STR_LEN] using h3
    · simpa [strnstr, bam_enable_strings, USB_BAM_MAX_STR_LEN] using h2
    · simpa [strnstr, bam_enable_strings, USB_BAM_MAX_STR_LEN] using h1
  · intro h1 h2 h3
    unfold get_bam_type_from_core_name
    rw [if_neg, if_neg, if_neg]
    · simpa [strnstr, bam_enable_strings, USB_BAM_MAX_STR_LEN] using h3
    · simpa [strnstr, bam_enable_strings, USB_BAM_MAX_STR_LEN] using h2
    · simpa [strnstr, bam_enable_strings, USB_BAM_MAX_STR_LEN] using h1

/-- C29 (the code at the failing input): the loaded two-pipe scenario has no enabled
connection whose name contains `a2`. `usb_bam_a2_reset` leaves its `u8` variable `bam`
at 255, the test `bam != -1` holds, and the function reads `ctx.h_bam[255]` to issue a
device reset, where the claim says no handle is read and 0 is returned. With an enabled
A2 connection on HSUSB the reset is issued on the handle of HSUSB, between the
disconnect and the reconnect of that connection. -/
theorem usb_bam_a2_reset_without_a2_connection :
    (∀ i, i < scenario_state.max_connections →
      (strnstr (scenario_state.usb_bam_connections i).name "a2".toList USB_BAM_MAX_STR_LEN &&
        (scenario_state.usb_bam_connections i).enabled) = false) ∧
    result_fault_of (usb_bam_a2_reset scenario_state (fun _ => backend_ok)) =
      some (fault.array_index 255) ∧
    result_of (usb_bam_a2_reset scenario_state (fun _ => backend_ok)) = none ∧
    scenario_a2_state.h_bam usb_bam.HSUSB_BAM = 101 ∧
    result_of (usb_bam_a2_reset scenario_a2_state (fun _ => backend_ok)) =
      some (0,
        [Op.sps_disconnect 0x4000, Op.sps_free_endpoint 0x4000, Op.sps_device_reset 101,
          Op.sps_alloc_endpoint, Op.sps_get_config 0x5000, Op.sps_phy2h 0x1000,
          Op.sps_phy2h 0x2000, Op.dma_alloc_coherent 0x200, Op.dma_alloc_coherent 0x80,
          Op.sps_connect 0x5000]) := by
  decide

/-- C30: once the device is published, on an index below `max_connections` that is
already enabled `usb_bam_connect_ipa` returns 0 without any external call and leaves the
table and the counters as they are; when the instance of the connection is HSUSB the
state after the call is the state before with `sched_lpm` reset to 0 and
`lpm_wait_handshake` set to 1, so that a retry recorded by `msm_bam_lpm_ok` is gone; for
any other instance the state is unchanged. With `NULL` parameters, or an index not below
`max_connections`, it returns `-EINVAL` with no external call and the state unchanged.
While the device is not published the function reads through a `NULL` device pointer
before any of these tests, whatever the parameters. -/
theorem usb_bam_connect_ipa_enabled_effect (s : State) (be : Backend) :
    (s.usb_bam_pdev = true →
      (∀ p : usb_bam_connect_ipa_params, p.idx < s.max_connections →
        (s.usb_bam_connections p.idx).enabled = true →
        (∃ r : Result, usb_bam_connect_ipa s be (some p) = .ok r ∧
          r.ret = 0 ∧ r.ops = [] ∧
          r.st.usb_bam_connections = s.usb_bam_connections ∧
          r.st.pipes_enabled_per_bam = s.pipes_enabled_per_bam) ∧
        ((s.usb_bam_connections p.idx).bam_type = usb_bam.HSUSB_BAM →
          usb_bam_connect_ipa s be (some p) =
            .ok (Result.plain 0 { s with sched_lpm := 0, lpm_wait_handshake := 1 } []) ∧
          (s.lpm_wait_handshake ≠ 0 →
            (msm_bam_lpm_ok s).2.sched_lpm = 1 ∧
            usb_bam_connect_ipa (msm_bam_lpm_ok s).2 be (some p) =
              .ok (Result.plain 0
                { (msm_bam_lpm_ok s).2 with sched_lpm := 0, lpm_wait_handshake := 1 } []))) ∧
        ((s.usb_bam_connections p.idx).bam_type ≠ usb_bam.HSUSB_BAM →
          usb_bam_connect_ipa s be (some p) = .ok (Result.plain 0 s []))) ∧
      (∀ p : usb_bam_connect_ipa_params, s.max_connections ≤ p.idx →
        usb_bam_connect_ipa s be (some p) = .ok (Result.plain (-EINVAL) s [])) ∧
      usb_bam_connect_ipa s be none = .ok (Result.plain (-EINVAL) s [])) ∧
    (s.usb_bam_pdev = false →
      ∀ p : Option usb_bam_connect_ipa_params,
        usb_bam_connect_ipa s be p = .error fault.null_pointer) := by
  refine ⟨fun hdev => ⟨fun p hidx hen => ?_, fun p hidx => ?_, ?_⟩, fun hdev p => ?_⟩
  · have hst : ∀ t : State, t.usb_bam_pdev = true →
        t.max_connections = s.max_connections →
        t.usb_bam_connections = s.usb_bam_connections →
        usb_bam_connect_ipa t be (some p) =
          .ok (Result.plain 0
            (usb_bam_connect_ipa_lpm t (s.usb_bam_connections p.idx).bam_type) []) := by
      intro t hd hm hc
      unfold usb_bam_connect_ipa
      rw [if_neg (by rw [hd]; decide)]
      unfold usb_bam_connect_ipa_body
      dsimp only
      rw [if_neg (by rw [hm]; omega), hc]
      have hen1 : ((usb_bam_connect_ipa_lpm t
          (s.usb_bam_connections p.idx).bam_type).usb_bam_connections p.idx).enabled = true := by
        unfold usb_bam_connect_ipa_lpm
        split <;> simp [hc, hen]
      rw [if_pos hen1]
    rw [hst s hdev rfl rfl]
    refine ⟨⟨_, rfl, rfl, rfl, ?_, ?_⟩, fun hb => ⟨?_, fun hw => ⟨?_, ?_⟩⟩, fun hb => ?_⟩
    · unfold usb_bam_connect_ipa_lpm
      split <;> rfl
    · unfold usb_bam_connect_ipa_lpm
      split <;> rfl
    · simp [usb_bam_connect_ipa_lpm, hb]
    · simp [msm_bam_lpm_ok, hw]
    · rw [hst (msm_bam_lpm_ok s).2
        (by rw [← hdev]; unfold msm_bam_lpm_ok; split <;> rfl)
        (by unfold msm_bam_lpm_ok; split <;> rfl)
        (by unfold msm_bam_lpm_ok; split <;> rfl)]
      simp [usb_bam_connect_ipa_lpm, hb]
    · simp [usb_bam_connect_ipa_lpm, hb]
  · unfold usb_bam_connect_ipa
    rw [if_neg (by rw [hdev]; decide)]
    unfold usb_bam_connect_ipa_body
    dsimp only
    rw [if_pos hidx]
  · unfold usb_bam_connect_ipa
    rw [if_neg (by rw [hdev]; decide)]
    rfl
  · unfold usb_bam_connect_ipa
    rw [if_pos hdev]

/-- C30, at the scenario in which the device is published, both pipes are enabled and
`msm_bam_lpm_ok` has recorded a retry: the accelerator connect of index 1 of HSUSB
returns 0 without any external call and resets `sched_lpm`. -/
theorem usb_bam_connect_ipa_enabled_effect_witness :
    scenario_lpm_pending_state.usb_bam_pdev = true ∧
    scenario_ipa_params.idx = 1 ∧
    scenario_lpm_pending_state.sched_lpm = 1 ∧
    usb_bam_connect_ipa scenario_lpm_pending_state backend_ok (some scenario_ipa_params) =
      .ok (Result.plain 0
        { scenario_lpm_pending_state with sched_lpm := 0, lpm_wait_handshake := 1 } []) ∧
    usb_bam_connect_ipa { scenario_lpm_pending_state with usb_bam_pdev := false } backend_ok
      (some scenario_ipa_params) = .error fault.null_pointer :=
  ⟨by decide, by decide, by decide,
   ((((usb_bam_connect_ipa_enabled_effect scenario_lpm_pending_state backend_ok).1
      (by decide)).1 scenario_ipa_params (by decide) (by decide)).2.1 (by decide)).1,
   (usb_bam_connect_ipa_enabled_effect
      { scenario_lpm_pending_state with usb_bam_pdev := false } backend_ok).2 rfl _⟩

theorem disconnect_pipe_private_mem_ops (s : State) (idx : Nat)
    (hm : (s.usb_bam_connections idx).mem_type = usb_pipe_mem_type.USB_PRIVATE_MEM) :
    (disconnect_pipe s idx).ops =
      [Op.sps_disconnect (s.sps_pipes idx), Op.sps_free_endpoint (s.sps_pipes idx),
        Op.writel_relaxed_qscratch_ram1 0x0, Op.clk_disable_unprepare s.mem_clk,
        Op.clk_disable_unprepare s.mem_iface_clk,
        Op.iounmap (s.sps_connections idx).data.base,
        Op.iounmap (s.sps_connections idx).desc.base] := by
  unfold disconnect_pipe
  simp [hm, Result.plain]

theorem connect_pipe_mem_private_mem (ret : Int) (s : State) (be : Backend) (idx : Nat)
    (ops : List Op) (pipe : Nat) (out : Option Nat)
    (hm : (s.usb_bam_connections idx).mem_type = usb_pipe_mem_type.USB_PRIVATE_MEM)
    (h1 : IS_ERR s.mem_clk = false) (h2 : IS_ERR s.mem_iface_clk = false) :
    connect_pipe_mem ret s be idx ops pipe out =
      connect_pipe_oci_mem s be idx
        (ops ++ [Op.clk_prepare_enable s.mem_clk, Op.clk_prepare_enable s.mem_iface_clk] ++
          [Op.writel_relaxed_qscratch_ram1
            (if (s.usb_bam_connections idx).bam_type = usb_bam.HSUSB_BAM then 0x4 else 0x7)])
        pipe out := by
  have hv := usb_bam_val_nonneg (s.usb_bam_connections idx).bam_type
  unfold connect_pipe_mem
  simp only [hm, h1, h2]
  rw [if_neg (by simp), if_neg (by omega)]

end UsbBam
